import Mathlib

/-!
Coach agent of ssl-fedit (librcsc): message dispatch and time synchronisation.

A shallow embedding of `src/rcsc/coach/coach_agent.cpp`.

Conventions of the embedding.

* A C++ `long` / `int` variable is an `Int`.  Signed arithmetic that would
  overflow is undefined behaviour in C++, so the embedding follows the
  mathematical value; the one conversion that is defined to wrap, the
  `static_cast< int >` of a `std::string` length, is modelled by `toInt32`.
* A `double` configuration value (the protocol version) is a rational.
* A `std::string` / C string is a `String` (one `Char` per C `char`).
* The collaborators whose classes are declared outside `src/` (the transport
  `BasicClient`, `GlobalWorldModel`, `GlobalVisualSensor`, `GameMode`, the
  command renderers) are represented by the list of mutating calls made on
  them, oldest first; what their const queries answer is a parameter (`Env`).
* `std::cerr` output is the list `cerr` of diagnostic tags; the debug log
  (`dlog`) is not modelled.
-/

namespace rcsc

/-! ## Data model -/

/-- Game time of librcsc: the server cycle and the number of steps counted
while the server clock is stopped (`GameTime( cycle, stopped )`).  The
operators `==` and `!=` of the source are equality of both components. -/
structure GameTime where
  cycle : Int
  stopped : Int
  deriving DecidableEq, Repr

/-- The member function `GameTime::assign( cycle, stopped )`. -/
def GameTime.assign (_self : GameTime) (c s : Int) : GameTime :=
  { cycle := c, stopped := s }

/-- Modelled from the spec: the comparison operators of `GameTime` are declared
in `game_time.h`, outside `src/`.  The spec's data model gives the total order:
compare `cycle` first, then `stopped_step`. -/
def GameTime.le (a b : GameTime) : Prop :=
  a.cycle < b.cycle ∨ (a.cycle = b.cycle ∧ a.stopped ≤ b.stopped)

instance : LE GameTime := ⟨GameTime.le⟩

instance GameTime.decLe (a b : GameTime) : Decidable (a ≤ b) :=
  inferInstanceAs (Decidable (a.cycle < b.cycle ∨ (a.cycle = b.cycle ∧ a.stopped ≤ b.stopped)))

/-- Side identifier (`SideID`). -/
inductive SideID where
  | LEFT
  | NEUTRAL
  | RIGHT
  deriving DecidableEq, Repr

/-- One call of `GlobalVisualSensor::parse( msg, version, current )`. -/
structure VisualParse where
  msg : String
  version : Rat
  current : GameTime
  deriving DecidableEq

/-- The visual sensor `visual_`: the `parse` calls made on it, oldest first. -/
abbrev GlobalVisualSensor := List VisualParse

/-- One call of `GameMode::update( mode, current )`. -/
structure GameModeUpdate where
  mode : String
  current : GameTime
  deriving DecidableEq

/-- The referee information `game_mode_`: the `update` calls made on it. -/
abbrev GameMode := List GameModeUpdate

/-- Mutating calls the coach agent makes on `M_worldmodel`. -/
inductive WorldCall where
  | init (side : SideID) (version : Rat)
  | updateAfterSeeGlobal (visual : GlobalVisualSensor) (current : GameTime)
  | updateGameMode (game_mode : GameMode) (current : GameTime)
  | setYellowCard (side : SideID) (unum : Int)
  | setRedCard (side : SideID) (unum : Int)
  | setTrainingTime (current : GameTime)
  | incFreeformSendCount
  | initFreeformCount
  | setPlayerType (side : SideID) (unum : Int) (type : Int)
  | setTeamName (side : SideID) (name : String)
  deriving DecidableEq

/-- The world model `M_worldmodel`: the mutating calls made on it. -/
abbrev GlobalWorldModel := List WorldCall

/-- The transport `M_client` (`BasicClient`). -/
structure BasicClient where
  /-- The flag behind `isServerAlive()` / `setServerAlive()`. -/
  serverAlive : Bool
  /-- The argument of every `sendMessage` call, oldest first. -/
  sent : List String
  /-- The number of `printOfflineThink()` calls. -/
  offlineThinks : Nat
  /-- The value last given to `setIntervalMSec`, if any. -/
  intervalMSec : Option Int := none
  /-- The value last given to `setCompressionLevel`, if any. -/
  compressionLevel : Option Int := none
  deriving DecidableEq

/-- The values of the `ServerParam` singleton that the coach agent reads. -/
structure ServerParam where
  synchMode : Bool
  coachSayMsgSize : Int
  slowDownFactor : Int
  deriving DecidableEq

/-- The values of `CoachConfig` that the modelled functions read. -/
structure CoachConfig where
  version : Rat
  offlineLogging : Bool
  maxTeamGraphicPerCycle : Int
  teamName : String := ""
  debug : Bool := false
  useEye : Bool := false
  hearSay : Bool := false
  compression : Int := -1
  serverWaitSeconds : Int := 5
  intervalMSec : Int := 10
  deriving DecidableEq

/-- Outbound commands (`CoachCommand` subclasses) built by the modelled code. -/
inductive CoachCommand where
  | done
  | bye
  | checkBall
  | say (msg : String)
  | eye (switch : Bool)
  | compression (level : Int)
  | changePlayerType (unum : Int) (type : Int)
  | look
  | teamNames
  deriving DecidableEq

/-- Lines written to `std::cerr` by the modelled functions. -/
inductive Diag where
  | prevServerTimeIncorrect (prev : GameTime) (new_time : Int)
  | failedToParseTime (msg : String)
  | invalidFreeformLength (length : Nat)
  | cannotSendWhilePlayon
  | cannotSendFreeformNow
  | tileNotFound (x y : Int)
  | unsupportedMessage (msg : String)
  | unexpectedInit (msg : String)
  | debugLogOpenFailed
  | failedToParseSender (msg : String)
  | failedToScanPlaymode (msg : String)
  | yellowCardParseError (msg : String)
  | redCardParseError (msg : String)
  | unknownPlaymode (mode : String)
  | changePlayerTypeParseError (msg : String)
  | recv (msg : String)
  | recvOkLook
  | recvOkCheckBall
  | setCompressionLevel (level : Int)
  | illegalMessage (msg : String)
  | waitedServerDown (seconds : Int)
  | missedAction (counter : Nat) (start_time end_time : GameTime)
  | finished
  | illegalPlayerNumber (unum : Int)
  | illegalPlayerType (type : Int)
  deriving DecidableEq

/-- One call on the audio sensor `audio_` (`CoachAudioSensor`). -/
inductive AudioCall where
  | setTeamName (name : String)
  | parsePlayerMessage (msg : String) (current : GameTime)
  deriving DecidableEq

/-- The audio sensor `audio_`: the calls the agent makes on it, oldest first. -/
abbrev CoachAudioSensor := List AudioCall

/-- One call on the `PlayerTypeSet` singleton. -/
inductive PlayerTypeSetCall where
  | insert (msg : String) (version : Rat)
  | resetDefaultType
  deriving DecidableEq

/-- One call of `PlayerParam::parse( msg, version )` on the singleton. -/
structure PlayerParamParse where
  msg : String
  version : Rat
  deriving DecidableEq

/-- A team graphic as `doTeamGraphic` uses it: `tiles().find( Index( x, y ) )`,
giving the text that the tile's `print` writes, if the tile exists. -/
abbrev TeamGraphic := Int → Int → Option String

/-- The coach agent: the members of `CoachAgent::Impl` (names as in the
source), the members of `CoachAgent` the modelled code touches, the two
function-local statics of `doTeamGraphic`, and the instrumentation
(`cerr`, `actionImplCalls`). -/
structure CoachAgent where
  think_received_ : Bool
  server_cycle_stopped_ : Bool
  last_decision_time_ : GameTime
  current_time_ : GameTime
  game_mode_ : GameMode
  visual_ : GlobalVisualSensor
  M_client : BasicClient
  M_worldmodel : GlobalWorldModel
  serverParam : ServerParam
  /-- The static `send_count` of `doTeamGraphic`. -/
  send_count : Int
  /-- The static `send_time` of `doTeamGraphic`. -/
  send_time : GameTime
  cerr : List Diag
  /-- The number of times `actionImpl()` has been invoked. -/
  actionImplCalls : Nat
  audio_ : CoachAudioSensor := []
  /-- The member `M_team_graphic_ok_set`. -/
  M_team_graphic_ok_set : List (Int × Int) := []
  /-- The calls made on the `PlayerTypeSet` singleton. -/
  playerTypeSet : List PlayerTypeSetCall := []
  /-- The calls made on the `PlayerParam` singleton. -/
  playerParam : List PlayerParamParse := []
  /-- Lines written to `std::cout`. -/
  cout : List Diag := []
  deriving DecidableEq

/-- What lies outside `src/`: the configuration, and the answers of the
collaborators' queries as functions of the calls made on them so far. -/
structure Env where
  config : CoachConfig
  /-- The value of `CoachCommand::toStr` for a command. -/
  toStr : CoachCommand → String
  /-- The value returned by `BasicClient::sendMessage` (bytes written). -/
  sendMessage : BasicClient → String → Int
  /-- The value of `GlobalVisualSensor::time()`. -/
  visualTime : GlobalVisualSensor → GameTime
  /-- The value of `GameMode::isServerCycleStoppedMode()`. -/
  isServerCycleStoppedMode : GameMode → Bool
  /-- Whether `world().gameMode().type() == GameMode::PlayOn`. -/
  worldIsPlayOn : GlobalWorldModel → Bool
  /-- The value of `GlobalWorldModel::canSendFreeform()`. -/
  canSendFreeform : GlobalWorldModel → Bool
  /-- The virtual `actionImpl()` of the derived coach. -/
  actionImpl : CoachAgent → CoachAgent
  /-- The value returned by `GameMode::update( mode, current )` on a game mode
  with the given calls behind it. -/
  gameModeUpdate : GameMode → String → GameTime → Bool := fun _ _ _ => false
  /-- The value of `GameMode::isGameEndMode()`. -/
  isGameEndMode : GameMode → Bool := fun _ => false
  /-- Whether `dlog.isOpen()` holds after `dlog.open( filepath )`. -/
  debugLogOpens : Bool := true
  /-- The constant `Unum_Unknown` of `rcsc/types.h`. -/
  Unum_Unknown : Int := -1
  /-- The constant `Hetero_Unknown` of `rcsc/types.h`. -/
  Hetero_Unknown : Int := -1
  /-- The value of `GlobalWorldModel::ourSide()`. -/
  ourSide : GlobalWorldModel → SideID := fun _ => SideID.NEUTRAL
  /-- The value of `GlobalWorldModel::theirSide()`. -/
  theirSide : GlobalWorldModel → SideID := fun _ => SideID.NEUTRAL
  /-- The `ServerParam` singleton after `parse( msg, version )`. -/
  parseServerParam : ServerParam → String → Rat → ServerParam := fun sp _ _ => sp
  /-- The constant `Hetero_Default` of `rcsc/types.h`. -/
  Hetero_Default : Int := 0
  /-- The value of `PlayerParam::i().playerTypes()` after the given `parse` calls. -/
  playerTypes : List PlayerParamParse → Int := fun _ => 18

/-- The state built by the constructors `CoachAgent::CoachAgent` and
`CoachAgent::Impl::Impl`, with the statics of `doTeamGraphic` at their
initialisers.  The transport and the `ServerParam` singleton are built
elsewhere and are taken as given. -/
def CoachAgent.new (client : BasicClient) (sp : ServerParam) : CoachAgent :=
  { think_received_ := false
    server_cycle_stopped_ := true
    last_decision_time_ := { cycle := -1, stopped := 0 }
    current_time_ := { cycle := 0, stopped := 0 }
    game_mode_ := []
    visual_ := []
    M_client := client
    M_worldmodel := []
    serverParam := sp
    send_count := 0
    send_time := { cycle := -1, stopped := 0 }
    cerr := []
    actionImplCalls := 0 }

/-! ## Time synchronisation -/

/-- The function `CoachAgent::Impl::updateCurrentTime`. -/
def updateCurrentTime (s : CoachAgent) (new_time : Int) (by_see_global : Bool) : CoachAgent :=
  if s.server_cycle_stopped_ then
    if new_time ≠ s.current_time_.cycle then
      let s1 :=
        if new_time - 1 ≠ s.current_time_.cycle then
          { s with cerr := s.cerr ++ [Diag.prevServerTimeIncorrect s.current_time_ new_time] }
        else s
      { s1 with current_time_ := s1.current_time_.assign new_time 0 }
    else
      if by_see_global then
        { s with current_time_ :=
            s.current_time_.assign s.current_time_.cycle (s.current_time_.stopped + 1) }
      else s
  else
    { s with current_time_ := s.current_time_.assign new_time 0 }

/-- The function `CoachAgent::Impl::updateServerStatus`. -/
def updateServerStatus (env : Env) (s : CoachAgent) : CoachAgent :=
  let s1 := if s.server_cycle_stopped_ then { s with server_cycle_stopped_ := false } else s
  if env.isServerCycleStoppedMode s1.game_mode_ then
    { s1 with server_cycle_stopped_ := true }
  else s1

/-- The transition of the time synchroniser as the specification words it (4.2):
stopped and a different cycle gives `(newCycle, 0)`; stopped and the same cycle
advances the sub-step on a vision update only; running always gives
`(newCycle, 0)`. -/
def referenceTransition (stoppedMode : Bool) (current : GameTime) (newCycle : Int)
    (isVisionUpdate : Bool) : GameTime :=
  match stoppedMode with
  | true =>
    if newCycle ≠ current.cycle then { cycle := newCycle, stopped := 0 }
    else if isVisionUpdate then { cycle := current.cycle, stopped := current.stopped + 1 }
    else current
  | false => { cycle := newCycle, stopped := 0 }

/-- Successive vision updates that all carry the cycle `c`: `n` calls of
`updateCurrentTime( c, true )`. -/
def visionUpdates (c : Int) : Nat → CoachAgent → CoachAgent
  | 0, s => s
  | n + 1, s => visionUpdates c n (updateCurrentTime s c true)

/-! ## Scanning the cycle of a time-bearing message -/

/-- The C string behind a `const char *`: the characters before the first NUL. -/
def cstr (msg : String) : List Char :=
  msg.toList.takeWhile (fun c => c ≠ Char.ofNat 0)

/-- The text behind `str.c_str()` when it is read as a C string: the characters
before the first NUL. -/
def c_str (str : String) : String :=
  String.mk (cstr str)

/-- The function `isspace` of the C locale. -/
def isSpace (c : Char) : Bool :=
  c = ' ' || c = '\t' || c = '\n' || c = Char.ofNat 11 || c = Char.ofNat 12 || c = '\r'

/-- White space skipped by a `scanf` conversion or white-space directive. -/
def skipSpaces (inp : List Char) : List Char :=
  inp.dropWhile isSpace

/-- The conversion `%<width>s`: white space is skipped, then at most `width`
characters that are not white space are taken; it fails when there is none.
Gives the word and the rest of the input. -/
def scanWord (width : Nat) (inp : List Char) : Option (List Char × List Char) :=
  let rest := skipSpaces inp
  let word := (rest.takeWhile (fun c => !isSpace c)).take width
  if word.isEmpty then none else some (word, rest.drop word.length)

/-- The value of a string of decimal digits. -/
def decimalValue (ds : List Char) : Nat :=
  ds.foldl (fun acc c => 10 * acc + (c.toNat - '0'.toNat)) 0

/-- The conversion `%ld`: white space is skipped, then an optional sign and
one or more decimal digits are read.  Gives the value and the rest of the
input.  A value that a `long` cannot hold is undefined behaviour for `sscanf`;
the mathematical value is kept. -/
def scanLong (inp : List Char) : Option (Int × List Char) :=
  let rest := skipSpaces inp
  let signed : Bool × List Char :=
    match rest with
    | '-' :: r => (true, r)
    | '+' :: r => (false, r)
    | _ => (false, rest)
  let ds := signed.2.takeWhile Char.isDigit
  if ds.isEmpty then none
  else
    some (if signed.1 then -(decimalValue ds : Int) else (decimalValue ds : Int),
          signed.2.drop ds.length)

/-- The call `std::sscanf( msg, "(%15s %ld ", id, &cycle )` of `analyzeCycle`:
the scanned cycle when the call returns 2, `none` otherwise. -/
def scanCycle (msg : String) : Option Int :=
  match cstr msg with
  | '(' :: rest =>
    match scanWord 15 rest with
    | some (_, rest1) =>
      match scanLong rest1 with
      | some (cycle, _) => some cycle
      | none => none
    | none => none
  | _ => none

/-- The function `CoachAgent::Impl::analyzeCycle`. -/
def analyzeCycle (s : CoachAgent) (msg : String) (by_see_global : Bool) : Bool × CoachAgent :=
  match scanCycle msg with
  | none => (false, { s with cerr := s.cerr ++ [Diag.failedToParseTime msg] })
  | some cycle => (true, updateCurrentTime s cycle by_see_global)

/-- The function `CoachAgent::Impl::analyzeSeeGlobal`. -/
def analyzeSeeGlobal (env : Env) (s : CoachAgent) (msg : String) : CoachAgent :=
  match analyzeCycle s msg true with
  | (false, s1) => s1
  | (true, s1) =>
    let s2 : CoachAgent :=
      { s1 with visual_ := s1.visual_ ++
          [{ msg := msg, version := env.config.version, current := s1.current_time_ }] }
    if env.visualTime s2.visual_ = s2.current_time_ then
      { s2 with M_worldmodel := s2.M_worldmodel ++
          [WorldCall.updateAfterSeeGlobal s2.visual_ s2.current_time_] }
    else s2

/-! ## Sending -/

/-- A call `M_client->sendMessage( str )`: the bytes written and the agent
afterwards. -/
def sendMessage (env : Env) (s : CoachAgent) (str : String) : Int × CoachAgent :=
  (env.sendMessage s.M_client str,
   { s with M_client := { s.M_client with sent := s.M_client.sent ++ [str] } })

/-- The function `CoachAgent::sendCommand`. -/
def sendCommand (env : Env) (s : CoachAgent) (com : CoachCommand) : Bool × CoachAgent :=
  let str := env.toStr com
  if str.length = 0 then (false, s)
  else
    let r := sendMessage env s str
    (decide (r.1 > 0), r.2)

/-! ## The decision trigger -/

/-- A call of the virtual `actionImpl()` made by `action()`.  The derived
coach reaches the protected and public members of `CoachAgent` and the global
singletons, not the private `Impl`, so the members of `Impl` that no public
method writes are as before the call; `actionImplCalls` counts the calls
`action()` makes. -/
def runActionImpl (env : Env) (s : CoachAgent) : CoachAgent :=
  let r := env.actionImpl s
  { r with
    think_received_ := s.think_received_
    server_cycle_stopped_ := s.server_cycle_stopped_
    last_decision_time_ := s.last_decision_time_
    current_time_ := s.current_time_
    game_mode_ := s.game_mode_
    visual_ := s.visual_
    actionImplCalls := s.actionImplCalls + 1 }

/-- The first two statements of `CoachAgent::action`: the offline think mark
and the decision itself. -/
def actionDecision (env : Env) (s : CoachAgent) : CoachAgent :=
  let s1 : CoachAgent :=
    if env.config.offlineLogging && !s.serverParam.synchMode then
      { s with M_client := { s.M_client with offlineThinks := s.M_client.offlineThinks + 1 } }
    else s
  if s1.last_decision_time_ ≠ s1.current_time_ then
    let s2 := runActionImpl env s1
    { s2 with last_decision_time_ := s2.current_time_ }
  else s1

/-- The function `CoachAgent::action`. -/
def action (env : Env) (s : CoachAgent) : CoachAgent :=
  let s2 := actionDecision env s
  if s2.think_received_ then
    { (sendCommand env s2 CoachCommand.done).2 with think_received_ := false }
  else s2

/-- A run of the agent in which `action()` is called once after each of the
steps `steps` (whatever the host loop and the message handlers do between two
calls of `action()`). -/
def actionAfterEach (env : Env) : List (CoachAgent → CoachAgent) → CoachAgent → CoachAgent
  | [], s => s
  | f :: fs, s => actionAfterEach env fs (action env (f s))

/-- A step of the agent that writes neither the current time, nor the last
decision time, nor invokes `actionImpl()`.  In the source the last decision time
is assigned, and `actionImpl()` is invoked, in `action()` only. -/
def KeepsDecisionState (f : CoachAgent → CoachAgent) : Prop :=
  ∀ s, (f s).current_time_ = s.current_time_
    ∧ (f s).last_decision_time_ = s.last_decision_time_
    ∧ (f s).actionImplCalls = s.actionImplCalls

/-! ## The command gateway -/

/-- The conversion `static_cast< int >` of a length: the value modulo `2^32`,
taken in the range of a 32-bit `int`. -/
def toInt32 (n : Int) : Int :=
  (n + 2147483648) % 4294967296 - 2147483648

/-- The value a `%d` conversion stores in its `int` for a scanned number: the
number is read as by `strtol`, which saturates at the range of a 64-bit `long`,
and the result is converted to `int`.  (The C standard leaves a number that the
`int` cannot hold undefined; this is what the C library does.) -/
def storedInt (n : Int) : Int :=
  toInt32 (max (-9223372036854775808) (min n 9223372036854775807))

/-- The function `CoachAgent::doSayFreeform`.  The transport is handed
`freeform_msg.c_str()`, a C string: what it receives ends before the first NUL
of the text. -/
def doSayFreeform (env : Env) (s : CoachAgent) (msg : String) : Bool × CoachAgent :=
  if msg.length = 0 ∨ toInt32 msg.length > s.serverParam.coachSayMsgSize then
    (false, { s with cerr := s.cerr ++ [Diag.invalidFreeformLength msg.length] })
  else if env.config.version < 7 then
    if env.worldIsPlayOn s.M_worldmodel then
      (false, { s with cerr := s.cerr ++ [Diag.cannotSendWhilePlayon] })
    else
      let s1 : CoachAgent :=
        { s with M_worldmodel := s.M_worldmodel ++ [WorldCall.incFreeformSendCount] }
      sendCommand env s1 (CoachCommand.say msg)
  else if !env.canSendFreeform s.M_worldmodel then
    (false, { s with cerr := s.cerr ++ [Diag.cannotSendFreeformNow] })
  else
    let s1 : CoachAgent :=
      { s with M_worldmodel := s.M_worldmodel ++ [WorldCall.incFreeformSendCount] }
    let freeform_msg := "(say (freeform \"" ++ msg ++ "\"))"
    let r := sendMessage env s1 (c_str freeform_msg)
    (decide (r.1 > 0), r.2)

/-- The text `doTeamGraphic` writes for the tile at `(x, y)`. -/
def teamGraphicText (x y : Int) (tile : String) : String :=
  "(team_graphic (" ++ toString x ++ " " ++ toString y ++ " " ++ tile ++ "))"

/-- The function `CoachAgent::doTeamGraphic`. -/
def doTeamGraphic (env : Env) (s : CoachAgent) (x y : Int) (team_graphic : TeamGraphic) :
    Bool × CoachAgent :=
  let s1 : CoachAgent := if s.send_time ≠ s.current_time_ then { s with send_count := 0 } else s
  let s2 : CoachAgent := { s1 with send_time := s1.current_time_, send_count := s1.send_count + 1 }
  if s2.send_count > env.config.maxTeamGraphicPerCycle then (false, s2)
  else
    match team_graphic x y with
    | none => (false, { s2 with cerr := s2.cerr ++ [Diag.tileNotFound x y] })
    | some tile =>
      let r := sendMessage env s2 (teamGraphicText x y tile)
      (decide (r.1 > 0), r.2)

/-- The value the static `send_count` takes in a call of `doTeamGraphic`: zero
when the time of the previous attempt differs from the current time, the old
count otherwise, plus one. -/
def nextSendCount (s : CoachAgent) : Int :=
  (if s.send_time ≠ s.current_time_ then 0 else s.send_count) + 1

/-- One upload attempt: the arguments of a `doTeamGraphic` call. -/
structure TileRequest where
  x : Int
  y : Int
  team_graphic : TeamGraphic

/-- The state after the upload attempts `reqs`, made one after the other with
no other operation in between. -/
def doTeamGraphicAll (env : Env) : List TileRequest → CoachAgent → CoachAgent
  | [], s => s
  | r :: rest, s => doTeamGraphicAll env rest (doTeamGraphic env s r.x r.y r.team_graphic).2

/-- The values the upload attempts `reqs` return, made one after the other with
no other operation in between. -/
def doTeamGraphicResults (env : Env) : List TileRequest → CoachAgent → List Bool
  | [], _ => []
  | r :: rest, s =>
    (doTeamGraphic env s r.x r.y r.team_graphic).1
      :: doTeamGraphicResults env rest (doTeamGraphic env s r.x r.y r.team_graphic).2

/-! ## Scanning with `sscanf` and comparing with `strncmp` -/

/-- A directive of a `sscanf` format. -/
inductive ScanItem where
  /-- Ordinary characters: each must be the next character of the input. -/
  | lit (text : String)
  /-- White space in the format: any amount of white space is skipped. -/
  | space
  /-- The conversion `%ld`. -/
  | int
  /-- The conversion `%<width>s`. -/
  | word (width : Nat)
  /-- The conversion `%c`. -/
  | char
  /-- The conversion `%<width>[^)]`. -/
  | notParen (width : Nat)
  /-- The conversion `%d`, which stores an `int`. -/
  | int32

/-- A value assigned by a conversion. -/
inductive ScanValue where
  | int (value : Int)
  | text (value : String)
  | char (value : Char)
  deriving DecidableEq, Repr

/-- Ordinary characters of a format against the input: the rest of the input
when all of them match. -/
def matchLit : List Char → List Char → Option (List Char)
  | [], inp => some inp
  | _ :: _, [] => none
  | c :: cs, i :: inp => if c = i then matchLit cs inp else none

/-- The conversion `%<width>[^)]`: at most `width` characters other than `)`
are taken, with no white space skipped; it fails when there is none. -/
def scanNotParen (width : Nat) (inp : List Char) : Option (List Char × List Char) :=
  let run := (inp.takeWhile (fun c => c ≠ ')')).take width
  if run.isEmpty then none else some (run, inp.drop run.length)

/-- The values `sscanf` assigns, in order, for the format `fmt` on the input:
scanning stops at the first directive that fails.  The value `sscanf` returns
is the number of values assigned (or `EOF` when there is none and the input
ran out; every caller treats that as zero). -/
def scanItems : List ScanItem → List Char → List ScanValue
  | [], _ => []
  | ScanItem.lit text :: fmt, inp =>
    match matchLit text.toList inp with
    | some rest => scanItems fmt rest
    | none => []
  | ScanItem.space :: fmt, inp => scanItems fmt (skipSpaces inp)
  | ScanItem.int :: fmt, inp =>
    match scanLong inp with
    | some (v, rest) => ScanValue.int v :: scanItems fmt rest
    | none => []
  | ScanItem.word width :: fmt, inp =>
    match scanWord width inp with
    | some (w, rest) => ScanValue.text (String.mk w) :: scanItems fmt rest
    | none => []
  | ScanItem.char :: fmt, inp =>
    match inp with
    | c :: rest => ScanValue.char c :: scanItems fmt rest
    | [] => []
  | ScanItem.notParen width :: fmt, inp =>
    match scanNotParen width inp with
    | some (w, rest) => ScanValue.text (String.mk w) :: scanItems fmt rest
    | none => []
  | ScanItem.int32 :: fmt, inp =>
    match scanLong inp with
    | some (v, rest) => ScanValue.int (storedInt v) :: scanItems fmt rest
    | none => []

/-- The call `std::sscanf( msg, fmt, ... )`. -/
def sscanf (msg : String) (fmt : List ScanItem) : List ScanValue :=
  scanItems fmt (cstr msg)

/-- Whether `std::strncmp( a, b, n )` is zero: the first `n` characters of the
two C strings, terminator included, are the same. -/
def strncmp (a b : String) (n : Nat) : Bool :=
  (cstr a ++ [Char.ofNat 0]).take n == (cstr b ++ [Char.ofNat 0]).take n

/-- The format `"(hear %ld %127s "` of `analyzeHear`. -/
def hearSenderFormat : List ScanItem :=
  [ScanItem.lit "(hear", ScanItem.space, ScanItem.int, ScanItem.space, ScanItem.word 127,
   ScanItem.space]

/-- The format `"(hear %ld referee %511[^)]"` of `analyzeHearReferee`. -/
def hearRefereeFormat : List ScanItem :=
  [ScanItem.lit "(hear", ScanItem.space, ScanItem.int, ScanItem.space, ScanItem.lit "referee",
   ScanItem.space, ScanItem.notParen 511]

/-- The format `"yellow_card_%c_%d"`. -/
def yellowCardFormat : List ScanItem :=
  [ScanItem.lit "yellow_card_", ScanItem.char, ScanItem.lit "_", ScanItem.int32]

/-- The format `"red_card_%c_%d"`. -/
def redCardFormat : List ScanItem :=
  [ScanItem.lit "red_card_", ScanItem.char, ScanItem.lit "_", ScanItem.int32]

/-- The format `"(init %c ok)"` of `analyzeInit`. -/
def initFormat : List ScanItem :=
  [ScanItem.lit "(init", ScanItem.space, ScanItem.char, ScanItem.space, ScanItem.lit "ok)"]

/-- The format `" ( ok change_player_type %d %d ) "`. -/
def okChangePlayerTypeFormat : List ScanItem :=
  [ScanItem.space, ScanItem.lit "(", ScanItem.space, ScanItem.lit "ok", ScanItem.space,
   ScanItem.lit "change_player_type", ScanItem.space, ScanItem.int32, ScanItem.space,
   ScanItem.int32, ScanItem.space, ScanItem.lit ")", ScanItem.space]

/-- The format `" ( change_player_type %d %d ) "`. -/
def changePlayerTypeFormat : List ScanItem :=
  [ScanItem.space, ScanItem.lit "(", ScanItem.space, ScanItem.lit "change_player_type",
   ScanItem.space, ScanItem.int32, ScanItem.space, ScanItem.int32, ScanItem.space,
   ScanItem.lit ")", ScanItem.space]

/-- The format `" ( change_player_type %d ) "`. -/
def changeOpponentTypeFormat : List ScanItem :=
  [ScanItem.space, ScanItem.lit "(", ScanItem.space, ScanItem.lit "change_player_type",
   ScanItem.space, ScanItem.int32, ScanItem.space, ScanItem.lit ")", ScanItem.space]

/-- The format `"(ok compression %d)"`. -/
def okCompressionFormat : List ScanItem :=
  [ScanItem.lit "(ok", ScanItem.space, ScanItem.lit "compression", ScanItem.space,
   ScanItem.int32, ScanItem.lit ")"]

/-- The format `"(ok team_graphic %d %d)"`. -/
def okTeamGraphicFormat : List ScanItem :=
  [ScanItem.lit "(ok", ScanItem.space, ScanItem.lit "team_graphic", ScanItem.space,
   ScanItem.int32, ScanItem.space, ScanItem.int32, ScanItem.lit ")"]

/-- The format `"(ok team_names (team l %31[^)]) (team r %31[^)]))"`. -/
def okTeamNamesFormat : List ScanItem :=
  [ScanItem.lit "(ok", ScanItem.space, ScanItem.lit "team_names", ScanItem.space,
   ScanItem.lit "(team", ScanItem.space, ScanItem.lit "l", ScanItem.space, ScanItem.notParen 31,
   ScanItem.lit ")", ScanItem.space, ScanItem.lit "(team", ScanItem.space, ScanItem.lit "r",
   ScanItem.space, ScanItem.notParen 31, ScanItem.lit "))"]

/-! ## The message handlers -/

/-- The call `M_client->setServerAlive( false )`. -/
def setServerDead (s : CoachAgent) : CoachAgent :=
  { s with M_client := { s.M_client with serverAlive := false } }

/-- The function `CoachAgent::Impl::sendByeCommand`. -/
def sendByeCommand (env : Env) (s : CoachAgent) : CoachAgent :=
  setServerDead (sendCommand env s CoachCommand.bye).2

/-- The function `CoachAgent::doCheckBall`. -/
def doCheckBall (env : Env) (s : CoachAgent) : Bool × CoachAgent :=
  sendCommand env s CoachCommand.checkBall

/-- The function `CoachAgent::doLook`. -/
def doLook (env : Env) (s : CoachAgent) : Bool × CoachAgent :=
  sendCommand env s CoachCommand.look

/-- The function `CoachAgent::doTeamNames`. -/
def doTeamNames (env : Env) (s : CoachAgent) : Bool × CoachAgent :=
  sendCommand env s CoachCommand.teamNames

/-- The function `CoachAgent::doEye`. -/
def doEye (env : Env) (s : CoachAgent) (switch : Bool) : Bool × CoachAgent :=
  sendCommand env s (CoachCommand.eye switch)

/-- The function `CoachAgent::Impl::openDebugLog`: the log is opened, and when
that fails the failure is reported and the peer is marked not alive. -/
def openDebugLog (env : Env) (s : CoachAgent) : Bool × CoachAgent :=
  if env.debugLogOpens then (true, s)
  else (false, setServerDead { s with cerr := s.cerr ++ [Diag.debugLogOpenFailed] })

/-- The function `CoachAgent::Impl::analyzeInit`. -/
def analyzeInit (env : Env) (s : CoachAgent) (msg : String) : CoachAgent :=
  match sscanf msg initFormat with
  | [ScanValue.char side] =>
    if side ≠ 'l' ∧ side ≠ 'r' then
      setServerDead { s with cerr := s.cerr ++ [Diag.unexpectedInit msg] }
    else
      let side_id := if side = 'l' then SideID.LEFT else SideID.RIGHT
      let s1 : CoachAgent :=
        { s with M_worldmodel := s.M_worldmodel ++ [WorldCall.init side_id env.config.version] }
      let s2 := if env.config.debug then (openDebugLog env s1).2 else s1
      let s3 := if env.config.useEye then (doEye env s2 true).2 else s2
      let s4 : CoachAgent :=
        if env.config.hearSay then
          { s3 with audio_ := s3.audio_ ++ [AudioCall.setTeamName env.config.teamName] }
        else s3
      if 0 < env.config.compression ∧ env.config.compression ≤ 9 then
        (sendCommand env s4 (CoachCommand.compression env.config.compression)).2
      else s4
  | _ => setServerDead s

/-- The side a card message names: `LEFT` for `l`, `RIGHT` for `r`, `NEUTRAL`
for any other character. -/
def sideOfChar (side : Char) : SideID :=
  if side = 'l' then SideID.LEFT else if side = 'r' then SideID.RIGHT else SideID.NEUTRAL

/-- The variable `side` after the card `sscanf`: the scanned character, or the
initial `'?'` when none was scanned. -/
def scannedSide (vals : List ScanValue) : Char :=
  match vals with
  | ScanValue.char c :: _ => c
  | _ => '?'

/-- The variable `unum` after the card `sscanf`: the `int` the conversion `%d`
stored for the scanned number, or the initial `Unum_Unknown` when none was
scanned. -/
def scannedUnum (env : Env) (vals : List ScanValue) : Int :=
  match vals with
  | [_, ScanValue.int n] => n
  | _ => env.Unum_Unknown

/-- The function `CoachAgent::Impl::analyzeHearReferee`. -/
def analyzeHearReferee (env : Env) (s : CoachAgent) (msg : String) : CoachAgent :=
  match sscanf msg hearRefereeFormat with
  | [ScanValue.int _, ScanValue.text mode] =>
    let accepted := env.gameModeUpdate s.game_mode_ mode s.current_time_
    let s1 : CoachAgent :=
      { s with game_mode_ := s.game_mode_ ++ [{ mode := mode, current := s.current_time_ }] }
    if !accepted then
      if strncmp mode "yellow_card" "yellow_card".length then
        let vals := sscanf mode yellowCardFormat
        let s2 : CoachAgent :=
          if vals.length ≠ 2 then { s1 with cerr := s1.cerr ++ [Diag.yellowCardParseError msg] }
          else s1
        { s2 with M_worldmodel := s2.M_worldmodel ++
            [WorldCall.setYellowCard (sideOfChar (scannedSide vals)) (scannedUnum env vals)] }
      else if strncmp mode "red_card" "red_card".length then
        let vals := sscanf mode redCardFormat
        let s2 : CoachAgent :=
          if vals.length ≠ 2 then { s1 with cerr := s1.cerr ++ [Diag.redCardParseError msg] }
          else s1
        { s2 with M_worldmodel := s2.M_worldmodel ++
            [WorldCall.setRedCard (sideOfChar (scannedSide vals)) (scannedUnum env vals)] }
      else if strncmp mode "training" "training".length then
        { s1 with M_worldmodel := s1.M_worldmodel ++ [WorldCall.setTrainingTime s1.current_time_] }
      else
        { s1 with cerr := s1.cerr ++ [Diag.unknownPlaymode mode] }
    else
      let s2 := updateServerStatus env s1
      if env.isGameEndMode s2.game_mode_ then sendByeCommand env s2
      else
        { s2 with M_worldmodel := s2.M_worldmodel ++
            [WorldCall.updateGameMode s2.game_mode_ s2.current_time_] }
  | _ => { s with cerr := s.cerr ++ [Diag.failedToScanPlaymode msg] }

/-- The function `CoachAgent::Impl::analyzeHearPlayer`. -/
def analyzeHearPlayer (env : Env) (s : CoachAgent) (msg : String) : CoachAgent :=
  if env.config.hearSay then
    { s with audio_ := s.audio_ ++ [AudioCall.parsePlayerMessage msg s.current_time_] }
  else s

/-- The function `CoachAgent::Impl::analyzeHear`. -/
def analyzeHear (env : Env) (s : CoachAgent) (msg : String) : CoachAgent :=
  match analyzeCycle s msg false with
  | (false, s1) => s1
  | (true, s1) =>
    match sscanf msg hearSenderFormat with
    | [ScanValue.int _, ScanValue.text sender] =>
      if sender = "referee" then analyzeHearReferee env s1 msg
      else if strncmp sender "(p" 2 then analyzeHearPlayer env s1 msg
      else s1
    | _ => { s1 with cerr := s1.cerr ++ [Diag.failedToParseSender msg] }

/-- The function `CoachAgent::Impl::analyzeChangePlayerType`. -/
def analyzeChangePlayerType (env : Env) (s : CoachAgent) (msg : String) : CoachAgent :=
  match sscanf msg okChangePlayerTypeFormat with
  | [_, _] => s
  | _ =>
    match sscanf msg changePlayerTypeFormat with
    | [ScanValue.int unum, ScanValue.int type] =>
      { s with M_worldmodel := s.M_worldmodel ++
          [WorldCall.setPlayerType (env.ourSide s.M_worldmodel) unum type] }
    | _ =>
      match sscanf msg changeOpponentTypeFormat with
      | [ScanValue.int unum] =>
        { s with M_worldmodel := s.M_worldmodel ++
            [WorldCall.setPlayerType (env.theirSide s.M_worldmodel) unum env.Hetero_Unknown] }
      | _ => { s with cerr := s.cerr ++ [Diag.changePlayerTypeParseError msg] }

/-- The function `CoachAgent::Impl::analyzePlayerType`. -/
def analyzePlayerType (env : Env) (s : CoachAgent) (msg : String) : CoachAgent :=
  { s with playerTypeSet := s.playerTypeSet ++ [PlayerTypeSetCall.insert msg env.config.version] }

/-- The function `CoachAgent::Impl::analyzePlayerParam`. -/
def analyzePlayerParam (env : Env) (s : CoachAgent) (msg : String) : CoachAgent :=
  { s with playerParam := s.playerParam ++ [{ msg := msg, version := env.config.version }] }

/-- The function `CoachAgent::Impl::analyzeServerParam`. -/
def analyzeServerParam (env : Env) (s : CoachAgent) (msg : String) : CoachAgent :=
  let s1 : CoachAgent :=
    { s with
      serverParam := env.parseServerParam s.serverParam msg env.config.version
      playerTypeSet := s.playerTypeSet ++ [PlayerTypeSetCall.resetDefaultType]
      M_worldmodel := s.M_worldmodel ++ [WorldCall.initFreeformCount] }
  if !s1.serverParam.synchMode ∧ s1.serverParam.slowDownFactor > 1 then
    { s1 with M_client := { s1.M_client with
        intervalMSec := some (env.config.intervalMSec * s1.serverParam.slowDownFactor) } }
  else s1

/-- The function `CoachAgent::Impl::analyzeCLangVer`. -/
def analyzeCLangVer (s : CoachAgent) (_msg : String) : CoachAgent :=
  s

/-- The function `CoachAgent::Impl::analyzeOKTeamGraphic`. -/
def analyzeOKTeamGraphic (s : CoachAgent) (msg : String) : CoachAgent :=
  match sscanf msg okTeamGraphicFormat with
  | [ScanValue.int x, ScanValue.int y] =>
    if x < 0 ∨ y < 0 then { s with cout := s.cout ++ [Diag.illegalMessage msg] }
    else { s with M_team_graphic_ok_set := s.M_team_graphic_ok_set.insert (x, y) }
  | _ => { s with cout := s.cout ++ [Diag.illegalMessage msg] }

/-- The function `CoachAgent::Impl::analyzeTeamNames`. -/
def analyzeTeamNames (s : CoachAgent) (msg : String) : CoachAgent :=
  match sscanf msg okTeamNamesFormat with
  | [ScanValue.text left, ScanValue.text right] =>
    { s with M_worldmodel := s.M_worldmodel ++
        [WorldCall.setTeamName SideID.LEFT left, WorldCall.setTeamName SideID.RIGHT right] }
  | [ScanValue.text left] =>
    { s with M_worldmodel := s.M_worldmodel ++ [WorldCall.setTeamName SideID.LEFT left] }
  | _ => s

/-- The function `CoachAgent::Impl::analyzeOK`. -/
def analyzeOK (env : Env) (s : CoachAgent) (msg : String) : CoachAgent :=
  if strncmp msg "(ok say)" "(ok say)".length then s
  else if strncmp msg "(ok team_graphic " "(ok team_graphic ".length then
    analyzeOKTeamGraphic s msg
  else if strncmp msg "(ok look " "(ok look ".length then
    { s with cout := s.cout ++ [Diag.recvOkLook] }
  else if strncmp msg "(ok check_ball " "(ok check_ball ".length then
    { s with cout := s.cout ++ [Diag.recvOkCheckBall] }
  else if strncmp msg "(ok change_player_type " "(ok change_player_type ".length then
    analyzeChangePlayerType env s msg
  else if strncmp msg "(ok compression " "(ok compression ".length then
    match sscanf msg okCompressionFormat with
    | [ScanValue.int level] =>
      { s with
        cout := s.cout ++ [Diag.setCompressionLevel level]
        M_client := { s.M_client with compressionLevel := some level } }
    | _ => s
  else if strncmp msg "(ok eye " "(ok eye ".length then
    { s with cout := s.cout ++ [Diag.recv msg] }
  else if strncmp msg "(ok team_names " "(ok team_names ".length then
    analyzeTeamNames { s with cout := s.cout ++ [Diag.recv msg] } msg
  else
    { s with cout := s.cout ++ [Diag.recv msg] }

/-- The functions `analyzeScore`, `analyzeError`, `analyzeWarning` and
`analyzeInclude` of `CoachAgent::Impl`: each reports the message on
`std::cerr`. -/
def analyzeReport (s : CoachAgent) (msg : String) : CoachAgent :=
  { s with cerr := s.cerr ++ [Diag.recv msg] }

/-- The function `CoachAgent::parse`. -/
def parse (env : Env) (s : CoachAgent) (msg : String) : CoachAgent :=
  if strncmp msg "(see_global " 12 then analyzeSeeGlobal env s msg
  else if strncmp msg "(hear " 6 then analyzeHear env s msg
  else if strncmp msg "(think)" 7 then { s with think_received_ := true }
  else if strncmp msg "(change_player_type " 20 then analyzeChangePlayerType env s msg
  else if strncmp msg "(clang " 7 then analyzeCLangVer s msg
  else if strncmp msg "(player_type " 13 then analyzePlayerType env s msg
  else if strncmp msg "(player_param " 14 then analyzePlayerParam env s msg
  else if strncmp msg "(server_param " 14 then analyzeServerParam env s msg
  else if strncmp msg "(ok " 4 then analyzeOK env s msg
  else if strncmp msg "(error " 7 then analyzeReport s msg
  else if strncmp msg "(warning " 9 then analyzeReport s msg
  else if strncmp msg "(score " 7 then analyzeReport s msg
  else if strncmp msg "(init " 6 then analyzeInit env s msg
  else if strncmp msg "(include " 9 then analyzeReport s msg
  else { s with cerr := s.cerr ++ [Diag.unsupportedMessage msg] }

/-- The literal texts `parse` tests a message against, in the order of the
tests, each with the length given to `strncmp`. -/
def recognisedHeads : List (String × Nat) :=
  [("(see_global ", 12), ("(hear ", 6), ("(think)", 7), ("(change_player_type ", 20),
   ("(clang ", 7), ("(player_type ", 13), ("(player_param ", 14), ("(server_param ", 14),
   ("(ok ", 4), ("(error ", 7), ("(warning ", 9), ("(score ", 7), ("(init ", 6),
   ("(include ", 9)]

/-! ## The host loop's callbacks -/

/-- The function `CoachAgent::handleMessage` for a registered client; `msgs`
are the messages `recvMessage()` delivers in this call, in arrival order. -/
def handleMessage (env : Env) (s : CoachAgent) (msgs : List String) : CoachAgent :=
  let start_time := s.current_time_
  let s1 := msgs.foldl (parse env) s
  let s2 : CoachAgent :=
    if s1.current_time_.cycle > start_time.cycle + 1 ∧ start_time.stopped = 0
        ∧ s1.current_time_.stopped = 0 then
      { s1 with cerr := s1.cerr ++ [Diag.missedAction msgs.length start_time s1.current_time_] }
    else s1
  if s2.think_received_ then action env s2 else s2

/-- The first statement of `CoachAgent::handleTimeout`, the liveness check:
the agent afterwards, and whether the function goes on (`false` when it has
returned after marking the peer not alive). -/
def timeoutLiveness (env : Env) (s : CoachAgent) (waited_msec : Int) : Bool × CoachAgent :=
  if waited_msec > env.config.serverWaitSeconds * 1000 then
    if env.config.useEye then
      (false, setServerDead
        { s with cout := s.cout ++ [Diag.waitedServerDown (Int.tdiv waited_msec 1000)] })
    else if waited_msec > env.config.serverWaitSeconds * 2 * 1000 then
      (false, setServerDead
        { s with cout := s.cout ++ [Diag.waitedServerDown (Int.tdiv waited_msec 1000)] })
    else (true, (doCheckBall env s).2)
  else (true, s)

/-- The second statement of `CoachAgent::handleTimeout`, the timeout decision. -/
def timeoutDecision (env : Env) (s : CoachAgent) (waited_msec : Int) : CoachAgent :=
  if s.last_decision_time_ ≠ s.current_time_ then
    if env.visualTime s.visual_ = s.current_time_
        ∨ waited_msec ≥ 20 * s.serverParam.slowDownFactor then
      action env s
    else s
  else s

/-- The function `CoachAgent::handleTimeout` for a registered client. -/
def handleTimeout (env : Env) (s : CoachAgent) (_timeout_count : Int) (waited_msec : Int) :
    CoachAgent :=
  match timeoutLiveness env s waited_msec with
  | (false, s1) => s1
  | (true, s1) => timeoutDecision env s1 waited_msec

/-- The function `CoachAgent::finalize`. -/
def finalize (env : Env) (s : CoachAgent) : CoachAgent :=
  let s1 := if s.M_client.serverAlive then sendByeCommand env s else s
  { s1 with cout := s1.cout ++ [Diag.finished] }

/-! ## Changing player types -/

/-- The function `CoachAgent::doChangePlayerType`. -/
def doChangePlayerType (env : Env) (s : CoachAgent) (unum : Int) (type : Int) :
    Bool × CoachAgent :=
  if unum < 1 ∨ 11 < unum then
    (false, { s with cerr := s.cerr ++ [Diag.illegalPlayerNumber unum] })
  else if type < env.Hetero_Default ∨ env.playerTypes s.playerParam ≤ type then
    (false, { s with cerr := s.cerr ++ [Diag.illegalPlayerType type] })
  else sendCommand env s (CoachCommand.changePlayerType unum type)

/-- The loop of `CoachAgent::doChangePlayerTypes`: `result` is overwritten by
every call of `doChangePlayerType`. -/
def changePlayerTypesLoop (env : Env) :
    List (Int × Int) → Bool × CoachAgent → Bool × CoachAgent
  | [], acc => acc
  | p :: rest, acc => changePlayerTypesLoop env rest (doChangePlayerType env acc.2 p.1 p.2)

/-- The function `CoachAgent::doChangePlayerTypes`. -/
def doChangePlayerTypes (env : Env) (s : CoachAgent) (types : List (Int × Int)) :
    Bool × CoachAgent :=
  if types.isEmpty then (false, s)
  else changePlayerTypesLoop env types (true, s)

/-! ## The order of the tests of `parse` -/

/-- The first of the texts `order` that the message starts with, testing in
the order of the list. -/
def firstHead (order : List (String × Nat)) (msg : String) : Option (String × Nat) :=
  order.find? (fun h => strncmp msg h.1 h.2)

/-- The handler `parse` runs for a message that starts with the given text (and
the report of an unsupported message when it starts with none). -/
def handlerOf (env : Env) (s : CoachAgent) (msg : String) : Option (String × Nat) → CoachAgent
  | none => { s with cerr := s.cerr ++ [Diag.unsupportedMessage msg] }
  | some (head, _) =>
    if head = "(see_global " then analyzeSeeGlobal env s msg
    else if head = "(hear " then analyzeHear env s msg
    else if head = "(think)" then { s with think_received_ := true }
    else if head = "(change_player_type " then analyzeChangePlayerType env s msg
    else if head = "(clang " then analyzeCLangVer s msg
    else if head = "(player_type " then analyzePlayerType env s msg
    else if head = "(player_param " then analyzePlayerParam env s msg
    else if head = "(server_param " then analyzeServerParam env s msg
    else if head = "(ok " then analyzeOK env s msg
    else if head = "(init " then analyzeInit env s msg
    else analyzeReport s msg

/-- The function `parse` with its tests made in the order `order`: the handler
of the first text of `order` the message starts with. -/
def parseInOrder (order : List (String × Nat)) (env : Env) (s : CoachAgent) (msg : String) :
    CoachAgent :=
  handlerOf env s msg (firstHead order msg)

/-! ## The formation `FormationSSL` (`src/rcsc/formation/formation_ssl.cpp`) -/

/-- A point `Vector2D( x, y )`.  The coordinates the modelled code uses are
decimal literals; they are kept as rationals. -/
structure Vector2D where
  x : Rat
  y : Rat
  deriving DecidableEq

/-- A sample `formation::SampleData`: the ball and the players' positions. -/
structure SampleData where
  ball_ : Vector2D
  players_ : List Vector2D
  deriving DecidableEq

/-- The side type of a role (`Formation::SideType`). -/
inductive SideType where
  | SIDE
  | SYMMETRY
  | CENTER
  deriving DecidableEq

/-- Calls `FormationSSL` makes on its base class `Formation` and on the sample
set `M_samples`, both declared outside `src/`. -/
inductive FormationCall where
  | setCenterType (unum : Int)
  | setSideType (unum : Int)
  | setSymmetryType (unum : Int) (symmetry_unum : Int) (role_name : String)
  | addData (data : SampleData)
  deriving DecidableEq

/-- Lines `FormationSSL` writes to `std::cerr`. -/
inductive FormationDiag where
  | invalidUnum (unum : Int)
  | invalidSideType
  deriving DecidableEq

/-- The formation: the role names `M_role_name[11]`, the member `count`, the
calls made on the base class and the sample set, and the `std::cerr` output. -/
structure FormationSSL where
  M_role_name : Fin 11 → String
  count : Int
  calls : List FormationCall
  cerr : List FormationDiag

/-- The constructor `FormationSSL::FormationSSL( _count )`. -/
def FormationSSL.new (_count : Int) : FormationSSL :=
  { M_role_name := fun _ => "Dummy"
    count := _count
    calls := []
    cerr := [] }

/-- The function `FormationSSL::setRoleName`. -/
def FormationSSL.setRoleName (f : FormationSSL) (unum : Int) (name : String) : FormationSSL :=
  if h : unum < 1 ∨ 11 < unum then
    { f with cerr := f.cerr ++ [FormationDiag.invalidUnum unum] }
  else
    { f with M_role_name :=
        Function.update f.M_role_name ⟨(unum - 1).toNat, by omega⟩ name }

/-- The function `FormationSSL::getRoleName`: the name returned and the
formation (its `std::cerr` output) afterwards. -/
def FormationSSL.getRoleName (f : FormationSSL) (unum : Int) : String × FormationSSL :=
  if h : unum < 1 ∨ 11 < unum then
    ("", { f with cerr := f.cerr ++ [FormationDiag.invalidUnum unum] })
  else
    (f.M_role_name ⟨(unum - 1).toNat, by omega⟩, f)

/-- The function `FormationSSL::createNewRole`. -/
def FormationSSL.createNewRole (f : FormationSSL) (unum : Int) (role_name : String)
    (type : SideType) : FormationSSL :=
  if unum < 1 ∨ 11 < unum then
    { f with cerr := f.cerr ++ [FormationDiag.invalidUnum unum] }
  else
    let f1 := f.setRoleName unum role_name
    match type with
    | SideType.CENTER => { f1 with calls := f1.calls ++ [FormationCall.setCenterType unum] }
    | SideType.SIDE => { f1 with calls := f1.calls ++ [FormationCall.setSideType unum] }
    | SideType.SYMMETRY => { f1 with cerr := f1.cerr ++ [FormationDiag.invalidSideType] }

/-- The call `data.players_.push_back( Vector2D( x, y ) )`. -/
def SampleData.push (data : SampleData) (x y : Rat) : SampleData :=
  { data with players_ := data.players_ ++ [{ x := x, y := y }] }

/-- The call `setSymmetryType( unum, symmetry_unum, role_name )` on the base
class. -/
def FormationSSL.setSymmetryType (f : FormationSSL) (unum symmetry_unum : Int)
    (role_name : String) : FormationSSL :=
  { f with calls := f.calls ++ [FormationCall.setSymmetryType unum symmetry_unum role_name] }

/-- The values the loop variable of `for ( int i = count + 1; i <= 11; i++ )`
takes. -/
def fillerIndices (count : Int) : List Int :=
  (List.range (11 - count).toNat).map (fun (k : Nat) => count + 1 + (k : Int))

/-- The body of `FormationSSL::createDefaultData` up to the call of `addData`:
the formation with its roles, and the sample `data`. -/
def FormationSSL.defaultData (f : FormationSSL) : FormationSSL × SampleData :=
  let f0 := f.createNewRole 1 "LeftAttacker" SideType.SIDE
  let d0 : SampleData := { ball_ := { x := 0, y := 0 }, players_ := [] }
  let d1 := if f0.count = 1 then d0.push 1 (-3 / 2) else d0
  let d2 := if f0.count = 2 then (d1.push 1 (-3 / 2)).push 1 (3 / 2) else d1
  let s3 : FormationSSL × SampleData :=
    if f0.count = 3 then
      (f0.createNewRole 3 "Center" SideType.CENTER,
       ((d2.push 1 (-3 / 2)).push 1 (3 / 2)).push (-1 / 2) 0)
    else (f0, d2)
  let s4 : FormationSSL × SampleData :=
    if s3.1.count = 4 then
      ((s3.1.createNewRole 3 "LeftHalfBack" SideType.SIDE).setSymmetryType 4 3 "RightHalfBack",
       (((s3.2.push 1 (-3 / 2)).push 1 (3 / 2)).push 0 (-1)).push 0 1)
    else s3
  let s5 : FormationSSL × SampleData :=
    if s4.1.count = 5 then
      (((s4.1.createNewRole 3 "LeftHalfBack" SideType.SIDE).setSymmetryType 4 3
          "RightHalfBack").createNewRole 5 "Center" SideType.CENTER,
       ((((s4.2.push 1 (-3 / 2)).push 1 (3 / 2)).push 0 (-1)).push 0 1).push (-1 / 2) 0)
    else s4
  (s5.1, (fillerIndices s5.1.count).foldl (fun d _ => d.push (161 / 50) (111 / 50)) s5.2)

/-- The function `FormationSSL::createDefaultData`. -/
def FormationSSL.createDefaultData (f : FormationSSL) : FormationSSL :=
  let r := f.defaultData
  { r.1 with calls := r.1.calls ++ [FormationCall.addData r.2] }

/-! ## A sample environment and sample states -/

/-- A rendering of the commands: the text the source's comments give for
`say`, and the server's command names for the others. -/
def sampleToStr : CoachCommand → String
  | CoachCommand.done => "(done)"
  | CoachCommand.bye => "(bye)"
  | CoachCommand.checkBall => "(check_ball)"
  | CoachCommand.say msg => "(say " ++ msg ++ ")"
  | CoachCommand.eye true => "(eye on)"
  | CoachCommand.eye false => "(eye off)"
  | CoachCommand.compression level => "(compression " ++ toString level ++ ")"
  | CoachCommand.changePlayerType unum type =>
    "(change_player_type " ++ toString unum ++ " " ++ toString type ++ ")"
  | CoachCommand.look => "(look)"
  | CoachCommand.teamNames => "(team_names)"

/-- A sample environment: protocol version `v`, at most two team-graphic tiles
per cycle, a transport that writes every message, a visual sensor that stamps a
snapshot with the time of its last `parse`, a game mode that does not stop the
clock, a world that is not in play-on and allows a freeform message. -/
def sampleEnv (v : Rat) : Env :=
  { config := { version := v, offlineLogging := false, maxTeamGraphicPerCycle := 2 }
    toStr := sampleToStr
    sendMessage := fun _ str => (str.length : Int) + 1
    visualTime := fun visual =>
      match visual.getLast? with
      | some p => p.current
      | none => { cycle := -1, stopped := 0 }
    isServerCycleStoppedMode := fun _ => false
    worldIsPlayOn := fun _ => false
    canSendFreeform := fun _ => true
    actionImpl := fun s => s }

/-- A connected transport that has sent nothing. -/
def sampleClient : BasicClient :=
  { serverAlive := true, sent := [], offlineThinks := 0 }

/-- Server parameters with the say-message size of the server's default. -/
def sampleServerParam : ServerParam :=
  { synchMode := false, coachSayMsgSize := 128, slowDownFactor := 1 }

/-- The freshly constructed agent. -/
def sampleAgent : CoachAgent :=
  CoachAgent.new sampleClient sampleServerParam

/-- An agent whose clock is stopped at cycle 100, stopped step 1. -/
def stoppedAgent : CoachAgent :=
  { sampleAgent with current_time_ := { cycle := 100, stopped := 1 } }

/-- A message of `2^31` characters. -/
def hugeMessage : String :=
  String.mk (List.replicate 2147483648 'a')

/-- An upload attempt for the tile `(0, 0)` of a graphic that holds this tile
only. -/
def sampleTile : TileRequest :=
  { x := 0
    y := 0
    team_graphic := fun x y => if x = 0 ∧ y = 0 then some "XPM" else none }

/-- The message of three characters `a`, NUL, `b`. -/
def nulMessage : String :=
  String.mk ['a', Char.ofNat 0, 'b']

/-- An upload attempt for the tile `(1, 1)`, which the graphic of `sampleTile`
does not hold. -/
def missingTile : TileRequest :=
  { x := 1
    y := 1
    team_graphic := sampleTile.team_graphic }

/-- A sample environment whose game mode accepts the play modes `play_on`,
`kick_off_l` and `time_over`, the last of which ends the game. -/
def refereeEnv : Env :=
  { sampleEnv 7 with
    gameModeUpdate := fun _ mode _ => mode = "play_on" || mode = "kick_off_l" || mode = "time_over"
    isGameEndMode := fun game_mode =>
      match game_mode.getLast? with
      | some u => u.mode = "time_over"
      | none => false }

/-- A sample environment with debug logging configured and a debug log that
cannot be opened. -/
def noDebugLogEnv : Env :=
  { sampleEnv 7 with
    config := { (sampleEnv 7).config with debug := true }
    debugLogOpens := false }

/-- A sample environment with the eye mode configured (`useEye`) and a server
wait of 5 seconds. -/
def useEyeEnv : Env :=
  { sampleEnv 7 with config := { (sampleEnv 7).config with useEye := true } }

/-- The fresh agent after its peer has been marked not alive. -/
def deadAgent : CoachAgent :=
  setServerDead sampleAgent

/-- The token of a card message: `<kind>_card_<side>_<digits>`. -/
def cardToken (kind : String) (side : Char) (digits : List Char) : String :=
  kind ++ "_card_" ++ String.mk (side :: '_' :: digits)

/-! ## Theorems -/

/-- C1: `updateCurrentTime` agrees with the reference transition of the time
synchroniser in every state and for every input, case by case, and it never
changes the clock-mode flag. -/
theorem updateCurrentTime_eq_reference (s : CoachAgent) (newCycle : Int) (byVision : Bool) :
    (updateCurrentTime s newCycle byVision).current_time_
        = referenceTransition s.server_cycle_stopped_ s.current_time_ newCycle byVision
    ∧ (s.server_cycle_stopped_ = true → newCycle ≠ s.current_time_.cycle →
        (updateCurrentTime s newCycle byVision).current_time_
          = { cycle := newCycle, stopped := 0 })
    ∧ (s.server_cycle_stopped_ = true → newCycle = s.current_time_.cycle → byVision = true →
        (updateCurrentTime s newCycle byVision).current_time_
          = { cycle := s.current_time_.cycle, stopped := s.current_time_.stopped + 1 })
    ∧ (s.server_cycle_stopped_ = true → newCycle = s.current_time_.cycle → byVision = false →
        (updateCurrentTime s newCycle byVision).current_time_ = s.current_time_)
    ∧ (s.server_cycle_stopped_ = false →
        (updateCurrentTime s newCycle byVision).current_time_
          = { cycle := newCycle, stopped := 0 })
    ∧ (updateCurrentTime s newCycle byVision).server_cycle_stopped_
        = s.server_cycle_stopped_ := by
  unfold updateCurrentTime referenceTransition GameTime.assign
  cases hs : s.server_cycle_stopped_ <;> cases byVision <;>
    by_cases h1 : newCycle = s.current_time_.cycle <;>
    by_cases h2 : newCycle - 1 = s.current_time_.cycle <;>
    simp [hs, h1, h2]

/-- While the clock is stopped, a vision update carrying the current cycle
advances the stopped step by one and changes nothing else. -/
theorem updateCurrentTime_stopped_same (s : CoachAgent) (h : s.server_cycle_stopped_ = true) :
    updateCurrentTime s s.current_time_.cycle true
      = { s with current_time_ :=
            { cycle := s.current_time_.cycle, stopped := s.current_time_.stopped + 1 } } := by
  simp [updateCurrentTime, GameTime.assign, h]

/-- The function `updateCurrentTime` leaves the clock-mode flag as it is. -/
theorem updateCurrentTime_flag (s : CoachAgent) (c : Int) (b : Bool) :
    (updateCurrentTime s c b).server_cycle_stopped_ = s.server_cycle_stopped_ := by
  unfold updateCurrentTime
  split_ifs <;> rfl

/-- C2: with the clock stopped at time `(c, sub)`, `n` successive vision
updates that all carry the cycle `c` give the time `(c, sub + n)`; the clock
stays stopped. -/
theorem visionUpdates_stopped (n : Nat) (s : CoachAgent) (c sub : Int)
    (hstop : s.server_cycle_stopped_ = true)
    (htime : s.current_time_ = { cycle := c, stopped := sub }) :
    (visionUpdates c n s).current_time_ = { cycle := c, stopped := sub + n }
    ∧ (visionUpdates c n s).server_cycle_stopped_ = true := by
  induction n generalizing s sub with
  | zero => simp [visionUpdates, htime, hstop]
  | succ k ih =>
    have hc : c = s.current_time_.cycle := by rw [htime]
    have hstep : updateCurrentTime s c true
        = { s with current_time_ := { cycle := c, stopped := sub + 1 } } := by
      rw [hc, updateCurrentTime_stopped_same s hstop, htime]
    have h := ih (updateCurrentTime s c true) (sub + 1)
      (by rw [updateCurrentTime_flag]; exact hstop) (by rw [hstep])
    simp only [visionUpdates]
    refine ⟨?_, h.2⟩
    rw [h.1]
    simp only [GameTime.mk.injEq, true_and]
    push_cast
    ring

/-- C2, at a concrete input: three vision updates of cycle 100 take the stopped
time `(100, 1)` to `(100, 4)`. -/
theorem visionUpdates_stopped_witness :
    (visionUpdates 100 3 stoppedAgent).current_time_ = { cycle := 100, stopped := 1 + (3 : Nat) }
    ∧ (visionUpdates 100 3 stoppedAgent).server_cycle_stopped_ = true :=
  visionUpdates_stopped 3 stoppedAgent 100 1 (by decide) (by decide)

/-- C3, as stated, fails: the clock is stopped at `t = (100, 1)`, the referee
message switches it to running, and the next time-bearing message carries the
cycle `100 >= t.cycle`; the time becomes `(100, 0)`, which is below `t`. -/
theorem stopped_to_running_decreases :
    stoppedAgent.server_cycle_stopped_ = true
    ∧ (updateServerStatus (sampleEnv 7) stoppedAgent).server_cycle_stopped_ = false
    ∧ stoppedAgent.current_time_.cycle ≤ 100
    ∧ (updateCurrentTime (updateServerStatus (sampleEnv 7) stoppedAgent) 100 true).current_time_
        = { cycle := 100, stopped := 0 }
    ∧ ¬ (stoppedAgent.current_time_
          ≤ (updateCurrentTime (updateServerStatus (sampleEnv 7) stoppedAgent) 100 true).current_time_) := by
  decide

/-- C3, amended: a time `t` is held while the clock is stopped,
`updateServerStatus` switches the clock to running (the game mode is not a
clock-stopping mode) and leaves the time at `t`, and the next time-bearing
message carries a cycle `newCycle >= t.cycle`.  The resulting time is
`(newCycle, 0)`, and it is `>= t` exactly when `newCycle > t.cycle` or the
stopped step of `t` is not positive. -/
theorem stopped_to_running_order (env : Env) (s : CoachAgent) (newCycle : Int) (byVision : Bool)
    (hstop : s.server_cycle_stopped_ = true)
    (hmode : env.isServerCycleStoppedMode s.game_mode_ = false)
    (hcycle : s.current_time_.cycle ≤ newCycle) :
    (updateServerStatus env s).server_cycle_stopped_ = false
    ∧ (updateServerStatus env s).current_time_ = s.current_time_
    ∧ (updateCurrentTime (updateServerStatus env s) newCycle byVision).current_time_
        = { cycle := newCycle, stopped := 0 }
    ∧ (s.current_time_
          ≤ (updateCurrentTime (updateServerStatus env s) newCycle byVision).current_time_
        ↔ (s.current_time_.cycle < newCycle ∨ s.current_time_.stopped ≤ 0)) := by
  have hst : updateServerStatus env s = { s with server_cycle_stopped_ := false } := by
    simp [updateServerStatus, hstop, hmode]
  have hup : (updateCurrentTime (updateServerStatus env s) newCycle byVision).current_time_
      = { cycle := newCycle, stopped := 0 } := by
    rw [hst]
    simp [updateCurrentTime, GameTime.assign]
  refine ⟨by rw [hst], by rw [hst], hup, ?_⟩
  rw [hup]
  show GameTime.le _ _ ↔ _
  unfold GameTime.le
  constructor
  · rintro (h | ⟨h1, h2⟩)
    · exact Or.inl h
    · exact Or.inr h2
  · rintro (h | h)
    · exact Or.inl h
    · rcases lt_or_eq_of_le hcycle with h1 | h1
      · exact Or.inl h1
      · exact Or.inr ⟨h1, h⟩

/-- C3, amended, at a concrete input: from the stopped time `(100, 1)` a message
of cycle 101 received after the switch to running gives `(101, 0) >= (100, 1)`. -/
theorem stopped_to_running_order_witness :
    (updateServerStatus (sampleEnv 7) stoppedAgent).server_cycle_stopped_ = false
    ∧ (updateServerStatus (sampleEnv 7) stoppedAgent).current_time_ = stoppedAgent.current_time_
    ∧ (updateCurrentTime (updateServerStatus (sampleEnv 7) stoppedAgent) 101 false).current_time_
        = { cycle := 101, stopped := 0 }
    ∧ (stoppedAgent.current_time_
          ≤ (updateCurrentTime (updateServerStatus (sampleEnv 7) stoppedAgent) 101 false).current_time_
        ↔ (stoppedAgent.current_time_.cycle < 101 ∨ stoppedAgent.current_time_.stopped ≤ 0)) :=
  stopped_to_running_order (sampleEnv 7) stoppedAgent 101 false (by decide) (by decide) (by decide)

/-- The time after `analyzeSeeGlobal` when the cycle of the message scans. -/
theorem analyzeSeeGlobal_time (env : Env) (s : CoachAgent) (msg : String) (c : Int)
    (h : scanCycle msg = some c) :
    (analyzeSeeGlobal env s msg).current_time_ = (updateCurrentTime s c true).current_time_
    ∧ (analyzeSeeGlobal env s msg).server_cycle_stopped_ = s.server_cycle_stopped_ := by
  unfold analyzeSeeGlobal analyzeCycle
  simp only [h]
  split_ifs <;> simp [updateCurrentTime_flag]

/-- C4: the freshly constructed agent has the clock stopped, the current time
`(0, 0)`, the last decision time `(-1, 0)` and the think flag down; a vision
message of cycle 100 gives the time `(100, 0)`, and a second vision message of
cycle 100, the clock still stopped, gives `(100, 1)`. -/
theorem fresh_agent_two_visions (env : Env) (client : BasicClient) (sp : ServerParam)
    (msg1 msg2 : String) (h1 : scanCycle msg1 = some 100) (h2 : scanCycle msg2 = some 100) :
    (CoachAgent.new client sp).server_cycle_stopped_ = true
    ∧ (CoachAgent.new client sp).current_time_ = { cycle := 0, stopped := 0 }
    ∧ (CoachAgent.new client sp).last_decision_time_ = { cycle := -1, stopped := 0 }
    ∧ (CoachAgent.new client sp).think_received_ = false
    ∧ (analyzeSeeGlobal env (CoachAgent.new client sp) msg1).current_time_
        = { cycle := 100, stopped := 0 }
    ∧ (analyzeSeeGlobal env (CoachAgent.new client sp) msg1).server_cycle_stopped_ = true
    ∧ (analyzeSeeGlobal env (analyzeSeeGlobal env (CoachAgent.new client sp) msg1) msg2).current_time_
        = { cycle := 100, stopped := 1 } := by
  have e1 := analyzeSeeGlobal_time env (CoachAgent.new client sp) msg1 100 h1
  have e2 := analyzeSeeGlobal_time env (analyzeSeeGlobal env (CoachAgent.new client sp) msg1)
    msg2 100 h2
  have t1 : (analyzeSeeGlobal env (CoachAgent.new client sp) msg1).current_time_
      = { cycle := 100, stopped := 0 } := by
    rw [e1.1]
    simp [updateCurrentTime, CoachAgent.new, GameTime.assign]
  have f1 : (analyzeSeeGlobal env (CoachAgent.new client sp) msg1).server_cycle_stopped_ = true := by
    rw [e1.2]
    rfl
  refine ⟨rfl, rfl, rfl, rfl, t1, f1, ?_⟩
  rw [e2.1]
  simp [updateCurrentTime, GameTime.assign, f1, t1]

/-- C4, at concrete messages: two `see_global` lines of cycle 100 received by
the fresh agent. -/
theorem fresh_agent_two_visions_witness :
    (CoachAgent.new sampleClient sampleServerParam).server_cycle_stopped_ = true
    ∧ (CoachAgent.new sampleClient sampleServerParam).current_time_ = { cycle := 0, stopped := 0 }
    ∧ (CoachAgent.new sampleClient sampleServerParam).last_decision_time_
        = { cycle := -1, stopped := 0 }
    ∧ (CoachAgent.new sampleClient sampleServerParam).think_received_ = false
    ∧ (analyzeSeeGlobal (sampleEnv 7) (CoachAgent.new sampleClient sampleServerParam)
        "(see_global 100 ((b) 0 0 0 0))").current_time_ = { cycle := 100, stopped := 0 }
    ∧ (analyzeSeeGlobal (sampleEnv 7) (CoachAgent.new sampleClient sampleServerParam)
        "(see_global 100 ((b) 0 0 0 0))").server_cycle_stopped_ = true
    ∧ (analyzeSeeGlobal (sampleEnv 7)
        (analyzeSeeGlobal (sampleEnv 7) (CoachAgent.new sampleClient sampleServerParam)
          "(see_global 100 ((b) 0 0 0 0))")
        "(see_global 100 ((b) 1 0 0 0))").current_time_ = { cycle := 100, stopped := 1 } :=
  fresh_agent_two_visions (sampleEnv 7) sampleClient sampleServerParam
    "(see_global 100 ((b) 0 0 0 0))" "(see_global 100 ((b) 1 0 0 0))" (by decide) (by decide)

/-- What `sendCommand` changes: the transport's list of sent messages grows by
the rendered command when the rendering is not empty; nothing else changes. -/
theorem sendCommand_state (env : Env) (s : CoachAgent) (com : CoachCommand) :
    (sendCommand env s com).2
      = { s with M_client := { s.M_client with
            sent := s.M_client.sent ++
              (if (env.toStr com).length = 0 then [] else [env.toStr com]) } } := by
  by_cases h : (env.toStr com).length = 0 <;> simp [sendCommand, sendMessage, h]

/-- The decision part of `action()` keeps the current time and the think flag,
ends with the last decision time equal to the current time, and invokes
`actionImpl()` once iff the two times differed. -/
theorem actionDecision_frame (env : Env) (s : CoachAgent) :
    (actionDecision env s).current_time_ = s.current_time_
    ∧ (actionDecision env s).think_received_ = s.think_received_
    ∧ (actionDecision env s).last_decision_time_ = s.current_time_
    ∧ (actionDecision env s).actionImplCalls
        = s.actionImplCalls + (if s.last_decision_time_ ≠ s.current_time_ then 1 else 0) := by
  unfold actionDecision runActionImpl
  by_cases hlog : (env.config.offlineLogging && !s.serverParam.synchMode) = true <;>
    by_cases hne : s.last_decision_time_ = s.current_time_ <;>
    simp [hlog, hne]

/-- What `action()` does to the decision state. -/
theorem action_frame (env : Env) (s : CoachAgent) :
    (action env s).current_time_ = s.current_time_
    ∧ (action env s).last_decision_time_ = s.current_time_
    ∧ (action env s).actionImplCalls
        = s.actionImplCalls + (if s.last_decision_time_ ≠ s.current_time_ then 1 else 0) := by
  have h := actionDecision_frame env s
  unfold action
  by_cases ht : (actionDecision env s).think_received_ = true
  · simp only [ht, if_true, sendCommand_state]
    exact ⟨h.1, h.2.2.1, h.2.2.2⟩
  · simp only [ht]
    exact ⟨h.1, h.2.2.1, h.2.2.2⟩

/-- Once a decision has been made at the current time, no later `action()`
invokes `actionImpl()` as long as the steps in between keep the decision state. -/
theorem actionAfterEach_decided (env : Env) (steps : List (CoachAgent → CoachAgent))
    (hsteps : ∀ f ∈ steps, KeepsDecisionState f) (s : CoachAgent)
    (hdone : s.last_decision_time_ = s.current_time_) :
    (actionAfterEach env steps s).actionImplCalls = s.actionImplCalls := by
  induction steps generalizing s with
  | nil => rfl
  | cons f fs ih =>
    have hf := hsteps f (List.mem_cons_self f fs) s
    have ha := action_frame env (f s)
    have hdone2 : (f s).last_decision_time_ = (f s).current_time_ := by
      rw [hf.1, hf.2.1]; exact hdone
    simp only [actionAfterEach]
    rw [ih (fun g hg => hsteps g (List.mem_cons_of_mem f hg)) (action env (f s))
      (by rw [ha.1, ha.2.1])]
    rw [ha.2.2, hf.2.2]
    simp [hdone2]

/-- C5: `action()` invokes `actionImpl()` iff the last decision time differs
from the current time, and afterwards the two are equal while the current time
is as before; so in a run where `action()` is called after each of any steps
that leave the current time alone, `actionImpl()` is invoked at most once, and
not at all after a first `action()`. -/
theorem action_at_most_once (env : Env) (s : CoachAgent)
    (steps : List (CoachAgent → CoachAgent))
    (hsteps : ∀ f ∈ steps, KeepsDecisionState f) :
    ((action env s).actionImplCalls = s.actionImplCalls + 1
        ↔ s.last_decision_time_ ≠ s.current_time_)
    ∧ ((action env s).actionImplCalls = s.actionImplCalls
        ↔ s.last_decision_time_ = s.current_time_)
    ∧ (action env s).last_decision_time_ = (action env s).current_time_
    ∧ (action env s).current_time_ = s.current_time_
    ∧ (actionAfterEach env steps (action env s)).actionImplCalls = (action env s).actionImplCalls
    ∧ (actionAfterEach env steps s).actionImplCalls ≤ s.actionImplCalls + 1
    ∧ (actionAfterEach env steps s).current_time_ = s.current_time_ := by
  have ha := action_frame env s
  have hdec : (action env s).last_decision_time_ = (action env s).current_time_ := by
    rw [ha.1, ha.2.1]
  refine ⟨?_, ?_, hdec, ha.1, actionAfterEach_decided env steps hsteps _ hdec, ?_, ?_⟩
  · rw [ha.2.2]
    by_cases h : s.last_decision_time_ = s.current_time_ <;> simp [h]
  · rw [ha.2.2]
    by_cases h : s.last_decision_time_ = s.current_time_ <;> simp [h]
  · cases steps with
    | nil => simp [actionAfterEach]
    | cons f fs =>
      have hf := hsteps f (List.mem_cons_self f fs) s
      have hb := action_frame env (f s)
      simp only [actionAfterEach]
      rw [actionAfterEach_decided env fs (fun g hg => hsteps g (List.mem_cons_of_mem f hg))
        (action env (f s)) (by rw [hb.1, hb.2.1])]
      rw [hb.2.2, hf.2.2]
      split_ifs <;> omega
  · clear ha hdec
    induction steps generalizing s with
    | nil => rfl
    | cons f fs ih =>
      simp only [actionAfterEach]
      rw [ih (action env (f s)) (fun g hg => hsteps g (List.mem_cons_of_mem f hg)),
        (action_frame env (f s)).1, (hsteps f (List.mem_cons_self f fs) s).1]

/-- C5, at a concrete run: the fresh agent, whose last decision time differs
from its current time, with `action()` called after a think message and again
after an idle step. -/
theorem action_at_most_once_witness :
    ((action (sampleEnv 7) sampleAgent).actionImplCalls = sampleAgent.actionImplCalls + 1
        ↔ sampleAgent.last_decision_time_ ≠ sampleAgent.current_time_)
    ∧ ((action (sampleEnv 7) sampleAgent).actionImplCalls = sampleAgent.actionImplCalls
        ↔ sampleAgent.last_decision_time_ = sampleAgent.current_time_)
    ∧ (action (sampleEnv 7) sampleAgent).last_decision_time_
        = (action (sampleEnv 7) sampleAgent).current_time_
    ∧ (action (sampleEnv 7) sampleAgent).current_time_ = sampleAgent.current_time_
    ∧ (actionAfterEach (sampleEnv 7)
          [fun s => { s with think_received_ := true }, fun s => s]
          (action (sampleEnv 7) sampleAgent)).actionImplCalls
        = (action (sampleEnv 7) sampleAgent).actionImplCalls
    ∧ (actionAfterEach (sampleEnv 7)
          [fun s => { s with think_received_ := true }, fun s => s] sampleAgent).actionImplCalls
        ≤ sampleAgent.actionImplCalls + 1
    ∧ (actionAfterEach (sampleEnv 7)
          [fun s => { s with think_received_ := true }, fun s => s] sampleAgent).current_time_
        = sampleAgent.current_time_ :=
  action_at_most_once (sampleEnv 7) sampleAgent
    [fun s => { s with think_received_ := true }, fun s => s]
    (by
      intro f hf
      simp only [List.mem_cons, List.mem_singleton, List.not_mem_nil, or_false] at hf
      rcases hf with rfl | rfl <;> intro s <;> exact ⟨rfl, rfl, rfl⟩)

/-- C6: the done command renders to a non-empty text.  Then `action()` ends
with the think flag down; when the flag was up on entry the last thing it does
is to send the done command, after the decision part; when the flag was down on
entry it sends nothing after the decision part. -/
theorem action_done_iff_think (env : Env) (s : CoachAgent)
    (hdone : (env.toStr CoachCommand.done).length ≠ 0) :
    (action env s).think_received_ = false
    ∧ (s.think_received_ = true →
        (action env s).M_client.sent
          = (actionDecision env s).M_client.sent ++ [env.toStr CoachCommand.done])
    ∧ (s.think_received_ = false → action env s = actionDecision env s)
    ∧ ((action env s).M_client.sent ≠ (actionDecision env s).M_client.sent
        ↔ s.think_received_ = true) := by
  have hth := (actionDecision_frame env s).2.1
  cases hs : s.think_received_
  · have hmid : (actionDecision env s).think_received_ = false := by rw [hth, hs]
    have ha : action env s = actionDecision env s := by
      unfold action
      simp [hmid]
    refine ⟨by rw [ha, hmid], fun h => Bool.noConfusion h, fun _ => ha, ?_⟩
    rw [ha]
    simp
  · have hmid : (actionDecision env s).think_received_ = true := by rw [hth, hs]
    have ha : (action env s).M_client.sent
        = (actionDecision env s).M_client.sent ++ [env.toStr CoachCommand.done] := by
      unfold action
      simp [hmid, sendCommand_state, hdone]
    refine ⟨?_, fun _ => ha, fun h => Bool.noConfusion h, ?_⟩
    · unfold action
      simp [hmid]
    · rw [ha]
      simp

/-- C6, at a concrete input: the fresh agent with the think flag up sends
`(done)` and lowers the flag. -/
theorem action_done_iff_think_witness :
    (action (sampleEnv 7) { sampleAgent with think_received_ := true }).think_received_ = false
    ∧ (({ sampleAgent with think_received_ := true } : CoachAgent).think_received_ = true →
        (action (sampleEnv 7) { sampleAgent with think_received_ := true }).M_client.sent
          = (actionDecision (sampleEnv 7) { sampleAgent with think_received_ := true }).M_client.sent
              ++ [(sampleEnv 7).toStr CoachCommand.done])
    ∧ (({ sampleAgent with think_received_ := true } : CoachAgent).think_received_ = false →
        action (sampleEnv 7) { sampleAgent with think_received_ := true }
          = actionDecision (sampleEnv 7) { sampleAgent with think_received_ := true })
    ∧ ((action (sampleEnv 7) { sampleAgent with think_received_ := true }).M_client.sent
          ≠ (actionDecision (sampleEnv 7) { sampleAgent with think_received_ := true }).M_client.sent
        ↔ ({ sampleAgent with think_received_ := true } : CoachAgent).think_received_ = true) :=
  action_done_iff_think (sampleEnv 7) { sampleAgent with think_received_ := true } (by decide)

/-- C7: `analyzeSeeGlobal` hands the snapshot to the world model
(`updateAfterSeeGlobal`) only when the time of the visual sensor after `parse`
equals the current time after the time update; with a different time the world
model is left alone; and when the cycle does not scan, the visual sensor does
not parse, the world model is left alone and the time is not updated. -/
theorem analyzeSeeGlobal_gate (env : Env) (s : CoachAgent) (msg : String) :
    (scanCycle msg = none →
        (analyzeSeeGlobal env s msg).visual_ = s.visual_
        ∧ (analyzeSeeGlobal env s msg).M_worldmodel = s.M_worldmodel
        ∧ (analyzeSeeGlobal env s msg).current_time_ = s.current_time_)
    ∧ (∀ c, scanCycle msg = some c →
        (analyzeSeeGlobal env s msg).current_time_ = (updateCurrentTime s c true).current_time_
        ∧ (analyzeSeeGlobal env s msg).visual_ = s.visual_ ++
            [{ msg := msg, version := env.config.version,
               current := (analyzeSeeGlobal env s msg).current_time_ }]
        ∧ (analyzeSeeGlobal env s msg).M_worldmodel =
            if env.visualTime (analyzeSeeGlobal env s msg).visual_
                = (analyzeSeeGlobal env s msg).current_time_ then
              s.M_worldmodel ++ [WorldCall.updateAfterSeeGlobal
                (analyzeSeeGlobal env s msg).visual_ (analyzeSeeGlobal env s msg).current_time_]
            else s.M_worldmodel)
    ∧ ((analyzeSeeGlobal env s msg).M_worldmodel ≠ s.M_worldmodel →
        (scanCycle msg).isSome = true
        ∧ env.visualTime (analyzeSeeGlobal env s msg).visual_
            = (analyzeSeeGlobal env s msg).current_time_)
    ∧ (env.visualTime (analyzeSeeGlobal env s msg).visual_
          ≠ (analyzeSeeGlobal env s msg).current_time_ →
        (analyzeSeeGlobal env s msg).M_worldmodel = s.M_worldmodel) := by
  have hw : ∀ c b, (updateCurrentTime s c b).M_worldmodel = s.M_worldmodel := by
    intro c b; unfold updateCurrentTime; split_ifs <;> rfl
  have hv : ∀ c b, (updateCurrentTime s c b).visual_ = s.visual_ := by
    intro c b; unfold updateCurrentTime; split_ifs <;> rfl
  cases hc : scanCycle msg with
  | none =>
    have e : analyzeSeeGlobal env s msg
        = { s with cerr := s.cerr ++ [Diag.failedToParseTime msg] } := by
      simp [analyzeSeeGlobal, analyzeCycle, hc]
    rw [e]
    simp
  | some c =>
    by_cases hgate : env.visualTime (s.visual_ ++
        [{ msg := msg, version := env.config.version,
           current := (updateCurrentTime s c true).current_time_ }])
        = (updateCurrentTime s c true).current_time_
    · have e : analyzeSeeGlobal env s msg
          = { updateCurrentTime s c true with
              visual_ := s.visual_ ++
                [{ msg := msg, version := env.config.version,
                   current := (updateCurrentTime s c true).current_time_ }]
              M_worldmodel := s.M_worldmodel ++
                [WorldCall.updateAfterSeeGlobal
                  (s.visual_ ++
                    [{ msg := msg, version := env.config.version,
                       current := (updateCurrentTime s c true).current_time_ }])
                  (updateCurrentTime s c true).current_time_] } := by
        simp [analyzeSeeGlobal, analyzeCycle, hc, hgate, hw, hv]
      rw [e]
      simp [hgate]
    · have e : analyzeSeeGlobal env s msg
          = { updateCurrentTime s c true with
              visual_ := s.visual_ ++
                [{ msg := msg, version := env.config.version,
                   current := (updateCurrentTime s c true).current_time_ }] } := by
        simp [analyzeSeeGlobal, analyzeCycle, hc, hgate, hw, hv]
      rw [e]
      simp [hgate, hw]

/-- The conversion to `int` keeps a length below `2^31`. -/
theorem toInt32_of_lt (n : Nat) (h : n < 2147483648) : toInt32 (n : Int) = n := by
  unfold toInt32
  omega

/-- The length check of `doSayFreeform` on lengths that fit an `int`: an empty
message, or one longer than the server's say-message size, is rejected; nothing
is sent and the world model (with its freeform send count) is left alone,
whatever the protocol version and the game mode. -/
theorem doSayFreeform_length_check (env : Env) (s : CoachAgent) (msg : String)
    (hfit : msg.length < 2147483648)
    (hbad : msg.length = 0 ∨ (msg.length : Int) > s.serverParam.coachSayMsgSize) :
    (doSayFreeform env s msg).1 = false
    ∧ (doSayFreeform env s msg).2.M_client = s.M_client
    ∧ (doSayFreeform env s msg).2.M_worldmodel = s.M_worldmodel := by
  have hbad2 : msg.length = 0 ∨ toInt32 msg.length > s.serverParam.coachSayMsgSize := by
    rw [toInt32_of_lt _ hfit]; exact hbad
  simp [doSayFreeform, hbad2]

/-- A text without a NUL character is its own C string. -/
theorem c_str_of_noNul (str : String) (h : ∀ c ∈ str.toList, c ≠ Char.ofNat 0) :
    c_str str = str := by
  have e : cstr str = str.toList := by
    unfold cstr
    rw [List.takeWhile_eq_self_iff]
    intro c hc
    simpa using h c hc
  unfold c_str
  rw [e]
  rfl

/-- The freeform envelope of a message without a NUL character is its own C
string. -/
theorem freeform_c_str (msg : String) (h : ∀ c ∈ msg.toList, c ≠ Char.ofNat 0) :
    c_str ("(say (freeform \"" ++ msg ++ "\"))") = "(say (freeform \"" ++ msg ++ "\"))" := by
  apply c_str_of_noNul
  intro c hc
  have hl : ("(say (freeform \"" ++ msg ++ "\"))").toList
      = "(say (freeform \"".toList ++ msg.toList ++ "\"))".toList := by
    simp [String.toList]
  rw [hl] at hc
  simp only [List.mem_append] at hc
  rcases hc with (hc | hc) | hc
  · revert c; decide
  · exact h c hc
  · revert c; decide

/-- What `doSayFreeform` does at protocol version 7 or above once the length
check and the world model's `canSendFreeform` let the message through: the
transport is handed the C string of the freeform envelope. -/
theorem doSayFreeform_sends (env : Env) (s : CoachAgent) (msg : String)
    (hne : msg.length ≠ 0) (hlen : toInt32 msg.length ≤ s.serverParam.coachSayMsgSize)
    (hver : ¬ env.config.version < 7) (hcan : env.canSendFreeform s.M_worldmodel = true) :
    (doSayFreeform env s msg).1
        = decide (env.sendMessage s.M_client
            (c_str ("(say (freeform \"" ++ msg ++ "\"))")) > 0)
    ∧ (doSayFreeform env s msg).2.M_client.sent
        = s.M_client.sent ++ [c_str ("(say (freeform \"" ++ msg ++ "\"))")]
    ∧ (doSayFreeform env s msg).2.M_worldmodel
        = s.M_worldmodel ++ [WorldCall.incFreeformSendCount] := by
  have hguard : ¬ (msg.length = 0 ∨ toInt32 msg.length > s.serverParam.coachSayMsgSize) := by
    rintro (h | h)
    · exact hne h
    · exact absurd hlen (not_le.mpr h)
  simp [doSayFreeform, hguard, hver, hcan, sendMessage]

/-- The length of `hugeMessage`. -/
theorem hugeMessage_length : hugeMessage.length = 2147483648 := by
  show (List.replicate 2147483648 'a').length = 2147483648
  exact List.length_replicate _ _

/-- C8, the failing input: the message has `2^31` characters, far more than the
say-message size 128, yet the `int` conversion of its length is negative, the
length check lets it through, and at protocol version 7 the message is sent and
the freeform send count is incremented. -/
theorem doSayFreeform_overlong_sent :
    (hugeMessage.length : Int) > sampleAgent.serverParam.coachSayMsgSize
    ∧ toInt32 hugeMessage.length = -2147483648
    ∧ (doSayFreeform (sampleEnv 7) sampleAgent hugeMessage).1 = true
    ∧ (doSayFreeform (sampleEnv 7) sampleAgent hugeMessage).2.M_client.sent
        = ["(say (freeform \"" ++ hugeMessage ++ "\"))"]
    ∧ (doSayFreeform (sampleEnv 7) sampleAgent hugeMessage).2.M_worldmodel
        = [WorldCall.incFreeformSendCount] := by
  have hcast : toInt32 hugeMessage.length = -2147483648 := by
    rw [hugeMessage_length]; decide
  have hsize : sampleAgent.serverParam.coachSayMsgSize = 128 := rfl
  have h := doSayFreeform_sends (sampleEnv 7) sampleAgent hugeMessage
    (by rw [hugeMessage_length]; decide) (by rw [hcast, hsize]; decide)
    (by show ¬ ((7 : Rat) < 7); decide) rfl
  have hnul : ∀ c ∈ hugeMessage.toList, c ≠ Char.ofNat 0 := by
    intro c hc
    have hc2 : c ∈ List.replicate 2147483648 'a' := hc
    rw [(List.mem_replicate.mp hc2).2]
    decide
  rw [freeform_c_str hugeMessage hnul] at h
  refine ⟨by rw [hugeMessage_length, hsize]; decide, hcast, ?_, h.2.1, h.2.2⟩
  rw [h.1]
  have hpos : ∀ str : String, (0 : Int) < (str.length : Int) + 1 := by
    intro str; omega
  exact decide_eq_true (hpos _)

/-- The version gate of `doSayFreeform` for a message of legal length (not
empty, not longer than the say-message size, which is an `int`) that holds no
NUL character and whose say command renders to a non-empty text.  Below
protocol version 7.0 the call is rejected (false returned, nothing
sent) iff the world's game mode is play-on, and otherwise the rendered say
command is sent; the answer of `canSendFreeform` plays no part.  At 7.0 or above
the call is rejected iff `canSendFreeform` is false, and otherwise the text
`(say (freeform "<msg>"))` is sent; the game mode plays no part. -/
theorem doSayFreeform_version_gate (env : Env) (s : CoachAgent) (msg : String)
    (hpos : 0 < msg.length)
    (hle : (msg.length : Int) ≤ s.serverParam.coachSayMsgSize)
    (hint : s.serverParam.coachSayMsgSize < 2147483648)
    (hnul : ∀ c ∈ msg.toList, c ≠ Char.ofNat 0)
    (hsay : (env.toStr (CoachCommand.say msg)).length ≠ 0) :
    (env.config.version < 7 →
        (((doSayFreeform env s msg).1 = false
            ∧ (doSayFreeform env s msg).2.M_client.sent = s.M_client.sent)
          ↔ env.worldIsPlayOn s.M_worldmodel = true)
        ∧ (env.worldIsPlayOn s.M_worldmodel = false →
            (doSayFreeform env s msg).2.M_client.sent
              = s.M_client.sent ++ [env.toStr (CoachCommand.say msg)]
            ∧ (doSayFreeform env s msg).1
              = decide (env.sendMessage s.M_client (env.toStr (CoachCommand.say msg)) > 0))
        ∧ (∀ can : GlobalWorldModel → Bool,
            doSayFreeform { env with canSendFreeform := can } s msg = doSayFreeform env s msg))
    ∧ (¬ env.config.version < 7 →
        (((doSayFreeform env s msg).1 = false
            ∧ (doSayFreeform env s msg).2.M_client.sent = s.M_client.sent)
          ↔ env.canSendFreeform s.M_worldmodel = false)
        ∧ (env.canSendFreeform s.M_worldmodel = true →
            (doSayFreeform env s msg).2.M_client.sent
              = s.M_client.sent ++ ["(say (freeform \"" ++ msg ++ "\"))"]
            ∧ (doSayFreeform env s msg).1
              = decide (env.sendMessage s.M_client ("(say (freeform \"" ++ msg ++ "\"))") > 0))
        ∧ (∀ playOn : GlobalWorldModel → Bool,
            doSayFreeform { env with worldIsPlayOn := playOn } s msg = doSayFreeform env s msg)) := by
  have hfit : msg.length < 2147483648 := by omega
  have hguard : ¬ (msg.length = 0 ∨ toInt32 msg.length > s.serverParam.coachSayMsgSize) := by
    rw [toInt32_of_lt _ hfit]
    rintro (h | h)
    · omega
    · exact absurd hle (not_le.mpr h)
  constructor
  · intro hver
    refine ⟨?_, ?_, ?_⟩
    · cases hp : env.worldIsPlayOn s.M_worldmodel
      · simp [doSayFreeform, hguard, hver, hp, sendCommand, sendMessage, hsay]
      · simp [doSayFreeform, hguard, hver, hp]
    · intro hp
      simp [doSayFreeform, hguard, hver, hp, sendCommand, sendMessage, hsay]
    · intro can
      simp [doSayFreeform, hguard, hver, sendCommand, sendMessage]
  · intro hver
    refine ⟨?_, ?_, ?_⟩
    · cases hc : env.canSendFreeform s.M_worldmodel
      · simp [doSayFreeform, hguard, hver, hc]
      · simp [doSayFreeform, hguard, hver, hc, sendMessage]
    · intro hc
      simp [doSayFreeform, hguard, hver, hc, sendMessage, freeform_c_str msg hnul]
    · intro playOn
      simp [doSayFreeform, hguard, hver, sendMessage]

/-- The version gate at concrete inputs: the fresh agent sends the message
`hello` as the bare say command at protocol version 6 and inside the freeform
envelope at protocol version 7. -/
theorem doSayFreeform_version_gate_witness :
    ((doSayFreeform (sampleEnv 6) sampleAgent "hello").2.M_client.sent = ["(say hello)"]
      ∧ (doSayFreeform (sampleEnv 6) sampleAgent "hello").1 = true)
    ∧ ((doSayFreeform (sampleEnv 7) sampleAgent "hello").2.M_client.sent
        = ["(say (freeform \"hello\"))"]
      ∧ (doSayFreeform (sampleEnv 7) sampleAgent "hello").1 = true) :=
  ⟨((doSayFreeform_version_gate (sampleEnv 6) sampleAgent "hello"
      (by decide) (by decide) (by decide) (by decide) (by decide)).1 (by decide)).2.1 rfl,
   ((doSayFreeform_version_gate (sampleEnv 7) sampleAgent "hello"
      (by decide) (by decide) (by decide) (by decide) (by decide)).2 (by decide)).2.1 rfl⟩

/-- C9, the failing input: the message `a`, NUL, `b` has the legal length 3 and
the world model allows a freeform message.  At protocol version 7 the call
returns true, and the text the transport receives is `(say (freeform "a`, the
part of the freeform envelope before the NUL, not the envelope around the
message. -/
theorem doSayFreeform_nul_cut :
    nulMessage.length = 3
    ∧ (nulMessage.length : Int) ≤ sampleAgent.serverParam.coachSayMsgSize
    ∧ (sampleEnv 7).canSendFreeform sampleAgent.M_worldmodel = true
    ∧ (doSayFreeform (sampleEnv 7) sampleAgent nulMessage).1 = true
    ∧ (doSayFreeform (sampleEnv 7) sampleAgent nulMessage).2.M_client.sent
        = ["(say (freeform \"a"]
    ∧ (doSayFreeform (sampleEnv 7) sampleAgent nulMessage).2.M_client.sent
        ≠ ["(say (freeform \"" ++ nulMessage ++ "\"))"] := by
  decide

/-- The function `doTeamGraphic` with the two updates of the statics folded
into one. -/
theorem doTeamGraphic_eq (env : Env) (s : CoachAgent) (x y : Int) (tg : TeamGraphic) :
    doTeamGraphic env s x y tg
      = if nextSendCount s > env.config.maxTeamGraphicPerCycle then
          (false, { s with send_time := s.current_time_, send_count := nextSendCount s })
        else
          match tg x y with
          | none =>
            (false, { s with send_time := s.current_time_, send_count := nextSendCount s,
                             cerr := s.cerr ++ [Diag.tileNotFound x y] })
          | some tile =>
            (decide (env.sendMessage s.M_client (teamGraphicText x y tile) > 0),
             { s with send_time := s.current_time_, send_count := nextSendCount s,
                      M_client := { s.M_client with
                        sent := s.M_client.sent ++ [teamGraphicText x y tile] } }) := by
  unfold doTeamGraphic nextSendCount sendMessage
  by_cases ht : s.send_time = s.current_time_ <;> simp [ht]

/-- What one call of `doTeamGraphic` does to the statics and the current time:
the count restarts from zero iff the time of the previous attempt differs from
the current time, and is then incremented; the time of the attempt is recorded. -/
theorem doTeamGraphic_statics (env : Env) (s : CoachAgent) (x y : Int) (tg : TeamGraphic) :
    (doTeamGraphic env s x y tg).2.send_count = nextSendCount s
    ∧ (doTeamGraphic env s x y tg).2.send_time = s.current_time_
    ∧ (doTeamGraphic env s x y tg).2.current_time_ = s.current_time_ := by
  rw [doTeamGraphic_eq]
  split_ifs
  · exact ⟨rfl, rfl, rfl⟩
  · cases tg x y <;> exact ⟨rfl, rfl, rfl⟩

/-- The outcome of one call of `doTeamGraphic` in terms of the value the count
takes in that call. -/
theorem doTeamGraphic_outcome (env : Env) (s : CoachAgent) (x y : Int) (tg : TeamGraphic) :
    (nextSendCount s > env.config.maxTeamGraphicPerCycle →
        (doTeamGraphic env s x y tg).1 = false
        ∧ (doTeamGraphic env s x y tg).2.M_client = s.M_client
        ∧ (doTeamGraphic env s x y tg).2.cerr = s.cerr)
    ∧ (nextSendCount s ≤ env.config.maxTeamGraphicPerCycle →
        ∀ tile, tg x y = some tile →
          (doTeamGraphic env s x y tg).2.M_client.sent
            = s.M_client.sent ++ [teamGraphicText x y tile]
          ∧ (doTeamGraphic env s x y tg).1
            = decide (env.sendMessage s.M_client (teamGraphicText x y tile) > 0))
    ∧ (nextSendCount s ≤ env.config.maxTeamGraphicPerCycle → tg x y = none →
        (doTeamGraphic env s x y tg).1 = false
        ∧ (doTeamGraphic env s x y tg).2.M_client = s.M_client
        ∧ (doTeamGraphic env s x y tg).2.cerr = s.cerr ++ [Diag.tileNotFound x y]) := by
  rw [doTeamGraphic_eq]
  refine ⟨?_, ?_, ?_⟩
  · intro h
    rw [if_pos h]
    exact ⟨rfl, rfl, rfl⟩
  · intro h tile htile
    rw [if_neg (not_lt.mpr h), htile]
    exact ⟨rfl, rfl⟩
  · intro h htile
    rw [if_neg (not_lt.mpr h), htile]
    exact ⟨rfl, rfl, rfl⟩

/-- After the attempts `reqs`, made at an unchanged current time, the current
time is as before, and when there was at least one attempt the recorded time of
the last attempt is the current time. -/
theorem doTeamGraphicAll_time (env : Env) (reqs : List TileRequest) (s : CoachAgent) :
    (doTeamGraphicAll env reqs s).current_time_ = s.current_time_
    ∧ (reqs ≠ [] → (doTeamGraphicAll env reqs s).send_time = s.current_time_) := by
  induction reqs generalizing s with
  | nil => exact ⟨rfl, fun h => absurd rfl h⟩
  | cons r rest ih =>
    have h1 := doTeamGraphic_statics env s r.x r.y r.team_graphic
    have h2 := ih (doTeamGraphic env s r.x r.y r.team_graphic).2
    simp only [doTeamGraphicAll]
    refine ⟨by rw [h2.1, h1.2.2], fun _ => ?_⟩
    cases rest with
    | nil => simpa [doTeamGraphicAll] using h1.2.1
    | cons r2 rest2 => rw [h2.2 (List.cons_ne_nil _ _), h1.2.2]

/-- The value the count takes in the attempt that follows the attempts `reqs`,
made at an unchanged current time: one more for every attempt made. -/
theorem doTeamGraphicAll_count (env : Env) (reqs : List TileRequest) (s : CoachAgent) :
    nextSendCount (doTeamGraphicAll env reqs s) = nextSendCount s + (reqs.length : Int) := by
  induction reqs generalizing s with
  | nil => simp [doTeamGraphicAll]
  | cons r rest ih =>
    have h1 := doTeamGraphic_statics env s r.x r.y r.team_graphic
    have hnext : nextSendCount (doTeamGraphic env s r.x r.y r.team_graphic).2
        = nextSendCount s + 1 := by
      have hsame : (doTeamGraphic env s r.x r.y r.team_graphic).2.send_time
          = (doTeamGraphic env s r.x r.y r.team_graphic).2.current_time_ := by
        rw [h1.2.1, h1.2.2]
      conv_lhs => unfold nextSendCount
      simp only [ne_eq, hsame, not_true_eq_false, if_false, h1.1]
    simp only [doTeamGraphicAll, List.length_cons]
    rw [ih, hnext]
    push_cast
    ring

/-- C10: in a call of `doTeamGraphic` the upload count restarts from zero
exactly when the current time differs from the time of the previous attempt.
With `N` the configured maximum per cycle, and a first attempt that meets a
changed time (or a count never used), the attempt that follows `k` attempts at
the same time passes the quota check when `k + 1 <= N` (it goes on to the tile
lookup: an existing tile is sent, a missing one is reported), and returns false
without sending or reporting anything when `k + 1 > N`. -/
theorem doTeamGraphic_quota (env : Env) (s : CoachAgent) (reqs : List TileRequest)
    (r : TileRequest)
    (hfirst : s.send_time ≠ s.current_time_ ∨ s.send_count = 0) :
    (∀ (s0 : CoachAgent) (x y : Int) (tg : TeamGraphic),
        (doTeamGraphic env s0 x y tg).2.send_count
          = (if s0.send_time ≠ s0.current_time_ then 0 else s0.send_count) + 1)
    ∧ (doTeamGraphicAll env reqs s).current_time_ = s.current_time_
    ∧ (doTeamGraphic env (doTeamGraphicAll env reqs s) r.x r.y r.team_graphic).2.send_count
        = (reqs.length : Int) + 1
    ∧ ((reqs.length : Int) + 1 ≤ env.config.maxTeamGraphicPerCycle →
        ∀ tile, r.team_graphic r.x r.y = some tile →
          (doTeamGraphic env (doTeamGraphicAll env reqs s) r.x r.y r.team_graphic).2.M_client.sent
            = (doTeamGraphicAll env reqs s).M_client.sent ++ [teamGraphicText r.x r.y tile]
          ∧ (doTeamGraphic env (doTeamGraphicAll env reqs s) r.x r.y r.team_graphic).1
            = decide (env.sendMessage (doTeamGraphicAll env reqs s).M_client
                (teamGraphicText r.x r.y tile) > 0))
    ∧ ((reqs.length : Int) + 1 ≤ env.config.maxTeamGraphicPerCycle →
        r.team_graphic r.x r.y = none →
          (doTeamGraphic env (doTeamGraphicAll env reqs s) r.x r.y r.team_graphic).2.cerr
            = (doTeamGraphicAll env reqs s).cerr ++ [Diag.tileNotFound r.x r.y])
    ∧ ((reqs.length : Int) + 1 > env.config.maxTeamGraphicPerCycle →
        (doTeamGraphic env (doTeamGraphicAll env reqs s) r.x r.y r.team_graphic).1 = false
        ∧ (doTeamGraphic env (doTeamGraphicAll env reqs s) r.x r.y r.team_graphic).2.M_client
            = (doTeamGraphicAll env reqs s).M_client
        ∧ (doTeamGraphic env (doTeamGraphicAll env reqs s) r.x r.y r.team_graphic).2.cerr
            = (doTeamGraphicAll env reqs s).cerr) := by
  have hone : nextSendCount s = 1 := by
    unfold nextSendCount
    rcases hfirst with h | h
    · simp [h]
    · by_cases ht : s.send_time = s.current_time_ <;> simp [ht, h]
  have hcount : nextSendCount (doTeamGraphicAll env reqs s) = (reqs.length : Int) + 1 := by
    rw [doTeamGraphicAll_count, hone]; ring
  have hout := doTeamGraphic_outcome env (doTeamGraphicAll env reqs s) r.x r.y r.team_graphic
  have hst := doTeamGraphic_statics env (doTeamGraphicAll env reqs s) r.x r.y r.team_graphic
  refine ⟨fun s0 x y tg => (doTeamGraphic_statics env s0 x y tg).1,
    (doTeamGraphicAll_time env reqs s).1, by rw [hst.1, hcount], ?_, ?_, ?_⟩
  · intro h tile htile
    exact hout.2.1 (by rw [hcount]; exact h) tile htile
  · intro h htile
    exact (hout.2.2 (by rw [hcount]; exact h) htile).2.2
  · intro h
    exact hout.1 (by rw [hcount]; exact h)

/-- C10, at concrete inputs: the maximum per cycle is 2 and the fresh agent
uploads the same tile again and again at one time; the second attempt sends the
tile, the third returns false and sends nothing. -/
theorem doTeamGraphic_quota_witness :
    (doTeamGraphic (sampleEnv 7) (doTeamGraphicAll (sampleEnv 7) [sampleTile] sampleAgent)
        0 0 sampleTile.team_graphic).2.M_client.sent
      = ["(team_graphic (0 0 XPM))", "(team_graphic (0 0 XPM))"]
    ∧ ((doTeamGraphic (sampleEnv 7)
          (doTeamGraphicAll (sampleEnv 7) [sampleTile, sampleTile] sampleAgent)
          0 0 sampleTile.team_graphic).1 = false
      ∧ (doTeamGraphic (sampleEnv 7)
          (doTeamGraphicAll (sampleEnv 7) [sampleTile, sampleTile] sampleAgent)
          0 0 sampleTile.team_graphic).2.M_client
        = (doTeamGraphicAll (sampleEnv 7) [sampleTile, sampleTile] sampleAgent).M_client
      ∧ (doTeamGraphic (sampleEnv 7)
          (doTeamGraphicAll (sampleEnv 7) [sampleTile, sampleTile] sampleAgent)
          0 0 sampleTile.team_graphic).2.cerr
        = (doTeamGraphicAll (sampleEnv 7) [sampleTile, sampleTile] sampleAgent).cerr) :=
  ⟨((doTeamGraphic_quota (sampleEnv 7) sampleAgent [sampleTile] sampleTile
      (by decide)).2.2.2.1 (by decide) "XPM" rfl).1,
   (doTeamGraphic_quota (sampleEnv 7) sampleAgent [sampleTile, sampleTile] sampleTile
      (by decide)).2.2.2.2.2 (by decide)⟩

/-- C15: `updateServerStatus` leaves the clock-mode flag equal to
`game_mode_.isServerCycleStoppedMode()`, whatever the flag was before, and
changes no other member. -/
theorem updateServerStatus_flag (env : Env) (s : CoachAgent) :
    updateServerStatus env s
      = { s with server_cycle_stopped_ := env.isServerCycleStoppedMode s.game_mode_ }
    ∧ (updateServerStatus env s).server_cycle_stopped_
        = env.isServerCycleStoppedMode s.game_mode_
    ∧ (env.isServerCycleStoppedMode s.game_mode_ = false →
        (updateServerStatus env s).server_cycle_stopped_ = false)
    ∧ (env.isServerCycleStoppedMode s.game_mode_ = true →
        (updateServerStatus env s).server_cycle_stopped_ = true)
    ∧ (updateServerStatus env s).current_time_ = s.current_time_ := by
  have h : updateServerStatus env s
      = { s with server_cycle_stopped_ := env.isServerCycleStoppedMode s.game_mode_ } := by
    cases s
    simp only [updateServerStatus]
    split_ifs <;> simp_all
  refine ⟨h, by rw [h], ?_, ?_, by rw [h]⟩
  · intro hm; rw [h]; exact hm
  · intro hm; rw [h]; exact hm

/-- C12: a message that starts with none of the fourteen texts `parse` tests
for is only reported on `std::cerr`: every member of the agent, the transport
and the world model are as before, and nothing is sent. -/
theorem parse_unsupported (env : Env) (s : CoachAgent) (msg : String)
    (hnone : ∀ h ∈ recognisedHeads, strncmp msg h.1 h.2 = false) :
    parse env s msg = { s with cerr := s.cerr ++ [Diag.unsupportedMessage msg] }
    ∧ (parse env s msg).current_time_ = s.current_time_
    ∧ (parse env s msg).last_decision_time_ = s.last_decision_time_
    ∧ (parse env s msg).think_received_ = s.think_received_
    ∧ (parse env s msg).server_cycle_stopped_ = s.server_cycle_stopped_
    ∧ (parse env s msg).game_mode_ = s.game_mode_
    ∧ (parse env s msg).visual_ = s.visual_
    ∧ (parse env s msg).audio_ = s.audio_
    ∧ (parse env s msg).M_worldmodel = s.M_worldmodel
    ∧ (parse env s msg).M_client = s.M_client := by
  have e : parse env s msg = { s with cerr := s.cerr ++ [Diag.unsupportedMessage msg] } := by
    have h1 := hnone ("(see_global ", 12) (by simp [recognisedHeads])
    have h2 := hnone ("(hear ", 6) (by simp [recognisedHeads])
    have h3 := hnone ("(think)", 7) (by simp [recognisedHeads])
    have h4 := hnone ("(change_player_type ", 20) (by simp [recognisedHeads])
    have h5 := hnone ("(clang ", 7) (by simp [recognisedHeads])
    have h6 := hnone ("(player_type ", 13) (by simp [recognisedHeads])
    have h7 := hnone ("(player_param ", 14) (by simp [recognisedHeads])
    have h8 := hnone ("(server_param ", 14) (by simp [recognisedHeads])
    have h9 := hnone ("(ok ", 4) (by simp [recognisedHeads])
    have h10 := hnone ("(error ", 7) (by simp [recognisedHeads])
    have h11 := hnone ("(warning ", 9) (by simp [recognisedHeads])
    have h12 := hnone ("(score ", 7) (by simp [recognisedHeads])
    have h13 := hnone ("(init ", 6) (by simp [recognisedHeads])
    have h14 := hnone ("(include ", 9) (by simp [recognisedHeads])
    simp only at h1 h2 h3 h4 h5 h6 h7 h8 h9 h10 h11 h12 h13 h14
    unfold parse
    simp only [h1, h2, h3, h4, h5, h6, h7, h8, h9, h10, h11, h12, h13, h14, Bool.false_eq_true,
      if_false]
  rw [e]
  exact ⟨rfl, rfl, rfl, rfl, rfl, rfl, rfl, rfl, rfl, rfl⟩

/-- C12, at the message of the scenario: `(foobar 1 2 3)` received by the
fresh agent. -/
theorem parse_unsupported_witness :
    parse (sampleEnv 7) sampleAgent "(foobar 1 2 3)"
      = { sampleAgent with cerr := sampleAgent.cerr ++ [Diag.unsupportedMessage "(foobar 1 2 3)"] }
    ∧ (parse (sampleEnv 7) sampleAgent "(foobar 1 2 3)").M_client.sent = [] :=
  ⟨(parse_unsupported (sampleEnv 7) sampleAgent "(foobar 1 2 3)" (by decide)).1,
   by rw [(parse_unsupported (sampleEnv 7) sampleAgent "(foobar 1 2 3)" (by decide)).2.2.2.2.2.2.2.2.2]
      rfl⟩

/-- The characters of a card token. -/
theorem cardToken_toList (kind : String) (side : Char) (ds : List Char) :
    (cardToken kind side ds).toList = kind.toList ++ "_card_".toList ++ side :: '_' :: ds := by
  simp [cardToken, String.toList]

/-- A string without a NUL character is its own C string. -/
theorem cstr_of_noNul (msg : String) (h : ∀ c ∈ msg.toList, c ≠ Char.ofNat 0) :
    cstr msg = msg.toList := by
  unfold cstr
  rw [List.takeWhile_eq_self_iff]
  intro c hc
  simpa using h c hc

/-- A decimal digit differs from every character that is not one. -/
theorem digit_ne (c d : Char) (hc : c.isDigit = true) (hd : d.isDigit = false) : c ≠ d := by
  intro e
  subst e
  rw [hc] at hd
  exact Bool.noConfusion hd

/-- A decimal digit is not white space. -/
theorem digit_not_space (c : Char) (hc : c.isDigit = true) : isSpace c = false := by
  have h1 := digit_ne c ' ' hc (by decide)
  have h2 := digit_ne c '\t' hc (by decide)
  have h3 := digit_ne c '\n' hc (by decide)
  have h4 := digit_ne c (Char.ofNat 11) hc (by decide)
  have h5 := digit_ne c (Char.ofNat 12) hc (by decide)
  have h6 := digit_ne c '\r' hc (by decide)
  simp [isSpace, h1, h2, h3, h4, h5, h6]

/-- The conversion `%d` on a non-empty run of decimal digits that ends the
input: the value of the digits, and nothing is left. -/
theorem scanLong_digits (ds : List Char) (hne : ds ≠ []) (hdig : ∀ c ∈ ds, c.isDigit = true) :
    scanLong ds = some ((decimalValue ds : Int), []) := by
  cases ds with
  | nil => exact absurd rfl hne
  | cons d rest =>
    have hd : d.isDigit = true := hdig d (List.mem_cons_self d rest)
    have hsp : isSpace d = false := digit_not_space d hd
    have hm := digit_ne d '-' hd (by decide)
    have hp := digit_ne d '+' hd (by decide)
    have htw : List.takeWhile Char.isDigit (d :: rest) = d :: rest := by
      rw [List.takeWhile_eq_self_iff]
      exact hdig
    have hskip : skipSpaces (d :: rest) = d :: rest := by
      simp [skipSpaces, List.dropWhile, hsp]
    unfold scanLong
    rw [hskip]
    have hsig : (match d :: rest with
        | '-' :: r => (true, r)
        | '+' :: r => (false, r)
        | _ => (false, d :: rest)) = (false, d :: rest) := by
      split
      · rename_i h; exact absurd (List.cons.inj h).1 hm
      · rename_i h; exact absurd (List.cons.inj h).1 hp
      · rfl
    simp only [hsig, htw]
    simp
/-- The C string of a yellow-card token. -/
theorem yellowToken_cstr (side : Char) (ds : List Char) (hside : side = 'l' ∨ side = 'r')
    (hdig : ∀ c ∈ ds, c.isDigit = true) :
    cstr (cardToken "yellow" side ds)
      = 'y' :: 'e' :: 'l' :: 'l' :: 'o' :: 'w' :: '_' :: 'c' :: 'a' :: 'r' :: 'd' :: '_'
          :: side :: '_' :: ds := by
  rw [cstr_of_noNul]
  · rw [cardToken_toList]; rfl
  · rw [cardToken_toList]
    intro c hc
    simp only [List.mem_append, List.mem_cons] at hc
    rcases hc with (hc | hc) | hc | hc | hc
    · revert c; decide
    · revert c; decide
    · rcases hside with h | h <;> (rw [hc, h]; decide)
    · rw [hc]; decide
    · exact digit_ne c _ (hdig c hc) (by decide)

/-- The format `"yellow_card_%c_%d"` on a yellow-card token: both conversions
succeed. -/
theorem yellowToken_scan (side : Char) (ds : List Char) (hside : side = 'l' ∨ side = 'r')
    (hne : ds ≠ []) (hdig : ∀ c ∈ ds, c.isDigit = true) :
    sscanf (cardToken "yellow" side ds) yellowCardFormat
      = [ScanValue.char side, ScanValue.int (storedInt (decimalValue ds))] := by
  unfold sscanf
  rw [yellowToken_cstr side ds hside hdig]
  simp [yellowCardFormat, scanItems, matchLit, scanLong_digits ds hne hdig]

/-- A yellow-card token starts with `yellow_card`. -/
theorem yellowToken_strncmp (side : Char) (ds : List Char) (hside : side = 'l' ∨ side = 'r')
    (hdig : ∀ c ∈ ds, c.isDigit = true) :
    strncmp (cardToken "yellow" side ds) "yellow_card" "yellow_card".length = true := by
  unfold strncmp
  rw [yellowToken_cstr side ds hside hdig]
  rfl

/-- The C string of a red-card token. -/
theorem redToken_cstr (side : Char) (ds : List Char) (hside : side = 'l' ∨ side = 'r')
    (hdig : ∀ c ∈ ds, c.isDigit = true) :
    cstr (cardToken "red" side ds)
      = 'r' :: 'e' :: 'd' :: '_' :: 'c' :: 'a' :: 'r' :: 'd' :: '_' :: side :: '_' :: ds := by
  rw [cstr_of_noNul]
  · rw [cardToken_toList]; rfl
  · rw [cardToken_toList]
    intro c hc
    simp only [List.mem_append, List.mem_cons] at hc
    rcases hc with (hc | hc) | hc | hc | hc
    · revert c; decide
    · revert c; decide
    · rcases hside with h | h <;> (rw [hc, h]; decide)
    · rw [hc]; decide
    · exact digit_ne c _ (hdig c hc) (by decide)

/-- The format `"red_card_%c_%d"` on a red-card token: both conversions
succeed. -/
theorem redToken_scan (side : Char) (ds : List Char) (hside : side = 'l' ∨ side = 'r')
    (hne : ds ≠ []) (hdig : ∀ c ∈ ds, c.isDigit = true) :
    sscanf (cardToken "red" side ds) redCardFormat
      = [ScanValue.char side, ScanValue.int (storedInt (decimalValue ds))] := by
  unfold sscanf
  rw [redToken_cstr side ds hside hdig]
  simp [redCardFormat, scanItems, matchLit, scanLong_digits ds hne hdig]

/-- A red-card token starts with `red_card` and not with `yellow_card`. -/
theorem redToken_strncmp (side : Char) (ds : List Char) (hside : side = 'l' ∨ side = 'r')
    (hdig : ∀ c ∈ ds, c.isDigit = true) :
    strncmp (cardToken "red" side ds) "yellow_card" "yellow_card".length = false
    ∧ strncmp (cardToken "red" side ds) "red_card" "red_card".length = true := by
  unfold strncmp
  rw [redToken_cstr side ds hside hdig]
  exact ⟨rfl, rfl⟩

/-- The side of a card message with side character `l` or `r`. -/
theorem sideOfChar_lr (side : Char) (hside : side = 'l' ∨ side = 'r') :
    sideOfChar side = if side = 'l' then SideID.LEFT else SideID.RIGHT := by
  rcases hside with h | h <;> (rw [h]; rfl)

/-- The value a `%d` conversion stores for a number an `int` can hold is the
number. -/
theorem storedInt_of_le (n : Nat) (h : (n : Int) ≤ 2147483647) : storedInt (n : Int) = n := by
  unfold storedInt toInt32
  omega

/-- A referee message that scans to a card token `<kind>_card_<side>_<digits>`
with side character `l` or `r` and a non-empty run of decimal digits, the game
mode not accepting the token as a play mode.  Then `analyzeHearReferee` calls
`setYellowCard` (resp. `setRedCard`) with `LEFT` for `l` and `RIGHT` for `r` and
with the `int` that `%d` stores for the digits, which is the number the digits
denote when an `int` can hold it; `updateServerStatus`, `updateGameMode` and the
bye command are not reached: the clock-mode flag, the time and the transport
are as before. -/
theorem referee_card_recorded (env : Env) (s : CoachAgent) (msg : String) (cycle : Int)
    (side : Char) (ds : List Char)
    (hside : side = 'l' ∨ side = 'r') (hne : ds ≠ [])
    (hdig : ∀ c ∈ ds, c.isDigit = true) :
    (sscanf msg hearRefereeFormat
          = [ScanValue.int cycle, ScanValue.text (cardToken "yellow" side ds)] →
      env.gameModeUpdate s.game_mode_ (cardToken "yellow" side ds) s.current_time_ = false →
        analyzeHearReferee env s msg
          = { s with
              game_mode_ := s.game_mode_ ++
                [{ mode := cardToken "yellow" side ds, current := s.current_time_ }]
              M_worldmodel := s.M_worldmodel ++
                [WorldCall.setYellowCard (if side = 'l' then SideID.LEFT else SideID.RIGHT)
                  (storedInt (decimalValue ds))] }
        ∧ (analyzeHearReferee env s msg).server_cycle_stopped_ = s.server_cycle_stopped_)
    ∧ (sscanf msg hearRefereeFormat
          = [ScanValue.int cycle, ScanValue.text (cardToken "red" side ds)] →
      env.gameModeUpdate s.game_mode_ (cardToken "red" side ds) s.current_time_ = false →
        analyzeHearReferee env s msg
          = { s with
              game_mode_ := s.game_mode_ ++
                [{ mode := cardToken "red" side ds, current := s.current_time_ }]
              M_worldmodel := s.M_worldmodel ++
                [WorldCall.setRedCard (if side = 'l' then SideID.LEFT else SideID.RIGHT)
                  (storedInt (decimalValue ds))] }
        ∧ (analyzeHearReferee env s msg).server_cycle_stopped_ = s.server_cycle_stopped_)
    ∧ ((decimalValue ds : Int) ≤ 2147483647 →
        storedInt (decimalValue ds) = decimalValue ds) := by
  refine ⟨?_, ?_, storedInt_of_le (decimalValue ds)⟩
  · intro hscan hrej
    have e : analyzeHearReferee env s msg
        = { s with
            game_mode_ := s.game_mode_ ++
              [{ mode := cardToken "yellow" side ds, current := s.current_time_ }]
            M_worldmodel := s.M_worldmodel ++
              [WorldCall.setYellowCard (if side = 'l' then SideID.LEFT else SideID.RIGHT)
                (storedInt (decimalValue ds))] } := by
      unfold analyzeHearReferee
      simp only [hscan, hrej, yellowToken_strncmp side ds hside hdig,
        yellowToken_scan side ds hside hne hdig, scannedSide, scannedUnum,
        sideOfChar_lr side hside]
      simp
    exact ⟨e, by rw [e]⟩
  · intro hscan hrej
    have e : analyzeHearReferee env s msg
        = { s with
            game_mode_ := s.game_mode_ ++
              [{ mode := cardToken "red" side ds, current := s.current_time_ }]
            M_worldmodel := s.M_worldmodel ++
              [WorldCall.setRedCard (if side = 'l' then SideID.LEFT else SideID.RIGHT)
                (storedInt (decimalValue ds))] } := by
      unfold analyzeHearReferee
      simp only [hscan, hrej, (redToken_strncmp side ds hside hdig).1,
        (redToken_strncmp side ds hside hdig).2,
        redToken_scan side ds hside hne hdig, scannedSide, scannedUnum,
        sideOfChar_lr side hside]
      simp
    exact ⟨e, by rw [e]⟩

/-- The message of the scenario: `(hear 12 referee yellow_card_l_5)`
records a yellow card for `LEFT`, player 5, and neither the clock-mode flag nor
the world's game mode is touched, also when the message comes in through
`parse`. -/
theorem referee_card_recorded_witness :
    (analyzeHearReferee (sampleEnv 7) sampleAgent "(hear 12 referee yellow_card_l_5)"
        = { sampleAgent with
            game_mode_ := [{ mode := "yellow_card_l_5", current := sampleAgent.current_time_ }]
            M_worldmodel := [WorldCall.setYellowCard SideID.LEFT 5] }
      ∧ (analyzeHearReferee (sampleEnv 7) sampleAgent
          "(hear 12 referee yellow_card_l_5)").server_cycle_stopped_
        = sampleAgent.server_cycle_stopped_)
    ∧ (parse (sampleEnv 7) sampleAgent "(hear 12 referee yellow_card_l_5)").M_worldmodel
        = [WorldCall.setYellowCard SideID.LEFT 5]
    ∧ (parse (sampleEnv 7) sampleAgent "(hear 12 referee yellow_card_l_5)").server_cycle_stopped_
        = sampleAgent.server_cycle_stopped_ :=
  ⟨(referee_card_recorded (sampleEnv 7) sampleAgent "(hear 12 referee yellow_card_l_5)" 12
      'l' ['5'] (by decide) (by decide) (by decide)).1 (by decide) (by decide),
   by decide, by decide⟩

/-- C13, the failing input: the referee message
`(hear 12 referee yellow_card_l_4294967301)`, whose token the game mode does
not accept as a play mode, names the left side and the number 4294967301; the
call made on the world model is `setYellowCard( LEFT, 5 )`, with the `int` that
`%d` stored, not with the number of the token.  The same holds for the red
card. -/
theorem referee_card_number_wraps :
    sscanf "(hear 12 referee yellow_card_l_4294967301)" hearRefereeFormat
        = [ScanValue.int 12, ScanValue.text "yellow_card_l_4294967301"]
    ∧ (sampleEnv 7).gameModeUpdate sampleAgent.game_mode_ "yellow_card_l_4294967301"
        sampleAgent.current_time_ = false
    ∧ sscanf "yellow_card_l_4294967301" yellowCardFormat
        = [ScanValue.char 'l', ScanValue.int 5]
    ∧ (analyzeHearReferee (sampleEnv 7) sampleAgent
        "(hear 12 referee yellow_card_l_4294967301)").M_worldmodel
        = [WorldCall.setYellowCard SideID.LEFT 5]
    ∧ (parse (sampleEnv 7) sampleAgent
        "(hear 12 referee yellow_card_l_4294967301)").M_worldmodel
        = [WorldCall.setYellowCard SideID.LEFT 5]
    ∧ (parse (sampleEnv 7) sampleAgent
        "(hear 12 referee red_card_r_4294967301)").M_worldmodel
        = [WorldCall.setRedCard SideID.RIGHT 5] := by
  decide

/-- What `updateServerStatus` does: the clock-mode flag becomes the answer of
`isServerCycleStoppedMode`; nothing else changes. -/
theorem updateServerStatus_state (env : Env) (s : CoachAgent) :
    updateServerStatus env s
      = { s with server_cycle_stopped_ := env.isServerCycleStoppedMode s.game_mode_ } := by
  cases s
  simp only [updateServerStatus]
  split_ifs <;> simp_all

/-- What `sendByeCommand` does: the rendered bye command is sent when its
rendering is not empty, and the peer is marked not alive; nothing else changes. -/
theorem sendByeCommand_state (env : Env) (s : CoachAgent) :
    sendByeCommand env s
      = { s with M_client := { s.M_client with
            serverAlive := false
            sent := s.M_client.sent ++
              (if (env.toStr CoachCommand.bye).length = 0 then []
               else [env.toStr CoachCommand.bye]) } } := by
  unfold sendByeCommand setServerDead
  rw [sendCommand_state]

/-- C14: the referee message scans to a mode that the game mode accepts, and
the bye command renders to a non-empty text.  When the accepted mode is a
game-end mode, `analyzeHearReferee` sends the bye command, marks the peer not
alive and does not call the world model's `updateGameMode`; when it is not, no
command is sent, the transport (with its peer-alive flag) is as before, and
`updateGameMode` is called with the game mode and the current time. -/
theorem referee_game_end (env : Env) (s : CoachAgent) (msg : String) (cycle : Int)
    (mode : String)
    (hscan : sscanf msg hearRefereeFormat = [ScanValue.int cycle, ScanValue.text mode])
    (hacc : env.gameModeUpdate s.game_mode_ mode s.current_time_ = true)
    (hbye : (env.toStr CoachCommand.bye).length ≠ 0) :
    (env.isGameEndMode (s.game_mode_ ++ [{ mode := mode, current := s.current_time_ }]) = true →
        (analyzeHearReferee env s msg).M_client.sent
            = s.M_client.sent ++ [env.toStr CoachCommand.bye]
        ∧ (analyzeHearReferee env s msg).M_client.serverAlive = false
        ∧ (analyzeHearReferee env s msg).M_worldmodel = s.M_worldmodel)
    ∧ (env.isGameEndMode (s.game_mode_ ++ [{ mode := mode, current := s.current_time_ }]) = false →
        (analyzeHearReferee env s msg).M_client = s.M_client
        ∧ (analyzeHearReferee env s msg).M_worldmodel
            = s.M_worldmodel ++
                [WorldCall.updateGameMode
                  (s.game_mode_ ++ [{ mode := mode, current := s.current_time_ }])
                  s.current_time_]) := by
  have hst := (updateServerStatus_state env
    { s with game_mode_ := s.game_mode_ ++ [{ mode := mode, current := s.current_time_ }] })
  constructor
  · intro hend
    unfold analyzeHearReferee
    simp only [hscan, hacc, Bool.not_true, Bool.false_eq_true, if_false]
    rw [hst]
    simp [hend, sendByeCommand_state, hbye]
  · intro hend
    unfold analyzeHearReferee
    simp only [hscan, hacc, Bool.not_true, Bool.false_eq_true, if_false]
    rw [hst]
    simp [hend]

/-- C14, at concrete messages: `time_over` ends the game, so the bye command is
sent and the peer is marked not alive; `play_on` does not, so the world model
receives the game mode and the transport is left alone. -/
theorem referee_game_end_witness :
    ((analyzeHearReferee refereeEnv sampleAgent "(hear 6000 referee time_over)").M_client.sent
        = ["(bye)"]
      ∧ (analyzeHearReferee refereeEnv sampleAgent
          "(hear 6000 referee time_over)").M_client.serverAlive = false
      ∧ (analyzeHearReferee refereeEnv sampleAgent "(hear 6000 referee time_over)").M_worldmodel
        = [])
    ∧ ((analyzeHearReferee refereeEnv sampleAgent "(hear 1 referee play_on)").M_client
        = sampleAgent.M_client
      ∧ (analyzeHearReferee refereeEnv sampleAgent "(hear 1 referee play_on)").M_worldmodel
        = [WorldCall.updateGameMode [{ mode := "play_on", current := sampleAgent.current_time_ }]
            sampleAgent.current_time_]) :=
  ⟨(referee_game_end refereeEnv sampleAgent "(hear 6000 referee time_over)" 6000 "time_over"
      (by decide) (by decide) (by decide)).1 (by decide),
   (referee_game_end refereeEnv sampleAgent "(hear 1 referee play_on)" 1 "play_on"
      (by decide) (by decide) (by decide)).2 (by decide)⟩

/-- The player number of a card message whose scan did not assign two values is
the initial `Unum_Unknown`. -/
theorem scannedUnum_unknown (env : Env) (vals : List ScanValue) (h : vals.length ≠ 2) :
    scannedUnum env vals = env.Unum_Unknown := by
  unfold scannedUnum
  split
  · exact absurd rfl h
  · rfl

/-- C20, as stated, fails: the referee tokens `yellow_card` and
`yellow_card_l_x` start with `yellow_card` and do not scan as
`yellow_card_<side>_<integer>`, the game mode does not accept them, and yet
`analyzeHearReferee` calls `setYellowCard` (with `NEUTRAL` resp. `LEFT` and the
unknown player number), so the world model is not as before. -/
theorem malformed_card_still_calls :
    sscanf "(hear 12 referee yellow_card)" hearRefereeFormat
        = [ScanValue.int 12, ScanValue.text "yellow_card"]
    ∧ strncmp "yellow_card" "yellow_card" "yellow_card".length = true
    ∧ (sscanf "yellow_card" yellowCardFormat).length ≠ 2
    ∧ (analyzeHearReferee (sampleEnv 7) sampleAgent "(hear 12 referee yellow_card)").M_worldmodel
        = [WorldCall.setYellowCard SideID.NEUTRAL (-1)]
    ∧ (analyzeHearReferee (sampleEnv 7) sampleAgent "(hear 12 referee yellow_card)").M_worldmodel
        ≠ sampleAgent.M_worldmodel
    ∧ (sscanf "yellow_card_l_x" yellowCardFormat).length ≠ 2
    ∧ (analyzeHearReferee (sampleEnv 7) sampleAgent
        "(hear 12 referee yellow_card_l_x)").M_worldmodel
        = [WorldCall.setYellowCard SideID.LEFT (-1)] := by
  decide

/-- C20, amended: the referee message scans to a mode that the game mode does
not accept, the mode starts with `yellow_card` (resp. `red_card`) and the card
format does not assign its two values.  Then `analyzeHearReferee` reports the
message on `std::cerr` and still calls `setYellowCard` (resp. `setRedCard`)
once: with the side of the scanned side character (`NEUTRAL` when it is neither
`l` nor `r`, or when none was scanned) and with `Unum_Unknown` as the player
number.  Nothing else changes but the record of the `update` call on the game
mode. -/
theorem malformed_card_call (env : Env) (s : CoachAgent) (msg : String) (cycle : Int)
    (mode : String)
    (hscan : sscanf msg hearRefereeFormat = [ScanValue.int cycle, ScanValue.text mode])
    (hrej : env.gameModeUpdate s.game_mode_ mode s.current_time_ = false) :
    (strncmp mode "yellow_card" "yellow_card".length = true →
      (sscanf mode yellowCardFormat).length ≠ 2 →
        analyzeHearReferee env s msg
          = { s with
              game_mode_ := s.game_mode_ ++ [{ mode := mode, current := s.current_time_ }]
              cerr := s.cerr ++ [Diag.yellowCardParseError msg]
              M_worldmodel := s.M_worldmodel ++
                [WorldCall.setYellowCard (sideOfChar (scannedSide (sscanf mode yellowCardFormat)))
                  env.Unum_Unknown] })
    ∧ (strncmp mode "yellow_card" "yellow_card".length = false →
      strncmp mode "red_card" "red_card".length = true →
      (sscanf mode redCardFormat).length ≠ 2 →
        analyzeHearReferee env s msg
          = { s with
              game_mode_ := s.game_mode_ ++ [{ mode := mode, current := s.current_time_ }]
              cerr := s.cerr ++ [Diag.redCardParseError msg]
              M_worldmodel := s.M_worldmodel ++
                [WorldCall.setRedCard (sideOfChar (scannedSide (sscanf mode redCardFormat)))
                  env.Unum_Unknown] })
    ∧ sideOfChar (scannedSide []) = SideID.NEUTRAL
    ∧ (∀ c rest, sideOfChar (scannedSide (ScanValue.char c :: rest))
        = if c = 'l' then SideID.LEFT else if c = 'r' then SideID.RIGHT else SideID.NEUTRAL) := by
  refine ⟨?_, ?_, by decide, fun c rest => rfl⟩
  · intro hy hlen
    unfold analyzeHearReferee
    simp only [hscan, hrej, hy, scannedUnum_unknown env _ hlen]
    simp [hlen]
  · intro hy hr hlen
    unfold analyzeHearReferee
    simp only [hscan, hrej, hy, hr, scannedUnum_unknown env _ hlen]
    simp [hlen]

/-- C20, amended, at a concrete message: `(hear 12 referee yellow_card_l_x)` is
reported and `setYellowCard( LEFT, Unum_Unknown )` is called. -/
theorem malformed_card_call_witness :
    analyzeHearReferee (sampleEnv 7) sampleAgent "(hear 12 referee yellow_card_l_x)"
      = { sampleAgent with
          game_mode_ := sampleAgent.game_mode_ ++
            [{ mode := "yellow_card_l_x", current := sampleAgent.current_time_ }]
          cerr := sampleAgent.cerr ++
            [Diag.yellowCardParseError "(hear 12 referee yellow_card_l_x)"]
          M_worldmodel := sampleAgent.M_worldmodel ++
            [WorldCall.setYellowCard
              (sideOfChar (scannedSide (sscanf "yellow_card_l_x" yellowCardFormat)))
              (sampleEnv 7).Unum_Unknown] } :=
  (malformed_card_call (sampleEnv 7) sampleAgent "(hear 12 referee yellow_card_l_x)" 12
    "yellow_card_l_x" (by decide) (by decide)).1 (by decide) (by decide)

/-- The members `updateCurrentTime` leaves alone: all but the current time and
the `std::cerr` output. -/
theorem updateCurrentTime_frame (s : CoachAgent) (c : Int) (b : Bool) :
    updateCurrentTime s c b
      = { s with
          current_time_ := (updateCurrentTime s c b).current_time_
          cerr := (updateCurrentTime s c b).cerr } := by
  unfold updateCurrentTime GameTime.assign
  split_ifs <;> rfl

/-- C16, as stated, fails: the hear message `(hear 5 ` has no sender token (the
sender scan assigns one value, not two), and yet processing it moves the
current time of the fresh agent from `(0, 0)` to `(5, 0)`. -/
theorem malformed_hear_moves_time :
    strncmp "(hear 5 " "(hear " 6 = true
    ∧ (sscanf "(hear 5 " hearSenderFormat).length ≠ 2
    ∧ (parse (sampleEnv 7) sampleAgent "(hear 5 ").current_time_ = { cycle := 5, stopped := 0 }
    ∧ (analyzeHear (sampleEnv 7) sampleAgent "(hear 5 ").current_time_
        ≠ sampleAgent.current_time_ := by
  decide

/-- C16, amended: a `see_global` or `hear` message whose cycle number cannot be
scanned changes nothing but the `std::cerr` output.  A `hear` message whose
cycle scans but whose sender token, or whose referee mode text, cannot be
scanned has already had its cycle applied by `updateCurrentTime`: the current
time (and the `std::cerr` output) may differ, while the clock-mode flag, the
game mode, the decision state, the sensors, the world model and the transport
with its peer-alive flag are as before. -/
theorem malformed_message_frame (env : Env) (s : CoachAgent) (msg : String) :
    (scanCycle msg = none →
        analyzeSeeGlobal env s msg = { s with cerr := s.cerr ++ [Diag.failedToParseTime msg] }
        ∧ analyzeHear env s msg = { s with cerr := s.cerr ++ [Diag.failedToParseTime msg] })
    ∧ (∀ c, scanCycle msg = some c → (sscanf msg hearSenderFormat).length ≠ 2 →
        analyzeHear env s msg
          = { updateCurrentTime s c false with
              cerr := (updateCurrentTime s c false).cerr ++ [Diag.failedToParseSender msg] })
    ∧ (∀ c cycle, scanCycle msg = some c →
        sscanf msg hearSenderFormat = [ScanValue.int cycle, ScanValue.text "referee"] →
        (sscanf msg hearRefereeFormat).length ≠ 2 →
        analyzeHear env s msg
          = { updateCurrentTime s c false with
              cerr := (updateCurrentTime s c false).cerr ++ [Diag.failedToScanPlaymode msg] })
    ∧ (∀ c b,
        (updateCurrentTime s c b).server_cycle_stopped_ = s.server_cycle_stopped_
        ∧ (updateCurrentTime s c b).game_mode_ = s.game_mode_
        ∧ (updateCurrentTime s c b).last_decision_time_ = s.last_decision_time_
        ∧ (updateCurrentTime s c b).think_received_ = s.think_received_
        ∧ (updateCurrentTime s c b).visual_ = s.visual_
        ∧ (updateCurrentTime s c b).audio_ = s.audio_
        ∧ (updateCurrentTime s c b).M_worldmodel = s.M_worldmodel
        ∧ (updateCurrentTime s c b).M_client = s.M_client) := by
  refine ⟨?_, ?_, ?_, ?_⟩
  · intro hc
    constructor
    · simp [analyzeSeeGlobal, analyzeCycle, hc]
    · simp [analyzeHear, analyzeCycle, hc]
  · intro c hc hlen
    unfold analyzeHear analyzeCycle
    simp only [hc]
    split
    · rename_i heq
      rw [heq] at hlen
      exact absurd rfl hlen
    · rfl
  · intro c cycle hc hsender hlen
    unfold analyzeHear analyzeCycle
    simp only [hc, hsender, if_true]
    unfold analyzeHearReferee
    split
    · rename_i heq
      rw [heq] at hlen
      exact absurd rfl hlen
    · rfl
  · intro c b
    rw [updateCurrentTime_frame]
    exact ⟨rfl, rfl, rfl, rfl, rfl, rfl, rfl, rfl⟩

/-- The function `sendCommand` leaves the peer-alive flag alone. -/
theorem sendCommand_alive (env : Env) (s : CoachAgent) (com : CoachCommand) :
    (sendCommand env s com).2.M_client.serverAlive = s.M_client.serverAlive := by
  rw [sendCommand_state]

/-- The function `analyzeCycle` leaves the transport alone. -/
theorem analyzeCycle_client (s : CoachAgent) (msg : String) (b : Bool) :
    (analyzeCycle s msg b).2.M_client = s.M_client := by
  unfold analyzeCycle
  split
  · rfl
  · rw [updateCurrentTime_frame]

/-- The function `analyzeSeeGlobal` leaves the transport alone. -/
theorem analyzeSeeGlobal_client (env : Env) (s : CoachAgent) (msg : String) :
    (analyzeSeeGlobal env s msg).M_client = s.M_client := by
  have h := analyzeCycle_client s msg true
  unfold analyzeSeeGlobal
  split
  · rename_i s1 heq
    rw [heq] at h; exact h
  · rename_i s1 heq
    rw [heq] at h
    simp only at h
    dsimp only
    split_ifs <;> exact h

/-- The function `analyzeHearReferee` never marks a dead peer alive. -/
theorem analyzeHearReferee_dead (env : Env) (s : CoachAgent) (msg : String)
    (hdead : s.M_client.serverAlive = false) :
    (analyzeHearReferee env s msg).M_client.serverAlive = false := by
  unfold analyzeHearReferee
  split
  · simp only [updateServerStatus_state, sendByeCommand_state]
    split_ifs <;> simp [hdead]
  · exact hdead

/-- The function `analyzeHear` never marks a dead peer alive. -/
theorem analyzeHear_dead (env : Env) (s : CoachAgent) (msg : String)
    (hdead : s.M_client.serverAlive = false) :
    (analyzeHear env s msg).M_client.serverAlive = false := by
  have h := analyzeCycle_client s msg false
  unfold analyzeHear
  split
  · rename_i s1 heq
    rw [heq] at h; simp only at h; rw [h]; exact hdead
  · rename_i s1 heq
    rw [heq] at h
    simp only at h
    have hd1 : s1.M_client.serverAlive = false := by rw [h]; exact hdead
    split
    · split_ifs
      · exact analyzeHearReferee_dead env s1 msg hd1
      · unfold analyzeHearPlayer; split_ifs <;> exact hd1
      · exact hd1
    · exact hd1

/-- The function `analyzeInit` never marks a dead peer alive. -/
theorem analyzeInit_dead (env : Env) (s : CoachAgent) (msg : String)
    (hdead : s.M_client.serverAlive = false) :
    (analyzeInit env s msg).M_client.serverAlive = false := by
  unfold analyzeInit
  split
  · dsimp only
    split_ifs <;> (try simp only [doEye, sendCommand_alive, setServerDead]) <;>
      first
        | exact hdead
        | rfl
        | (unfold openDebugLog; split_ifs <;> first | exact hdead | rfl)
  · rfl

/-- The function `analyzeChangePlayerType` leaves the transport alone. -/
theorem analyzeChangePlayerType_client (env : Env) (s : CoachAgent) (msg : String) :
    (analyzeChangePlayerType env s msg).M_client = s.M_client := by
  unfold analyzeChangePlayerType
  repeat' split
  all_goals rfl

/-- The function `analyzeOK` leaves the peer-alive flag alone. -/
theorem analyzeOK_alive (env : Env) (s : CoachAgent) (msg : String) :
    (analyzeOK env s msg).M_client.serverAlive = s.M_client.serverAlive := by
  unfold analyzeOK
  split_ifs
  · rfl
  · unfold analyzeOKTeamGraphic
    repeat' split
    all_goals rfl
  · rfl
  · rfl
  · rw [analyzeChangePlayerType_client]
  · split <;> rfl
  · rfl
  · unfold analyzeTeamNames
    repeat' split
    all_goals rfl
  · rfl

/-- The function `analyzeServerParam` leaves the peer-alive flag alone. -/
theorem analyzeServerParam_alive (env : Env) (s : CoachAgent) (msg : String) :
    (analyzeServerParam env s msg).M_client.serverAlive = s.M_client.serverAlive := by
  unfold analyzeServerParam
  dsimp only
  split <;> rfl

/-- Case analysis on the handler `parse` chooses: a property of the result of
every handler is a property of the result of `parse`. -/
theorem parse_cases (P : CoachAgent → Prop) (env : Env) (s : CoachAgent) (msg : String)
    (hsee : P (analyzeSeeGlobal env s msg))
    (hhear : P (analyzeHear env s msg))
    (hthink : P { s with think_received_ := true })
    (hchange : P (analyzeChangePlayerType env s msg))
    (hclang : P (analyzeCLangVer s msg))
    (htype : P (analyzePlayerType env s msg))
    (hparam : P (analyzePlayerParam env s msg))
    (hserver : P (analyzeServerParam env s msg))
    (hok : P (analyzeOK env s msg))
    (hreport : P (analyzeReport s msg))
    (hinit : P (analyzeInit env s msg))
    (hother : P { s with cerr := s.cerr ++ [Diag.unsupportedMessage msg] }) :
    P (parse env s msg) := by
  unfold parse
  by_cases h1 : strncmp msg "(see_global " 12 = true
  · rw [if_pos h1]; exact hsee
  rw [if_neg h1]
  by_cases h2 : strncmp msg "(hear " 6 = true
  · rw [if_pos h2]; exact hhear
  rw [if_neg h2]
  by_cases h3 : strncmp msg "(think)" 7 = true
  · rw [if_pos h3]; exact hthink
  rw [if_neg h3]
  by_cases h4 : strncmp msg "(change_player_type " 20 = true
  · rw [if_pos h4]; exact hchange
  rw [if_neg h4]
  by_cases h5 : strncmp msg "(clang " 7 = true
  · rw [if_pos h5]; exact hclang
  rw [if_neg h5]
  by_cases h6 : strncmp msg "(player_type " 13 = true
  · rw [if_pos h6]; exact htype
  rw [if_neg h6]
  by_cases h7 : strncmp msg "(player_param " 14 = true
  · rw [if_pos h7]; exact hparam
  rw [if_neg h7]
  by_cases h8 : strncmp msg "(server_param " 14 = true
  · rw [if_pos h8]; exact hserver
  rw [if_neg h8]
  by_cases h9 : strncmp msg "(ok " 4 = true
  · rw [if_pos h9]; exact hok
  rw [if_neg h9]
  by_cases h10 : strncmp msg "(error " 7 = true
  · rw [if_pos h10]; exact hreport
  rw [if_neg h10]
  by_cases h11 : strncmp msg "(warning " 9 = true
  · rw [if_pos h11]; exact hreport
  rw [if_neg h11]
  by_cases h12 : strncmp msg "(score " 7 = true
  · rw [if_pos h12]; exact hreport
  rw [if_neg h12]
  by_cases h13 : strncmp msg "(init " 6 = true
  · rw [if_pos h13]; exact hinit
  rw [if_neg h13]
  by_cases h14 : strncmp msg "(include " 9 = true
  · rw [if_pos h14]; exact hreport
  rw [if_neg h14]
  exact hother

/-- The function `parse` never marks a dead peer alive. -/
theorem parse_dead (env : Env) (s : CoachAgent) (msg : String)
    (hdead : s.M_client.serverAlive = false) :
    (parse env s msg).M_client.serverAlive = false := by
  apply parse_cases (fun r => r.M_client.serverAlive = false)
  · show (analyzeSeeGlobal env s msg).M_client.serverAlive = false
    rw [analyzeSeeGlobal_client]; exact hdead
  · exact analyzeHear_dead env s msg hdead
  · exact hdead
  · show (analyzeChangePlayerType env s msg).M_client.serverAlive = false
    rw [analyzeChangePlayerType_client]; exact hdead
  · exact hdead
  · exact hdead
  · exact hdead
  · show (analyzeServerParam env s msg).M_client.serverAlive = false
    rw [analyzeServerParam_alive]; exact hdead
  · show (analyzeOK env s msg).M_client.serverAlive = false
    rw [analyzeOK_alive]; exact hdead
  · exact hdead
  · exact analyzeInit_dead env s msg hdead
  · exact hdead

/-- A receive loop never marks a dead peer alive. -/
theorem parseAll_dead (env : Env) (msgs : List String) (s : CoachAgent)
    (hdead : s.M_client.serverAlive = false) :
    (msgs.foldl (parse env) s).M_client.serverAlive = false := by
  induction msgs generalizing s with
  | nil => exact hdead
  | cons m rest ih => exact ih (parse env s m) (parse_dead env s m hdead)

/-- C17, as stated, fails: the peer of the agent is marked not alive, and yet
`parse` processes a `(think)` message (the think flag goes up), `handleMessage`
and `action()` send the done command, and `handleTimeout` sends the check-ball
probe. -/
theorem dead_peer_still_served :
    deadAgent.M_client.serverAlive = false
    ∧ deadAgent.think_received_ = false
    ∧ (parse (sampleEnv 7) deadAgent "(think)").think_received_ = true
    ∧ deadAgent.M_client.sent = []
    ∧ (handleMessage (sampleEnv 7) deadAgent ["(think)"]).M_client.sent = ["(done)"]
    ∧ (action (sampleEnv 7) { deadAgent with think_received_ := true }).M_client.sent = ["(done)"]
    ∧ (handleTimeout (sampleEnv 7) deadAgent 1 6000).M_client.sent = ["(check_ball)"] := by
  decide

/-- C17, amended: once the peer has been marked not alive, `parse` and the
receive loop of `handleMessage` never mark it alive again, and `finalize` sends
no bye command.  The flag is not tested by `parse` or `action()`: a `(think)`
message still raises the think flag, and `action()` still sends the done
command (rendered to a non-empty text) when the think flag is up. -/
theorem dead_peer_frame (env : Env) (s : CoachAgent)
    (hdead : s.M_client.serverAlive = false) :
    (∀ msg, (parse env s msg).M_client.serverAlive = false)
    ∧ (∀ msgs : List String, (msgs.foldl (parse env) s).M_client.serverAlive = false)
    ∧ (finalize env s).M_client = s.M_client
    ∧ (parse env s "(think)").think_received_ = true
    ∧ ((env.toStr CoachCommand.done).length ≠ 0 → s.think_received_ = true →
        (action env s).M_client.sent
          = (actionDecision env s).M_client.sent ++ [env.toStr CoachCommand.done]) := by
  refine ⟨fun msg => parse_dead env s msg hdead, fun msgs => parseAll_dead env msgs s hdead,
    ?_, ?_, ?_⟩
  · simp [finalize, hdead]
  · have h1 : strncmp "(think)" "(see_global " 12 = false := by decide
    have h2 : strncmp "(think)" "(hear " 6 = false := by decide
    have h3 : strncmp "(think)" "(think)" 7 = true := by decide
    unfold parse
    simp only [h1, h2, h3, Bool.false_eq_true, if_false, if_true]
  · intro hdone hthink
    have hmid : (actionDecision env s).think_received_ = true := by
      rw [(actionDecision_frame env s).2.1, hthink]
    unfold action
    simp [hmid, sendCommand_state, hdone]

/-- C17, amended, at a concrete input: the fresh agent with its peer marked not
alive. -/
theorem dead_peer_frame_witness :
    (parse (sampleEnv 7) deadAgent "(init l ok)").M_client.serverAlive = false
    ∧ (finalize (sampleEnv 7) deadAgent).M_client = deadAgent.M_client
    ∧ (parse (sampleEnv 7) deadAgent "(think)").think_received_ = true :=
  ⟨(dead_peer_frame (sampleEnv 7) deadAgent (by decide)).1 "(init l ok)",
   (dead_peer_frame (sampleEnv 7) deadAgent (by decide)).2.2.1,
   (dead_peer_frame (sampleEnv 7) deadAgent (by decide)).2.2.2.1⟩

/-- What `openDebugLog` leaves alone, and what it does to the peer-alive flag. -/
theorem openDebugLog_state (env : Env) (s : CoachAgent) :
    (openDebugLog env s).2.M_worldmodel = s.M_worldmodel
    ∧ (openDebugLog env s).2.M_client.sent = s.M_client.sent
    ∧ (openDebugLog env s).2.M_client.serverAlive
        = (if env.debugLogOpens = false then false else s.M_client.serverAlive) := by
  unfold openDebugLog setServerDead
  cases env.debugLogOpens <;> simp

/-- The function `sendCommand` leaves the world model alone. -/
theorem sendCommand_world (env : Env) (s : CoachAgent) (com : CoachCommand) :
    (sendCommand env s com).2.M_worldmodel = s.M_worldmodel := by
  rw [sendCommand_state]

/-- The function `analyzeInit` on a reply whose scanned side character is `l` or
`r`: the world model is initialised with the side, and the peer-alive flag is
cleared only by a debug log that cannot be opened. -/
theorem analyzeInit_accept (env : Env) (s : CoachAgent) (msg : String) (side : Char)
    (hscan : sscanf msg initFormat = [ScanValue.char side])
    (hside : side = 'l' ∨ side = 'r') :
    (analyzeInit env s msg).M_worldmodel
        = s.M_worldmodel ++
            [WorldCall.init (if side = 'l' then SideID.LEFT else SideID.RIGHT) env.config.version]
    ∧ (analyzeInit env s msg).M_client.serverAlive
        = (if env.config.debug = true ∧ env.debugLogOpens = false then false
           else s.M_client.serverAlive) := by
  have hnot : ¬ (side ≠ 'l' ∧ side ≠ 'r') := by
    rintro ⟨h1, h2⟩
    rcases hside with h | h
    · exact h1 h
    · exact h2 h
  unfold analyzeInit
  simp only [hscan]
  rw [if_neg hnot]
  cases hd : env.config.debug <;> cases he : env.config.useEye <;>
    cases hh : env.config.hearSay <;>
    by_cases hc : 0 < env.config.compression ∧ env.config.compression ≤ 9 <;>
    simp only [hc, if_true, if_false, Bool.false_eq_true, doEye, sendCommand_world,
      sendCommand_alive, (openDebugLog_state env _).1, (openDebugLog_state env _).2.2,
      false_and, true_and]

/-- C18, as stated, fails: debug logging is configured and the debug log cannot
be opened; the reply `(init l ok)` initialises the world model with `LEFT`, and
the peer, alive before, is marked not alive. -/
theorem init_reply_peer_not_alive :
    sscanf "(init l ok)" initFormat = [ScanValue.char 'l']
    ∧ sampleAgent.M_client.serverAlive = true
    ∧ (analyzeInit noDebugLogEnv sampleAgent "(init l ok)").M_worldmodel
        = [WorldCall.init SideID.LEFT 7]
    ∧ (analyzeInit noDebugLogEnv sampleAgent "(init l ok)").M_client.serverAlive = false := by
  decide

/-- C18, amended: `analyzeInit` initialises the world model with `LEFT` for the
reply `(init l ok)` and with `RIGHT` for `(init r ok)`, and leaves the
peer-alive flag as it was unless debug logging is configured and the debug log
cannot be opened (then the peer is marked not alive).  A reply in which no side
character can be scanned, or whose scanned side character is neither `l` nor
`r`, marks the peer not alive, does not initialise the world model and sends no
command. -/
theorem analyzeInit_sides (env : Env) (s : CoachAgent) :
    ((analyzeInit env s "(init l ok)").M_worldmodel
        = s.M_worldmodel ++ [WorldCall.init SideID.LEFT env.config.version]
      ∧ (analyzeInit env s "(init l ok)").M_client.serverAlive
        = (if env.config.debug = true ∧ env.debugLogOpens = false then false
           else s.M_client.serverAlive))
    ∧ ((analyzeInit env s "(init r ok)").M_worldmodel
        = s.M_worldmodel ++ [WorldCall.init SideID.RIGHT env.config.version]
      ∧ (analyzeInit env s "(init r ok)").M_client.serverAlive
        = (if env.config.debug = true ∧ env.debugLogOpens = false then false
           else s.M_client.serverAlive))
    ∧ (∀ msg, sscanf msg initFormat = [] →
        analyzeInit env s msg = setServerDead s
        ∧ (analyzeInit env s msg).M_client.serverAlive = false
        ∧ (analyzeInit env s msg).M_worldmodel = s.M_worldmodel
        ∧ (analyzeInit env s msg).M_client.sent = s.M_client.sent)
    ∧ (∀ msg side, sscanf msg initFormat = [ScanValue.char side] → side ≠ 'l' → side ≠ 'r' →
        analyzeInit env s msg = setServerDead { s with cerr := s.cerr ++ [Diag.unexpectedInit msg] }
        ∧ (analyzeInit env s msg).M_client.serverAlive = false
        ∧ (analyzeInit env s msg).M_worldmodel = s.M_worldmodel
        ∧ (analyzeInit env s msg).M_client.sent = s.M_client.sent) := by
  refine ⟨?_, ?_, ?_, ?_⟩
  · exact analyzeInit_accept env s "(init l ok)" 'l' (by decide) (Or.inl rfl)
  · exact analyzeInit_accept env s "(init r ok)" 'r' (by decide) (Or.inr rfl)
  · intro msg hscan
    have e : analyzeInit env s msg = setServerDead s := by
      unfold analyzeInit
      simp only [hscan]
    rw [e]
    exact ⟨rfl, rfl, rfl, rfl⟩
  · intro msg side hscan hl hr
    have e : analyzeInit env s msg
        = setServerDead { s with cerr := s.cerr ++ [Diag.unexpectedInit msg] } := by
      unfold analyzeInit
      simp only [hscan]
      rw [if_pos ⟨hl, hr⟩]
    rw [e]
    exact ⟨rfl, rfl, rfl, rfl⟩

/-- C19, as stated, fails: with the eye mode configured and a server wait of 5
seconds (`T = 5000`), a timeout after `6000` ms, which lies between `T` and
`2T`, marks the peer, alive before, not alive, and no check-ball command is
sent. -/
theorem timeout_use_eye_no_probe :
    useEyeEnv.config.serverWaitSeconds * 1000 < 6000
    ∧ (6000 : Int) ≤ 2 * (useEyeEnv.config.serverWaitSeconds * 1000)
    ∧ sampleAgent.M_client.serverAlive = true
    ∧ (handleTimeout useEyeEnv sampleAgent 1 6000).M_client.serverAlive = false
    ∧ (handleTimeout useEyeEnv sampleAgent 1 6000).M_client.sent = [] := by
  decide

/-- C19, amended: with `T = serverWaitSeconds * 1000`.  For `waited_msec <= T`
the liveness check of `handleTimeout` does nothing.  With the eye mode off, for
`T < waited_msec <= 2T` the check-ball command is sent and the peer-alive flag
is left alone; for `waited_msec > T` and `waited_msec > 2T` the peer is marked
not alive and `handleTimeout` returns: no probe is sent and no decision is made.
With the eye mode on, every `waited_msec > T` marks the peer not alive at once,
again with no probe and no decision.  The peer is marked not alive in no other
case. -/
theorem timeout_escalation (env : Env) (s : CoachAgent) (timeout_count waited_msec : Int) :
    (waited_msec ≤ env.config.serverWaitSeconds * 1000 →
        timeoutLiveness env s waited_msec = (true, s))
    ∧ (env.config.useEye = false → env.config.serverWaitSeconds * 1000 < waited_msec →
        waited_msec ≤ env.config.serverWaitSeconds * 2 * 1000 →
        timeoutLiveness env s waited_msec = (true, (doCheckBall env s).2)
        ∧ (doCheckBall env s).2.M_client.serverAlive = s.M_client.serverAlive
        ∧ ((env.toStr CoachCommand.checkBall).length ≠ 0 →
            (doCheckBall env s).2.M_client.sent
              = s.M_client.sent ++ [env.toStr CoachCommand.checkBall]))
    ∧ (env.config.serverWaitSeconds * 1000 < waited_msec →
        (env.config.useEye = true ∨ env.config.serverWaitSeconds * 2 * 1000 < waited_msec) →
        handleTimeout env s timeout_count waited_msec
          = setServerDead
              { s with cout := s.cout ++ [Diag.waitedServerDown (Int.tdiv waited_msec 1000)] }
        ∧ (handleTimeout env s timeout_count waited_msec).M_client.serverAlive = false
        ∧ (handleTimeout env s timeout_count waited_msec).M_client.sent = s.M_client.sent
        ∧ (handleTimeout env s timeout_count waited_msec).actionImplCalls = s.actionImplCalls)
    ∧ ((timeoutLiveness env s waited_msec).1 = false
        ↔ (env.config.serverWaitSeconds * 1000 < waited_msec
            ∧ (env.config.useEye = true
                ∨ env.config.serverWaitSeconds * 2 * 1000 < waited_msec))) := by
  refine ⟨?_, ?_, ?_, ?_⟩
  · intro h
    unfold timeoutLiveness
    rw [if_neg (not_lt.mpr h)]
  · intro heye h1 h2
    refine ⟨?_, ?_, ?_⟩
    · unfold timeoutLiveness
      rw [if_pos h1, heye, if_neg Bool.false_ne_true, if_neg (not_lt.mpr h2)]
    · exact sendCommand_alive env s CoachCommand.checkBall
    · intro hr
      unfold doCheckBall
      rw [sendCommand_state]
      simp [hr]
  · intro h1 h2
    have e : handleTimeout env s timeout_count waited_msec
        = setServerDead
            { s with cout := s.cout ++ [Diag.waitedServerDown (Int.tdiv waited_msec 1000)] } := by
      unfold handleTimeout timeoutLiveness
      rw [if_pos h1]
      rcases h2 with h2 | h2
      · rw [if_pos h2]
      · by_cases heye : env.config.useEye = true
        · rw [if_pos heye]
        · rw [if_neg heye, if_pos h2]
    rw [e]
    exact ⟨rfl, rfl, rfl, rfl⟩
  · unfold timeoutLiveness
    by_cases h1 : env.config.serverWaitSeconds * 1000 < waited_msec
    · rw [if_pos h1]
      by_cases heye : env.config.useEye = true
      · rw [if_pos heye]
        simp [h1, heye]
      · rw [if_neg heye]
        by_cases h2 : env.config.serverWaitSeconds * 2 * 1000 < waited_msec
        · rw [if_pos h2]
          simp [h1, h2]
        · rw [if_neg h2]
          simp [h1, h2, heye]
    · rw [if_neg h1]
      simp [h1]

/-- C24, a stopped clock that steps back by one: at time `(100, 1)` the new
cycle 99 is one cycle away from the current cycle, not more, and the warning is
written all the same (and the time is set to `(99, 0)`). -/
theorem step_back_by_one_warns :
    stoppedAgent.server_cycle_stopped_ = true
    ∧ |99 - stoppedAgent.current_time_.cycle| = 1
    ∧ (updateCurrentTime stoppedAgent 99 false).cerr
        = [Diag.prevServerTimeIncorrect { cycle := 100, stopped := 1 } 99]
    ∧ (updateCurrentTime stoppedAgent 99 false).current_time_ = { cycle := 99, stopped := 0 } := by
  refine ⟨rfl, by decide, ?_, ?_⟩ <;> decide

/-- C24: `updateCurrentTime` writes the time-inconsistency warning exactly when
the clock is stopped, the new cycle differs from the current cycle and the new
cycle minus one differs from it too; in that case the time is still set to
`(new_time, 0)` and nothing but the time and the warning changes.  In every
other case `std::cerr` is as before, in particular while the clock is running.
In terms of the step `new_time - cycle`: the warning is written for every step
other than 0 and 1, which for a cycle that does not go back is a step larger
than one. -/
theorem updateCurrentTime_warning (s : CoachAgent) (new_time : Int) (by_see_global : Bool) :
    (updateCurrentTime s new_time by_see_global).cerr
        = s.cerr ++
            (if s.server_cycle_stopped_ = true ∧ new_time ≠ s.current_time_.cycle
                ∧ new_time - 1 ≠ s.current_time_.cycle
              then [Diag.prevServerTimeIncorrect s.current_time_ new_time] else [])
    ∧ ((updateCurrentTime s new_time by_see_global).cerr ≠ s.cerr
        ↔ (s.server_cycle_stopped_ = true ∧ new_time ≠ s.current_time_.cycle
            ∧ new_time - 1 ≠ s.current_time_.cycle))
    ∧ (s.server_cycle_stopped_ = true → new_time ≠ s.current_time_.cycle →
        new_time - 1 ≠ s.current_time_.cycle →
        updateCurrentTime s new_time by_see_global
          = { s with
              current_time_ := { cycle := new_time, stopped := 0 }
              cerr := s.cerr ++ [Diag.prevServerTimeIncorrect s.current_time_ new_time] })
    ∧ (s.server_cycle_stopped_ = false →
        (updateCurrentTime s new_time by_see_global).cerr = s.cerr)
    ∧ ((s.server_cycle_stopped_ = true ∧ new_time ≠ s.current_time_.cycle
          ∧ new_time - 1 ≠ s.current_time_.cycle)
        ↔ (s.server_cycle_stopped_ = true
            ∧ (1 < new_time - s.current_time_.cycle ∨ new_time - s.current_time_.cycle < 0)))
    ∧ (s.current_time_.cycle ≤ new_time →
        ((s.server_cycle_stopped_ = true ∧ new_time ≠ s.current_time_.cycle
            ∧ new_time - 1 ≠ s.current_time_.cycle)
          ↔ (s.server_cycle_stopped_ = true ∧ 1 < new_time - s.current_time_.cycle))) := by
  have hcerr : (updateCurrentTime s new_time by_see_global).cerr
        = s.cerr ++
            (if s.server_cycle_stopped_ = true ∧ new_time ≠ s.current_time_.cycle
                ∧ new_time - 1 ≠ s.current_time_.cycle
              then [Diag.prevServerTimeIncorrect s.current_time_ new_time] else []) := by
    unfold updateCurrentTime
    by_cases hs : s.server_cycle_stopped_ = true
    · by_cases h1 : new_time = s.current_time_.cycle
      · by_cases hb : by_see_global = true <;> simp [hs, h1, hb]
      · by_cases h2 : new_time - 1 = s.current_time_.cycle <;> simp [hs, h1, h2]
    · simp [hs]
  refine ⟨hcerr, ?_, ?_, ?_, ?_, ?_⟩
  · rw [hcerr]
    by_cases hc : s.server_cycle_stopped_ = true ∧ new_time ≠ s.current_time_.cycle
        ∧ new_time - 1 ≠ s.current_time_.cycle
    · simp only [if_pos hc, iff_true, hc, and_self, ne_eq, not_false_eq_true]
      intro h
      have := congrArg List.length h
      simp at this
    · simp only [if_neg hc, List.append_nil, ne_eq, not_true_eq_false, false_iff]
      exact hc
  · intro hs h1 h2
    unfold updateCurrentTime
    simp [hs, h1, h2, GameTime.assign]
  · intro hs
    rw [hcerr]
    simp [hs]
  · constructor
    · rintro ⟨hs, h1, h2⟩
      refine ⟨hs, ?_⟩
      omega
    · rintro ⟨hs, h⟩
      refine ⟨hs, ?_, ?_⟩ <;> omega
  · intro hle
    constructor
    · rintro ⟨hs, h1, h2⟩
      refine ⟨hs, ?_⟩
      omega
    · rintro ⟨hs, h⟩
      refine ⟨hs, ?_, ?_⟩ <;> omega

/-- The liveness check of `handleTimeout`, when it does not mark the peer not
alive, changes the transport at most: the times, the visual sensor, the server
parameters and the count of `actionImpl()` calls are as before. -/
theorem timeoutLiveness_frame (env : Env) (s : CoachAgent) (waited_msec : Int)
    (hlive : (timeoutLiveness env s waited_msec).1 = true) :
    (timeoutLiveness env s waited_msec).2.last_decision_time_ = s.last_decision_time_
    ∧ (timeoutLiveness env s waited_msec).2.current_time_ = s.current_time_
    ∧ (timeoutLiveness env s waited_msec).2.visual_ = s.visual_
    ∧ (timeoutLiveness env s waited_msec).2.serverParam = s.serverParam
    ∧ (timeoutLiveness env s waited_msec).2.actionImplCalls = s.actionImplCalls := by
  unfold timeoutLiveness at hlive ⊢
  by_cases h1 : waited_msec > env.config.serverWaitSeconds * 1000
  · rw [if_pos h1] at hlive ⊢
    by_cases heye : env.config.useEye = true
    · rw [if_pos heye] at hlive
      exact Bool.noConfusion hlive
    · rw [if_neg heye] at hlive ⊢
      by_cases h2 : waited_msec > env.config.serverWaitSeconds * 2 * 1000
      · rw [if_pos h2] at hlive
        exact Bool.noConfusion hlive
      · rw [if_neg h2]
        unfold doCheckBall
        rw [sendCommand_state]
        exact ⟨rfl, rfl, rfl, rfl, rfl⟩
  · rw [if_neg h1]
    exact ⟨rfl, rfl, rfl, rfl, rfl⟩

/-- C21: in a `handleTimeout` call whose liveness check does not mark the peer
not alive, `action()` is called iff the last decision time differs from the
current time and either the time of the visual sensor equals the current time or
`waited_msec >= 20 * slowDownFactor`; `actionImpl()` is then invoked once, and
not at all otherwise.  When the last decision time equals the current time the
call ends with the state the liveness check left. -/
theorem timeout_decision (env : Env) (s : CoachAgent) (timeout_count waited_msec : Int)
    (hlive : (timeoutLiveness env s waited_msec).1 = true) :
    handleTimeout env s timeout_count waited_msec
        = (if s.last_decision_time_ ≠ s.current_time_
              ∧ (env.visualTime s.visual_ = s.current_time_
                  ∨ waited_msec ≥ 20 * s.serverParam.slowDownFactor)
            then action env (timeoutLiveness env s waited_msec).2
            else (timeoutLiveness env s waited_msec).2)
    ∧ (handleTimeout env s timeout_count waited_msec).actionImplCalls
        = s.actionImplCalls
          + (if s.last_decision_time_ ≠ s.current_time_
                ∧ (env.visualTime s.visual_ = s.current_time_
                    ∨ waited_msec ≥ 20 * s.serverParam.slowDownFactor)
              then 1 else 0)
    ∧ (s.last_decision_time_ = s.current_time_ →
        handleTimeout env s timeout_count waited_msec = (timeoutLiveness env s waited_msec).2
        ∧ (handleTimeout env s timeout_count waited_msec).actionImplCalls
            = s.actionImplCalls) := by
  obtain ⟨hl, hc, hv, hp, ha⟩ := timeoutLiveness_frame env s waited_msec hlive
  have e : handleTimeout env s timeout_count waited_msec
      = timeoutDecision env (timeoutLiveness env s waited_msec).2 waited_msec := by
    unfold handleTimeout
    generalize timeoutLiveness env s waited_msec = r at hlive
    obtain ⟨b, s1⟩ := r
    cases b
    · exact Bool.noConfusion hlive
    · rfl
  have e1 : handleTimeout env s timeout_count waited_msec
        = (if s.last_decision_time_ ≠ s.current_time_
              ∧ (env.visualTime s.visual_ = s.current_time_
                  ∨ waited_msec ≥ 20 * s.serverParam.slowDownFactor)
            then action env (timeoutLiveness env s waited_msec).2
            else (timeoutLiveness env s waited_msec).2) := by
    rw [e]
    unfold timeoutDecision
    rw [hl, hc, hv, hp]
    by_cases hne : s.last_decision_time_ ≠ s.current_time_
    · rw [if_pos hne]
      by_cases hor : env.visualTime s.visual_ = s.current_time_
          ∨ waited_msec ≥ 20 * s.serverParam.slowDownFactor
      · rw [if_pos hor, if_pos ⟨hne, hor⟩]
      · rw [if_neg hor, if_neg (fun h => hor h.2)]
    · rw [if_neg hne, if_neg (fun h => hne h.1)]
  refine ⟨e1, ?_, ?_⟩
  · rw [e1]
    by_cases hcond : s.last_decision_time_ ≠ s.current_time_
        ∧ (env.visualTime s.visual_ = s.current_time_
            ∨ waited_msec ≥ 20 * s.serverParam.slowDownFactor)
    · rw [if_pos hcond, if_pos hcond, (action_frame env _).2.2, hl, hc, ha, if_pos hcond.1]
    · rw [if_neg hcond, if_neg hcond, ha, add_zero]
  · intro heq
    have hcond : ¬ (s.last_decision_time_ ≠ s.current_time_
        ∧ (env.visualTime s.visual_ = s.current_time_
            ∨ waited_msec ≥ 20 * s.serverParam.slowDownFactor)) := fun h => h.1 heq
    rw [e1, if_neg hcond]
    exact ⟨rfl, ha⟩

/-- C21 at a sample input: the fresh agent, whose last decision time `(-1, 0)`
differs from the current time `(0, 0)`, after a wait of 30 milliseconds with a
slow-down factor of 1. -/
theorem timeout_decision_witness :
    (timeoutLiveness (sampleEnv 7) sampleAgent 30).1 = true
    ∧ (handleTimeout (sampleEnv 7) sampleAgent 1 30).actionImplCalls = 1 :=
  ⟨by decide, by
    have h := (timeout_decision (sampleEnv 7) sampleAgent 1 30 (by decide)).2.1
    rw [h]
    decide⟩

/-- C26: `doChangePlayerType` returns false and sends nothing when `unum` is
outside `1..11`, or `type` is below `Hetero_Default`, or `type` is not below the
number of player types of `PlayerParam` (a line on `std::cerr` is all that
changes); otherwise, the command being rendered to a non-empty text, exactly one
change-player-type command for `(unum, type)` is sent, nothing else changes, and
the result is whether the transport wrote it. -/
theorem doChangePlayerType_contract (env : Env) (s : CoachAgent) (unum type : Int)
    (hstr : (env.toStr (CoachCommand.changePlayerType unum type)).length ≠ 0) :
    ((unum < 1 ∨ 11 < unum) →
        doChangePlayerType env s unum type
          = (false, { s with cerr := s.cerr ++ [Diag.illegalPlayerNumber unum] })
        ∧ (doChangePlayerType env s unum type).2.M_client = s.M_client)
    ∧ (1 ≤ unum → unum ≤ 11 →
        (type < env.Hetero_Default ∨ env.playerTypes s.playerParam ≤ type) →
        doChangePlayerType env s unum type
          = (false, { s with cerr := s.cerr ++ [Diag.illegalPlayerType type] })
        ∧ (doChangePlayerType env s unum type).2.M_client = s.M_client)
    ∧ (1 ≤ unum → unum ≤ 11 → env.Hetero_Default ≤ type →
        type < env.playerTypes s.playerParam →
        doChangePlayerType env s unum type
          = (decide (env.sendMessage s.M_client
                (env.toStr (CoachCommand.changePlayerType unum type)) > 0),
             { s with M_client := { s.M_client with
                 sent := s.M_client.sent
                   ++ [env.toStr (CoachCommand.changePlayerType unum type)] } })) := by
  refine ⟨?_, ?_, ?_⟩
  · intro h
    unfold doChangePlayerType
    rw [if_pos h]
    exact ⟨rfl, rfl⟩
  · intro h1 h2 h
    have hn : ¬ (unum < 1 ∨ 11 < unum) := by omega
    unfold doChangePlayerType
    rw [if_neg hn, if_pos h]
    exact ⟨rfl, rfl⟩
  · intro h1 h2 h3 h4
    have hn : ¬ (unum < 1 ∨ 11 < unum) := by omega
    have ht : ¬ (type < env.Hetero_Default ∨ env.playerTypes s.playerParam ≤ type) := by omega
    unfold doChangePlayerType
    rw [if_neg hn, if_neg ht]
    unfold sendCommand sendMessage
    simp only [hstr, if_false]

/-- C26 at a sample input: player 3 is given type 2 of 18. -/
theorem doChangePlayerType_contract_witness :
    (sampleToStr (CoachCommand.changePlayerType 3 2)).length ≠ 0
    ∧ doChangePlayerType (sampleEnv 7) sampleAgent 3 2
        = (true, { sampleAgent with M_client := { sampleAgent.M_client with
                     sent := ["(change_player_type 3 2)"] } }) :=
  ⟨by decide, by
    have h := (doChangePlayerType_contract (sampleEnv 7) sampleAgent 3 2 (by decide)).2.2
      (by decide) (by decide) (by decide) (by decide)
    rw [h]
    decide⟩

/-- The loop of `doChangePlayerTypes` over a list that ends with the pair `p`:
the result is that of `doChangePlayerType` for `p`, called in the state the
earlier pairs left. -/
theorem changePlayerTypesLoop_last (env : Env) (front : List (Int × Int)) (p : Int × Int)
    (acc : Bool × CoachAgent) :
    changePlayerTypesLoop env (front ++ [p]) acc
      = doChangePlayerType env (changePlayerTypesLoop env front acc).2 p.1 p.2 := by
  induction front generalizing acc with
  | nil => rfl
  | cons q rest ih =>
    simp only [List.cons_append, changePlayerTypesLoop]
    exact ih _

/-- The state after the loop of `doChangePlayerTypes` does not depend on the
value `result` had before the loop. -/
theorem changePlayerTypesLoop_state (env : Env) (types : List (Int × Int)) (b : Bool)
    (s : CoachAgent) :
    (changePlayerTypesLoop env types (b, s)).2
      = types.foldl (fun st p => (doChangePlayerType env st p.1 p.2).2) s := by
  induction types generalizing b s with
  | nil => rfl
  | cons q rest ih =>
    simp only [changePlayerTypesLoop, List.foldl_cons]
    exact ih _ _

/-- C27: `doChangePlayerTypes` returns false and changes nothing for an empty
list.  For a list that ends with the pair `p`, `doChangePlayerType` is called
for every pair in list order, each in the state the pairs before it left
whatever their results, and the value returned is the result of the call for
`p` alone.  So the value can be true although an earlier pair was rejected: for
the pairs `(0, 1), (3, 2)` the first call returns false and sends nothing, the
second sends its command, and `doChangePlayerTypes` returns true. -/
theorem doChangePlayerTypes_last (env : Env) (s : CoachAgent) (front : List (Int × Int))
    (p : Int × Int) :
    doChangePlayerTypes env s [] = (false, s)
    ∧ doChangePlayerTypes env s (front ++ [p])
        = doChangePlayerType env
            (front.foldl (fun st q => (doChangePlayerType env st q.1 q.2).2) s) p.1 p.2
    ∧ (doChangePlayerType (sampleEnv 7) sampleAgent 0 1).1 = false
    ∧ (doChangePlayerType (sampleEnv 7) sampleAgent 0 1).2.M_client.sent = []
    ∧ (doChangePlayerTypes (sampleEnv 7) sampleAgent [(0, 1), (3, 2)]).1 = true
    ∧ (doChangePlayerTypes (sampleEnv 7) sampleAgent [(0, 1), (3, 2)]).2.M_client.sent
        = ["(change_player_type 3 2)"] := by
  refine ⟨rfl, ?_, by decide, by decide, by decide, by decide⟩
  unfold doChangePlayerTypes
  have hne : (front ++ [p]).isEmpty = false := by
    cases front <;> rfl
  rw [hne]
  simp only [Bool.false_eq_true, if_false]
  rw [changePlayerTypesLoop_last, changePlayerTypesLoop_state]

/-- Attempts for missing tiles that are all within the quota: each returns
false, reports its tile on `std::cerr`, and leaves the transport alone. -/
theorem doTeamGraphic_missing_run (env : Env) (reqs : List TileRequest) (s : CoachAgent)
    (hmissing : ∀ q ∈ reqs, q.team_graphic q.x q.y = none)
    (hquota : nextSendCount s + (reqs.length : Int) ≤ env.config.maxTeamGraphicPerCycle + 1) :
    doTeamGraphicResults env reqs s = reqs.map (fun _ => false)
    ∧ (doTeamGraphicAll env reqs s).M_client = s.M_client
    ∧ (doTeamGraphicAll env reqs s).cerr
        = s.cerr ++ reqs.map (fun q => Diag.tileNotFound q.x q.y) := by
  induction reqs generalizing s with
  | nil => simp [doTeamGraphicResults, doTeamGraphicAll]
  | cons q rest ih =>
    have hq : q.team_graphic q.x q.y = none := hmissing q (List.mem_cons_self _ _)
    have hlen : nextSendCount s ≤ env.config.maxTeamGraphicPerCycle := by
      simp only [List.length_cons] at hquota
      push_cast at hquota
      omega
    have hout := (doTeamGraphic_outcome env s q.x q.y q.team_graphic).2.2 hlen hq
    have hnext : nextSendCount (doTeamGraphic env s q.x q.y q.team_graphic).2
        = nextSendCount s + 1 := by
      have h := doTeamGraphicAll_count env [q] s
      simpa [doTeamGraphicAll] using h
    have hrest := ih (doTeamGraphic env s q.x q.y q.team_graphic).2
      (fun q2 h2 => hmissing q2 (List.mem_cons_of_mem _ h2))
      (by
        rw [hnext]
        simp only [List.length_cons] at hquota
        push_cast at hquota
        omega)
    simp only [doTeamGraphicResults, doTeamGraphicAll, List.map_cons]
    refine ⟨by rw [hout.1, hrest.1], by rw [hrest.2.1, hout.2.1], ?_⟩
    rw [hrest.2.2, hout.2.2, List.append_assoc]
    rfl

/-- C28: every call of `doTeamGraphic` consumes upload quota, whatever it
returns: the count is incremented before the quota check and the tile lookup.
At an unchanged current time, with `N` the configured maximum per cycle and a
first attempt that meets a changed time (or a count never used), `N` attempts
for tiles missing from the team graphic all return false, each reporting its
tile and sending nothing; the attempt that follows, for a tile the graphic
holds, takes the count to `N + 1`, returns false and sends nothing, although
the same attempt made first (with `N >= 1`) sends the tile. -/
theorem doTeamGraphic_failures_consume (env : Env) (s : CoachAgent) (reqs : List TileRequest)
    (r : TileRequest) (tile : String)
    (hfirst : s.send_time ≠ s.current_time_ ∨ s.send_count = 0)
    (hN : (reqs.length : Int) = env.config.maxTeamGraphicPerCycle)
    (hmissing : ∀ q ∈ reqs, q.team_graphic q.x q.y = none)
    (hexists : r.team_graphic r.x r.y = some tile) :
    (∀ (s0 : CoachAgent) (x y : Int) (tg : TeamGraphic),
        (doTeamGraphic env s0 x y tg).2.send_count = nextSendCount s0)
    ∧ doTeamGraphicResults env reqs s = reqs.map (fun _ => false)
    ∧ (doTeamGraphicAll env reqs s).cerr
        = s.cerr ++ reqs.map (fun q => Diag.tileNotFound q.x q.y)
    ∧ (doTeamGraphicAll env reqs s).M_client = s.M_client
    ∧ (doTeamGraphicAll env reqs s).current_time_ = s.current_time_
    ∧ (doTeamGraphic env (doTeamGraphicAll env reqs s) r.x r.y r.team_graphic).2.send_count
        = env.config.maxTeamGraphicPerCycle + 1
    ∧ (doTeamGraphic env (doTeamGraphicAll env reqs s) r.x r.y r.team_graphic).1 = false
    ∧ (doTeamGraphic env (doTeamGraphicAll env reqs s) r.x r.y r.team_graphic).2.M_client
        = s.M_client
    ∧ (1 ≤ env.config.maxTeamGraphicPerCycle →
        (doTeamGraphic env s r.x r.y r.team_graphic).2.M_client.sent
          = s.M_client.sent ++ [teamGraphicText r.x r.y tile]) := by
  have hone : nextSendCount s = 1 := by
    unfold nextSendCount
    rcases hfirst with h | h
    · simp [h]
    · by_cases ht : s.send_time = s.current_time_ <;> simp [ht, h]
  have hrun := doTeamGraphic_missing_run env reqs s hmissing (by rw [hone, hN]; omega)
  have hcount : nextSendCount (doTeamGraphicAll env reqs s)
      = env.config.maxTeamGraphicPerCycle + 1 := by
    rw [doTeamGraphicAll_count, hone, hN]; ring
  have hout := (doTeamGraphic_outcome env (doTeamGraphicAll env reqs s) r.x r.y
    r.team_graphic).1 (by rw [hcount]; omega)
  have hst := doTeamGraphic_statics env (doTeamGraphicAll env reqs s) r.x r.y r.team_graphic
  exact ⟨fun s0 x y tg => (doTeamGraphic_statics env s0 x y tg).1, hrun.1, hrun.2.2, hrun.2.1,
    (doTeamGraphicAll_time env reqs s).1, by rw [hst.1, hcount], hout.1,
    by rw [hout.2.1, hrun.2.1],
    fun h1 => ((doTeamGraphic_outcome env s r.x r.y r.team_graphic).2.1
      (by rw [hone]; exact h1) tile hexists).1⟩

/-- C28 at a sample input: the maximum per cycle is 2; the fresh agent asks
twice for the missing tile `(1, 1)` and then for the tile `(0, 0)`, which the
graphic holds: the third call returns false and nothing has been sent. -/
theorem doTeamGraphic_failures_consume_witness :
    (([missingTile, missingTile] : List TileRequest).length : Int)
        = (sampleEnv 7).config.maxTeamGraphicPerCycle
    ∧ sampleTile.team_graphic sampleTile.x sampleTile.y = some "XPM"
    ∧ doTeamGraphicResults (sampleEnv 7) [missingTile, missingTile] sampleAgent = [false, false]
    ∧ (doTeamGraphic (sampleEnv 7)
          (doTeamGraphicAll (sampleEnv 7) [missingTile, missingTile] sampleAgent)
          sampleTile.x sampleTile.y sampleTile.team_graphic).1 = false
    ∧ (doTeamGraphic (sampleEnv 7)
          (doTeamGraphicAll (sampleEnv 7) [missingTile, missingTile] sampleAgent)
          sampleTile.x sampleTile.y sampleTile.team_graphic).2.M_client.sent = [] := by
  have h := doTeamGraphic_failures_consume (sampleEnv 7) sampleAgent [missingTile, missingTile]
    sampleTile "XPM" (Or.inl (by decide)) (by decide)
    (by
      intro q hq
      simp only [List.mem_cons, List.mem_singleton, List.not_mem_nil, or_false, or_self] at hq
      subst hq
      rfl)
    rfl
  refine ⟨by decide, rfl, h.2.1, h.2.2.2.2.2.2.1, ?_⟩
  rw [h.2.2.2.2.2.2.2.1]
  rfl

/-- C29: the role names of `FormationSSL` are a total map on the player numbers
`1..11`.  A new formation gives `"Dummy"` for every number in `1..11`.  After
`setRoleName( u, name )` with `u` in `1..11`, `getRoleName( u )` gives `name`
and `getRoleName( v )` gives what it gave before for every `v` other than `u`.
For `u` outside `1..11`, `setRoleName` changes no role name (it reports on
`std::cerr` only) and `getRoleName( u )` gives the empty string. -/
theorem roleName_total_map (f : FormationSSL) (count u v : Int) (name : String) :
    (1 ≤ v → v ≤ 11 → ((FormationSSL.new count).getRoleName v).1 = "Dummy")
    ∧ (1 ≤ u → u ≤ 11 → ((f.setRoleName u name).getRoleName u).1 = name)
    ∧ (1 ≤ u → u ≤ 11 → v ≠ u →
        ((f.setRoleName u name).getRoleName v).1 = (f.getRoleName v).1)
    ∧ ((u < 1 ∨ 11 < u) →
        (f.setRoleName u name).M_role_name = f.M_role_name
        ∧ (f.setRoleName u name).count = f.count
        ∧ (f.setRoleName u name).calls = f.calls
        ∧ (f.getRoleName u).1 = ""
        ∧ ((f.setRoleName u name).getRoleName u).1 = "") := by
  refine ⟨?_, ?_, ?_, ?_⟩
  · intro h1 h2
    have hn : ¬ (v < 1 ∨ 11 < v) := by omega
    simp only [FormationSSL.getRoleName, hn, dite_false, FormationSSL.new]
  · intro h1 h2
    have hn : ¬ (u < 1 ∨ 11 < u) := by omega
    simp only [FormationSSL.getRoleName, FormationSSL.setRoleName, hn, dite_false,
      Function.update_same]
  · intro h1 h2 hne
    have hn : ¬ (u < 1 ∨ 11 < u) := by omega
    by_cases hv : v < 1 ∨ 11 < v
    · simp only [FormationSSL.getRoleName, hv, dite_true]
    · simp only [FormationSSL.getRoleName, FormationSSL.setRoleName, hn, hv, dite_false]
      apply Function.update_noteq
      intro h
      have := congrArg Fin.val h
      simp only at this
      omega
  · intro h
    simp only [FormationSSL.getRoleName, FormationSSL.setRoleName, h, dite_true, and_self]

/-- The member `count` is written by the constructor only: `createNewRole`
leaves it alone. -/
theorem createNewRole_count (f : FormationSSL) (unum : Int) (role_name : String)
    (type : SideType) : (f.createNewRole unum role_name type).count = f.count := by
  unfold FormationSSL.createNewRole FormationSSL.setRoleName
  by_cases h : unum < 1 ∨ 11 < unum
  · simp only [h, if_true]
  · cases type <;> simp only [h, if_false, dite_false]

/-- The filler loop of `createDefaultData` appends one filler position for
every value of its loop variable. -/
theorem filler_loop (l : List Int) (d : SampleData) :
    (l.foldl (fun d _ => d.push (161 / 50) (111 / 50)) d).ball_ = d.ball_
    ∧ (l.foldl (fun d _ => d.push (161 / 50) (111 / 50)) d).players_
        = d.players_ ++ List.replicate l.length { x := 161 / 50, y := 111 / 50 } := by
  induction l generalizing d with
  | nil => simp
  | cons i rest ih =>
    simp only [List.foldl_cons, List.length_cons, List.replicate_succ]
    rw [(ih _).1, (ih _).2]
    simp [SampleData.push]

/-- The sample `createDefaultData` builds, in terms of the positions pushed by
the blocks `if (count == k)`: the ball is at `(0, 0)` and the players are the
positions of the block of `count` (none when `count` is not in `1..5`) followed
by `11 - count` filler positions (none when `count > 11`). -/
theorem defaultData_players (f : FormationSSL) :
    (f.defaultData).2.ball_ = { x := 0, y := 0 }
    ∧ (f.defaultData).2.players_
        = (if f.count = 1 then [{ x := 1, y := -3 / 2 }]
           else if f.count = 2 then [{ x := 1, y := -3 / 2 }, { x := 1, y := 3 / 2 }]
           else if f.count = 3 then
             [{ x := 1, y := -3 / 2 }, { x := 1, y := 3 / 2 }, { x := -1 / 2, y := 0 }]
           else if f.count = 4 then
             [{ x := 1, y := -3 / 2 }, { x := 1, y := 3 / 2 }, { x := 0, y := -1 },
              { x := 0, y := 1 }]
           else if f.count = 5 then
             [{ x := 1, y := -3 / 2 }, { x := 1, y := 3 / 2 }, { x := 0, y := -1 },
              { x := 0, y := 1 }, { x := -1 / 2, y := 0 }]
           else ([] : List Vector2D))
          ++ List.replicate (11 - f.count).toNat { x := 161 / 50, y := 111 / 50 } := by
  have hlen : ∀ c : Int, (fillerIndices c).length = (11 - c).toNat := by
    intro c
    unfold fillerIndices
    rw [List.length_map, List.length_range]
  have pl : ∀ (c : Int) (d : SampleData),
      ((fillerIndices c).foldl (fun d _ => d.push (161 / 50) (111 / 50)) d).players_
        = d.players_ ++ List.replicate (11 - c).toNat { x := 161 / 50, y := 111 / 50 } := by
    intro c d
    rw [(filler_loop _ _).2, hlen]
  have pb : ∀ (c : Int) (d : SampleData),
      ((fillerIndices c).foldl (fun d _ => d.push (161 / 50) (111 / 50)) d).ball_ = d.ball_ :=
    fun c d => (filler_loop _ _).1
  unfold FormationSSL.defaultData
  simp only [createNewRole_count, FormationSSL.setSymmetryType, pl, pb]
  by_cases h1 : f.count = 1
  · simp [h1, SampleData.push, createNewRole_count]
  · by_cases h2 : f.count = 2
    · simp [h2, SampleData.push, createNewRole_count]
    · by_cases h3 : f.count = 3
      · simp [h3, SampleData.push, createNewRole_count]
      · by_cases h4 : f.count = 4
        · simp [h4, SampleData.push, createNewRole_count]
        · by_cases h5 : f.count = 5
          · simp [h5, SampleData.push, createNewRole_count]
          · simp [h1, h2, h3, h4, h5, SampleData.push, createNewRole_count]
/-- C30: the sample `createDefaultData` hands to `addData` has the ball at
`(0, 0)`, and it holds exactly 11 player positions iff `0 <= count <= 5`.  For
`count` in `1..5` the first `count` positions are those of the block
`if (count == ...)` and the other `11 - count` are the filler `(3.22, 2.22)`.
For `count` in `6..11` the sample holds `11 - count` positions only, all of them
fillers, which is fewer than 11.  (`count` is taken as a mathematical integer.) -/
theorem createDefaultData_sample (f : FormationSSL) :
    (f.defaultData).2.ball_ = { x := 0, y := 0 }
    ∧ f.createDefaultData.calls.getLast? = some (FormationCall.addData (f.defaultData).2)
    ∧ ((f.defaultData).2.players_.length = 11 ↔ (0 ≤ f.count ∧ f.count ≤ 5))
    ∧ (f.count = 1 → (f.defaultData).2.players_
        = [{ x := 1, y := -3 / 2 }]
          ++ List.replicate 10 { x := 161 / 50, y := 111 / 50 })
    ∧ (f.count = 2 → (f.defaultData).2.players_
        = [{ x := 1, y := -3 / 2 }, { x := 1, y := 3 / 2 }]
          ++ List.replicate 9 { x := 161 / 50, y := 111 / 50 })
    ∧ (f.count = 3 → (f.defaultData).2.players_
        = [{ x := 1, y := -3 / 2 }, { x := 1, y := 3 / 2 }, { x := -1 / 2, y := 0 }]
          ++ List.replicate 8 { x := 161 / 50, y := 111 / 50 })
    ∧ (f.count = 4 → (f.defaultData).2.players_
        = [{ x := 1, y := -3 / 2 }, { x := 1, y := 3 / 2 }, { x := 0, y := -1 },
           { x := 0, y := 1 }]
          ++ List.replicate 7 { x := 161 / 50, y := 111 / 50 })
    ∧ (f.count = 5 → (f.defaultData).2.players_
        = [{ x := 1, y := -3 / 2 }, { x := 1, y := 3 / 2 }, { x := 0, y := -1 },
           { x := 0, y := 1 }, { x := -1 / 2, y := 0 }]
          ++ List.replicate 6 { x := 161 / 50, y := 111 / 50 })
    ∧ (6 ≤ f.count → f.count ≤ 11 →
        (f.defaultData).2.players_
          = List.replicate (11 - f.count).toNat { x := 161 / 50, y := 111 / 50 }
        ∧ ((f.defaultData).2.players_.length : Int) = 11 - f.count
        ∧ (f.defaultData).2.players_.length < 11) := by
  obtain ⟨hb, hp⟩ := defaultData_players f
  refine ⟨hb, ?_, ?_, ?_, ?_, ?_, ?_, ?_, ?_⟩
  · simp [FormationSSL.createDefaultData]
  · rw [hp]
    by_cases h1 : f.count = 1
    · simp [h1]
    · by_cases h2 : f.count = 2
      · simp [h2]
      · by_cases h3 : f.count = 3
        · simp [h3]
        · by_cases h4 : f.count = 4
          · simp [h4]
          · by_cases h5 : f.count = 5
            · simp [h5]
            · simp only [h1, h2, h3, h4, h5, if_false, List.nil_append, List.length_replicate]
              omega
  · intro h
    rw [hp, h]
    rfl
  · intro h
    rw [hp, h]
    rfl
  · intro h
    rw [hp, h]
    rfl
  · intro h
    rw [hp, h]
    rfl
  · intro h
    rw [hp, h]
    rfl
  · intro h6 h11
    have h1 : f.count ≠ 1 := by omega
    have h2 : f.count ≠ 2 := by omega
    have h3 : f.count ≠ 3 := by omega
    have h4 : f.count ≠ 4 := by omega
    have h5 : f.count ≠ 5 := by omega
    rw [hp]
    simp only [h1, h2, h3, h4, h5, if_false, List.nil_append, List.length_replicate]
    refine ⟨trivial, ?_, ?_⟩ <;> omega

/-- A message that starts with two of the texts `a` and `b`: the shorter text
is the start of the longer one. -/
theorem strncmp_overlap (msg a b : String) (n m : Nat) (hnm : n ≤ m)
    (ha : strncmp msg a n = true) (hb : strncmp msg b m = true) :
    ((cstr b ++ [Char.ofNat 0]).take m).take n = (cstr a ++ [Char.ofNat 0]).take n := by
  unfold strncmp at ha hb
  have ha1 := eq_of_beq ha
  have hb1 := eq_of_beq hb
  rw [← ha1, ← hb1, List.take_take, Nat.min_eq_left hnm]

/-- Whether the text `h1`, not longer than `h2`, is the start of `h2`. -/
theorem recognisedHeads_apart :
    ∀ h1 ∈ recognisedHeads, ∀ h2 ∈ recognisedHeads, h1.2 ≤ h2.2 →
      ((cstr h2.1 ++ [Char.ofNat 0]).take h2.2).take h1.2
        = (cstr h1.1 ++ [Char.ofNat 0]).take h1.2 → h1 = h2 := by
  decide

/-- No message starts with two different texts of `recognisedHeads`. -/
theorem recognisedHeads_unique (msg : String) :
    ∀ h1 ∈ recognisedHeads, ∀ h2 ∈ recognisedHeads,
      strncmp msg h1.1 h1.2 = true → strncmp msg h2.1 h2.2 = true → h1 = h2 := by
  intro h1 hm1 h2 hm2 e1 e2
  rcases Nat.le_total h1.2 h2.2 with hle | hle
  · exact recognisedHeads_apart h1 hm1 h2 hm2 hle (strncmp_overlap msg h1.1 h2.1 h1.2 h2.2 hle e1 e2)
  · exact (recognisedHeads_apart h2 hm2 h1 hm1 hle
      (strncmp_overlap msg h2.1 h1.1 h2.2 h1.2 hle e2 e1)).symm

/-- The first element with a property that at most one element of the list
has does not depend on the order of the list. -/
theorem find_perm {α : Type} (p : α → Bool) (l1 l2 : List α) (hperm : l1.Perm l2)
    (huniq : ∀ x ∈ l2, ∀ y ∈ l2, p x = true → p y = true → x = y) :
    l1.find? p = l2.find? p := by
  cases e1 : l1.find? p with
  | none =>
    cases e2 : l2.find? p with
    | none => rfl
    | some y =>
      have hy := List.find?_some e2
      have hmem := hperm.symm.subset (List.mem_of_find?_eq_some e2)
      exact absurd hy (List.find?_eq_none.mp e1 y hmem)
  | some x =>
    have hx := List.find?_some e1
    have hxm := hperm.subset (List.mem_of_find?_eq_some e1)
    cases e2 : l2.find? p with
    | none => exact absurd hx (List.find?_eq_none.mp e2 x hxm)
    | some y =>
      have hy := List.find?_some e2
      have hym := List.mem_of_find?_eq_some e2
      rw [huniq x hxm y hym hx hy]

/-- The function `parse` runs the handler of the first text of
`recognisedHeads` the message starts with. -/
theorem parse_eq_parseInOrder (env : Env) (s : CoachAgent) (msg : String) :
    parse env s msg = parseInOrder recognisedHeads env s msg := by
  unfold parse parseInOrder firstHead recognisedHeads
  by_cases h1 : strncmp msg "(see_global " 12 = true
  · rw [if_pos h1]
    simp only [List.find?, h1]
    rfl
  rw [if_neg h1]
  have f1 : strncmp msg "(see_global " 12 = false := by simpa using h1
  by_cases h2 : strncmp msg "(hear " 6 = true
  · rw [if_pos h2]
    simp only [List.find?, f1, h2]
    rfl
  rw [if_neg h2]
  have f2 : strncmp msg "(hear " 6 = false := by simpa using h2
  by_cases h3 : strncmp msg "(think)" 7 = true
  · rw [if_pos h3]
    simp only [List.find?, f1, f2, h3]
    rfl
  rw [if_neg h3]
  have f3 : strncmp msg "(think)" 7 = false := by simpa using h3
  by_cases h4 : strncmp msg "(change_player_type " 20 = true
  · rw [if_pos h4]
    simp only [List.find?, f1, f2, f3, h4]
    rfl
  rw [if_neg h4]
  have f4 : strncmp msg "(change_player_type " 20 = false := by simpa using h4
  by_cases h5 : strncmp msg "(clang " 7 = true
  · rw [if_pos h5]
    simp only [List.find?, f1, f2, f3, f4, h5]
    rfl
  rw [if_neg h5]
  have f5 : strncmp msg "(clang " 7 = false := by simpa using h5
  by_cases h6 : strncmp msg "(player_type " 13 = true
  · rw [if_pos h6]
    simp only [List.find?, f1, f2, f3, f4, f5, h6]
    rfl
  rw [if_neg h6]
  have f6 : strncmp msg "(player_type " 13 = false := by simpa using h6
  by_cases h7 : strncmp msg "(player_param " 14 = true
  · rw [if_pos h7]
    simp only [List.find?, f1, f2, f3, f4, f5, f6, h7]
    rfl
  rw [if_neg h7]
  have f7 : strncmp msg "(player_param " 14 = false := by simpa using h7
  by_cases h8 : strncmp msg "(server_param " 14 = true
  · rw [if_pos h8]
    simp only [List.find?, f1, f2, f3, f4, f5, f6, f7, h8]
    rfl
  rw [if_neg h8]
  have f8 : strncmp msg "(server_param " 14 = false := by simpa using h8
  by_cases h9 : strncmp msg "(ok " 4 = true
  · rw [if_pos h9]
    simp only [List.find?, f1, f2, f3, f4, f5, f6, f7, f8, h9]
    rfl
  rw [if_neg h9]
  have f9 : strncmp msg "(ok " 4 = false := by simpa using h9
  by_cases h10 : strncmp msg "(error " 7 = true
  · rw [if_pos h10]
    simp only [List.find?, f1, f2, f3, f4, f5, f6, f7, f8, f9, h10]
    rfl
  rw [if_neg h10]
  have f10 : strncmp msg "(error " 7 = false := by simpa using h10
  by_cases h11 : strncmp msg "(warning " 9 = true
  · rw [if_pos h11]
    simp only [List.find?, f1, f2, f3, f4, f5, f6, f7, f8, f9, f10, h11]
    rfl
  rw [if_neg h11]
  have f11 : strncmp msg "(warning " 9 = false := by simpa using h11
  by_cases h12 : strncmp msg "(score " 7 = true
  · rw [if_pos h12]
    simp only [List.find?, f1, f2, f3, f4, f5, f6, f7, f8, f9, f10, f11, h12]
    rfl
  rw [if_neg h12]
  have f12 : strncmp msg "(score " 7 = false := by simpa using h12
  by_cases h13 : strncmp msg "(init " 6 = true
  · rw [if_pos h13]
    simp only [List.find?, f1, f2, f3, f4, f5, f6, f7, f8, f9, f10, f11, f12, h13]
    rfl
  rw [if_neg h13]
  have f13 : strncmp msg "(init " 6 = false := by simpa using h13
  by_cases h14 : strncmp msg "(include " 9 = true
  · rw [if_pos h14]
    simp only [List.find?, f1, f2, f3, f4, f5, f6, f7, f8, f9, f10, f11, f12, f13, h14]
    rfl
  rw [if_neg h14]
  have f14 : strncmp msg "(include " 9 = false := by simpa using h14
  simp only [List.find?, f1, f2, f3, f4, f5, f6, f7, f8, f9, f10, f11, f12, f13, f14]
  rfl
/-- C25: `parse` tests fourteen different texts, and no message starts with two
of them.  So the handler `parse` runs, the one of the first text in the order of
the source the message starts with, is the handler of the first such text in any
other order `order` of the fourteen tests. -/
theorem parse_order_free (env : Env) (s : CoachAgent) (msg : String)
    (order : List (String × Nat)) (hperm : order.Perm recognisedHeads) :
    recognisedHeads.length = 14
    ∧ recognisedHeads.Nodup
    ∧ (∀ h1 ∈ recognisedHeads, ∀ h2 ∈ recognisedHeads,
        strncmp msg h1.1 h1.2 = true → strncmp msg h2.1 h2.2 = true → h1 = h2)
    ∧ firstHead order msg = firstHead recognisedHeads msg
    ∧ parse env s msg = parseInOrder recognisedHeads env s msg
    ∧ parseInOrder order env s msg = parse env s msg := by
  have hfirst : firstHead order msg = firstHead recognisedHeads msg :=
    find_perm _ order recognisedHeads hperm (recognisedHeads_unique msg)
  refine ⟨rfl, by decide, recognisedHeads_unique msg, hfirst, parse_eq_parseInOrder env s msg, ?_⟩
  rw [parse_eq_parseInOrder]
  unfold parseInOrder
  rw [hfirst]

/-- C25 at a sample input: the tests made in the reverse order of the source
choose the handler of `(hear ` for a referee message, as `parse` does. -/
theorem parse_order_free_witness :
    (recognisedHeads.reverse).Perm recognisedHeads
    ∧ firstHead recognisedHeads.reverse "(hear 10 referee play_on)" = some ("(hear ", 6)
    ∧ parseInOrder recognisedHeads.reverse refereeEnv sampleAgent "(hear 10 referee play_on)"
        = parse refereeEnv sampleAgent "(hear 10 referee play_on)" :=
  ⟨List.reverse_perm _,
   ((parse_order_free refereeEnv sampleAgent "(hear 10 referee play_on)"
      recognisedHeads.reverse (List.reverse_perm _)).2.2.2.1).trans (by decide),
   (parse_order_free refereeEnv sampleAgent "(hear 10 referee play_on)"
      recognisedHeads.reverse (List.reverse_perm _)).2.2.2.2.2⟩

/-- The function `analyzeChangePlayerType` leaves the clock-mode flag and the
current time alone. -/
theorem analyzeChangePlayerType_clock (env : Env) (s : CoachAgent) (msg : String) :
    (analyzeChangePlayerType env s msg).server_cycle_stopped_ = s.server_cycle_stopped_
    ∧ (analyzeChangePlayerType env s msg).current_time_ = s.current_time_ := by
  unfold analyzeChangePlayerType
  repeat' split
  all_goals exact ⟨rfl, rfl⟩

/-- The function `analyzeOK` leaves the clock-mode flag and the current time
alone. -/
theorem analyzeOK_clock (env : Env) (s : CoachAgent) (msg : String) :
    (analyzeOK env s msg).server_cycle_stopped_ = s.server_cycle_stopped_
    ∧ (analyzeOK env s msg).current_time_ = s.current_time_ := by
  unfold analyzeOK
  split_ifs
  · exact ⟨rfl, rfl⟩
  · unfold analyzeOKTeamGraphic
    repeat' split
    all_goals exact ⟨rfl, rfl⟩
  · exact ⟨rfl, rfl⟩
  · exact ⟨rfl, rfl⟩
  · exact analyzeChangePlayerType_clock env s msg
  · split <;> exact ⟨rfl, rfl⟩
  · exact ⟨rfl, rfl⟩
  · unfold analyzeTeamNames
    repeat' split
    all_goals exact ⟨rfl, rfl⟩
  · exact ⟨rfl, rfl⟩

/-- The function `analyzeServerParam` leaves the clock-mode flag and the current
time alone. -/
theorem analyzeServerParam_clock (env : Env) (s : CoachAgent) (msg : String) :
    (analyzeServerParam env s msg).server_cycle_stopped_ = s.server_cycle_stopped_
    ∧ (analyzeServerParam env s msg).current_time_ = s.current_time_ := by
  unfold analyzeServerParam
  dsimp only
  split <;> exact ⟨rfl, rfl⟩

/-- The function `analyzeInit` leaves the clock-mode flag and the current time
alone. -/
theorem analyzeInit_clock (env : Env) (s : CoachAgent) (msg : String) :
    (analyzeInit env s msg).server_cycle_stopped_ = s.server_cycle_stopped_
    ∧ (analyzeInit env s msg).current_time_ = s.current_time_ := by
  unfold analyzeInit
  split
  · dsimp only
    split_ifs <;> (try simp only [doEye, sendCommand_state, setServerDead]) <;>
      first
        | exact ⟨rfl, rfl⟩
        | exact ⟨trivial, trivial⟩
        | (unfold openDebugLog; split_ifs <;> exact ⟨rfl, rfl⟩)
  · exact ⟨rfl, rfl⟩

/-- The function `analyzeHearReferee` leaves the current time alone, and it
changes the clock-mode flag only when the referee format scans and the game mode
accepts the scanned mode; the flag is then the answer of
`isServerCycleStoppedMode` for the updated game mode. -/
theorem analyzeHearReferee_clock (env : Env) (s : CoachAgent) (msg : String) :
    (analyzeHearReferee env s msg).current_time_ = s.current_time_
    ∧ ((analyzeHearReferee env s msg).server_cycle_stopped_ ≠ s.server_cycle_stopped_ →
        ∃ t mode, sscanf msg hearRefereeFormat = [ScanValue.int t, ScanValue.text mode]
          ∧ env.gameModeUpdate s.game_mode_ mode s.current_time_ = true
          ∧ (analyzeHearReferee env s msg).server_cycle_stopped_
              = env.isServerCycleStoppedMode
                  (s.game_mode_ ++ [{ mode := mode, current := s.current_time_ }])) := by
  unfold analyzeHearReferee
  split
  · rename_i t mode heq
    by_cases hacc : env.gameModeUpdate s.game_mode_ mode s.current_time_ = true
    · simp only [hacc, Bool.not_true, Bool.false_eq_true, if_false, updateServerStatus_state,
        sendByeCommand_state]
      split_ifs <;> exact ⟨rfl, fun _ => ⟨t, mode, heq, hacc, rfl⟩⟩
    · have hf : env.gameModeUpdate s.game_mode_ mode s.current_time_ = false := by
        simpa using hacc
      simp only [hf, Bool.not_false, if_true]
      split_ifs <;> exact ⟨rfl, fun h => absurd rfl h⟩
  · exact ⟨rfl, fun h => absurd rfl h⟩

/-- The function `analyzeHear`: the current time is written by
`updateCurrentTime` only, when the cycle of the message scans; the clock-mode
flag changes only when the sender scans as `referee`, the referee format scans
and the game mode accepts the scanned mode. -/
theorem analyzeHear_clock (env : Env) (s : CoachAgent) (msg : String) :
    (scanCycle msg = none →
        (analyzeHear env s msg).current_time_ = s.current_time_
        ∧ (analyzeHear env s msg).server_cycle_stopped_ = s.server_cycle_stopped_)
    ∧ (∀ c, scanCycle msg = some c →
        (analyzeHear env s msg).current_time_ = (updateCurrentTime s c false).current_time_
        ∧ ((analyzeHear env s msg).server_cycle_stopped_ ≠ s.server_cycle_stopped_ →
            ∃ t t2 mode,
              sscanf msg hearSenderFormat = [ScanValue.int t, ScanValue.text "referee"]
              ∧ sscanf msg hearRefereeFormat = [ScanValue.int t2, ScanValue.text mode]
              ∧ env.gameModeUpdate s.game_mode_ mode
                  (updateCurrentTime s c false).current_time_ = true
              ∧ (analyzeHear env s msg).server_cycle_stopped_
                  = env.isServerCycleStoppedMode
                      (s.game_mode_ ++
                        [{ mode := mode
                           current := (updateCurrentTime s c false).current_time_ }]))) := by
  refine ⟨?_, ?_⟩
  · intro hc
    unfold analyzeHear analyzeCycle
    simp only [hc, and_self]
  · intro c hc
    have hflag := updateCurrentTime_flag s c false
    have hmode : (updateCurrentTime s c false).game_mode_ = s.game_mode_ := by
      rw [updateCurrentTime_frame]
    have href := analyzeHearReferee_clock env (updateCurrentTime s c false) msg
    rw [hflag, hmode] at href
    unfold analyzeHear analyzeCycle
    simp only [hc]
    split
    · rename_i t sender heq
      by_cases hs : sender = "referee"
      · rw [if_pos hs]
        refine ⟨href.1, fun hne => ?_⟩
        obtain ⟨t2, mode, h1, h2, h3⟩ := href.2 hne
        exact ⟨t, t2, mode, by rw [heq, hs], h1, h2, h3⟩
      · rw [if_neg hs]
        split_ifs
        · unfold analyzeHearPlayer
          split_ifs <;> exact ⟨rfl, fun hne => absurd hflag hne⟩
        · exact ⟨rfl, fun hne => absurd hflag hne⟩
    · exact ⟨rfl, fun hne => absurd hflag hne⟩

/-- The function `analyzeSeeGlobal` leaves the clock-mode flag alone, and the
current time too when the cycle of the message does not scan. -/
theorem analyzeSeeGlobal_clock (env : Env) (s : CoachAgent) (msg : String) :
    (analyzeSeeGlobal env s msg).server_cycle_stopped_ = s.server_cycle_stopped_
    ∧ (scanCycle msg = none → (analyzeSeeGlobal env s msg).current_time_ = s.current_time_) := by
  cases hc : scanCycle msg with
  | none =>
    unfold analyzeSeeGlobal analyzeCycle
    simp only [hc, implies_true, and_self]
  | some c => exact ⟨(analyzeSeeGlobal_time env s msg c hc).2, fun h => Option.noConfusion h⟩

/-- The handler `parse` runs for a message that starts with `(see_global `. -/
theorem parse_see (env : Env) (s : CoachAgent) (msg : String)
    (h1 : strncmp msg "(see_global " 12 = true) :
    parse env s msg = analyzeSeeGlobal env s msg := by
  unfold parse
  rw [if_pos h1]

/-- The handler `parse` runs for a message that starts with `(hear `. -/
theorem parse_hear (env : Env) (s : CoachAgent) (msg : String)
    (h1 : strncmp msg "(see_global " 12 = false) (h2 : strncmp msg "(hear " 6 = true) :
    parse env s msg = analyzeHear env s msg := by
  unfold parse
  rw [if_neg (by rw [h1]; exact Bool.false_ne_true), if_pos h2]

/-- A message that starts neither with `(see_global ` nor with `(hear `: `parse`
leaves the clock-mode flag and the current time alone. -/
theorem parse_other_clock (env : Env) (s : CoachAgent) (msg : String)
    (h1 : strncmp msg "(see_global " 12 = false) (h2 : strncmp msg "(hear " 6 = false) :
    (parse env s msg).server_cycle_stopped_ = s.server_cycle_stopped_
    ∧ (parse env s msg).current_time_ = s.current_time_ := by
  unfold parse
  rw [if_neg (by rw [h1]; exact Bool.false_ne_true), if_neg (by rw [h2]; exact Bool.false_ne_true)]
  by_cases h3 : strncmp msg "(think)" 7 = true
  · rw [if_pos h3]; exact ⟨rfl, rfl⟩
  rw [if_neg h3]
  by_cases h4 : strncmp msg "(change_player_type " 20 = true
  · rw [if_pos h4]; exact analyzeChangePlayerType_clock env s msg
  rw [if_neg h4]
  by_cases h5 : strncmp msg "(clang " 7 = true
  · rw [if_pos h5]; exact ⟨rfl, rfl⟩
  rw [if_neg h5]
  by_cases h6 : strncmp msg "(player_type " 13 = true
  · rw [if_pos h6]; exact ⟨rfl, rfl⟩
  rw [if_neg h6]
  by_cases h7 : strncmp msg "(player_param " 14 = true
  · rw [if_pos h7]; exact ⟨rfl, rfl⟩
  rw [if_neg h7]
  by_cases h8 : strncmp msg "(server_param " 14 = true
  · rw [if_pos h8]; exact analyzeServerParam_clock env s msg
  rw [if_neg h8]
  by_cases h9 : strncmp msg "(ok " 4 = true
  · rw [if_pos h9]; exact analyzeOK_clock env s msg
  rw [if_neg h9]
  by_cases h10 : strncmp msg "(error " 7 = true
  · rw [if_pos h10]; exact ⟨rfl, rfl⟩
  rw [if_neg h10]
  by_cases h11 : strncmp msg "(warning " 9 = true
  · rw [if_pos h11]; exact ⟨rfl, rfl⟩
  rw [if_neg h11]
  by_cases h12 : strncmp msg "(score " 7 = true
  · rw [if_pos h12]; exact ⟨rfl, rfl⟩
  rw [if_neg h12]
  by_cases h13 : strncmp msg "(init " 6 = true
  · rw [if_pos h13]; exact analyzeInit_clock env s msg
  rw [if_neg h13]
  by_cases h14 : strncmp msg "(include " 9 = true
  · rw [if_pos h14]; exact ⟨rfl, rfl⟩
  rw [if_neg h14]
  exact ⟨rfl, rfl⟩

/-- C22: when `parse` changes the clock-mode flag, the message starts with
`(hear ` (and not with `(see_global `), its cycle scans, its sender scans as
`referee`, the referee format scans a mode, and the game mode accepts that mode
at the time `updateCurrentTime` has set; the flag is then the answer of
`isServerCycleStoppedMode` for the updated game mode.  For every other message
the flag after `parse` is the flag before. -/
theorem parse_flag_writer (env : Env) (s : CoachAgent) (msg : String)
    (hchanged : (parse env s msg).server_cycle_stopped_ ≠ s.server_cycle_stopped_) :
    strncmp msg "(see_global " 12 = false
    ∧ strncmp msg "(hear " 6 = true
    ∧ ∃ c t t2 mode,
        scanCycle msg = some c
        ∧ sscanf msg hearSenderFormat = [ScanValue.int t, ScanValue.text "referee"]
        ∧ sscanf msg hearRefereeFormat = [ScanValue.int t2, ScanValue.text mode]
        ∧ env.gameModeUpdate s.game_mode_ mode (updateCurrentTime s c false).current_time_ = true
        ∧ (parse env s msg).server_cycle_stopped_
            = env.isServerCycleStoppedMode
                (s.game_mode_ ++
                  [{ mode := mode, current := (updateCurrentTime s c false).current_time_ }]) := by
  cases h1 : strncmp msg "(see_global " 12 with
  | true =>
    rw [parse_see env s msg h1] at hchanged
    exact absurd (analyzeSeeGlobal_clock env s msg).1 hchanged
  | false =>
    cases h2 : strncmp msg "(hear " 6 with
    | false => exact absurd (parse_other_clock env s msg h1 h2).1 hchanged
    | true =>
      rw [parse_hear env s msg h1 h2] at hchanged ⊢
      refine ⟨rfl, rfl, ?_⟩
      cases hc : scanCycle msg with
      | none => exact absurd ((analyzeHear_clock env s msg).1 hc).2 hchanged
      | some c =>
        obtain ⟨t, t2, mode, e1, e2, e3, e4⟩ := ((analyzeHear_clock env s msg).2 c hc).2 hchanged
        exact ⟨c, t, t2, mode, rfl, e1, e2, e3, e4⟩

/-- C22 at a sample input: the fresh agent, whose clock is stopped, hears the
referee announce `play_on`, which the game mode accepts and which does not stop
the clock: the flag goes down. -/
theorem parse_flag_writer_witness :
    (parse refereeEnv sampleAgent "(hear 10 referee play_on)").server_cycle_stopped_
        ≠ sampleAgent.server_cycle_stopped_
    ∧ strncmp "(hear 10 referee play_on)" "(hear " 6 = true
    ∧ sscanf "(hear 10 referee play_on)" hearRefereeFormat
        = [ScanValue.int 10, ScanValue.text "play_on"] :=
  ⟨by decide,
   (parse_flag_writer refereeEnv sampleAgent "(hear 10 referee play_on)" (by decide)).2.1,
   by decide⟩

/-- The function `handleTimeout` leaves the current time alone. -/
theorem handleTimeout_time (env : Env) (s : CoachAgent) (timeout_count waited_msec : Int) :
    (handleTimeout env s timeout_count waited_msec).current_time_ = s.current_time_ := by
  have hlive : (timeoutLiveness env s waited_msec).2.current_time_ = s.current_time_ := by
    unfold timeoutLiveness doCheckBall
    split_ifs <;> first | rfl | (rw [sendCommand_state])
  unfold handleTimeout
  generalize timeoutLiveness env s waited_msec = r at hlive
  obtain ⟨b, s1⟩ := r
  cases b
  · exact hlive
  · show (timeoutDecision env s1 waited_msec).current_time_ = s.current_time_
    unfold timeoutDecision
    split_ifs
    · rw [(action_frame env s1).1]; exact hlive
    · exact hlive
    · exact hlive

/-- The function `doSayFreeform` leaves the current time alone. -/
theorem doSayFreeform_time (env : Env) (s : CoachAgent) (msg : String) :
    (doSayFreeform env s msg).2.current_time_ = s.current_time_ := by
  unfold doSayFreeform sendMessage
  split_ifs <;> first | rfl | (rw [sendCommand_state])

/-- The function `doChangePlayerType` leaves the current time alone. -/
theorem doChangePlayerType_time (env : Env) (s : CoachAgent) (unum type : Int) :
    (doChangePlayerType env s unum type).2.current_time_ = s.current_time_ := by
  unfold doChangePlayerType
  split_ifs <;> first | rfl | (rw [sendCommand_state])

/-- The function `doChangePlayerTypes` leaves the current time alone. -/
theorem doChangePlayerTypes_time (env : Env) (s : CoachAgent) (types : List (Int × Int)) :
    (doChangePlayerTypes env s types).2.current_time_ = s.current_time_ := by
  have hloop : ∀ (l : List (Int × Int)) (acc : Bool × CoachAgent),
      (changePlayerTypesLoop env l acc).2.current_time_ = acc.2.current_time_ := by
    intro l
    induction l with
    | nil => intro acc; rfl
    | cons p rest ih =>
      intro acc
      simp only [changePlayerTypesLoop]
      rw [ih, doChangePlayerType_time]
  unfold doChangePlayerTypes
  split_ifs
  · rfl
  · exact hloop types (true, s)

/-- C23: the current time is written by `updateCurrentTime` only.  For a
message that starts with `(see_global `, or with `(hear `, the time after
`parse` is the time after `updateCurrentTime` for the scanned cycle (as a
vision update for `(see_global `, not as one for `(hear `), and the time before
when the cycle does not scan.  A message that starts with neither, `(think)`
among them, leaves the time as it was.  The functions `action`,
`handleTimeout` and every `do...` command method leave the time as it was. -/
theorem current_time_writer (env : Env) (s : CoachAgent) (msg : String) :
    (strncmp msg "(see_global " 12 = true →
        (scanCycle msg = none → (parse env s msg).current_time_ = s.current_time_)
        ∧ (∀ c, scanCycle msg = some c →
            (parse env s msg).current_time_ = (updateCurrentTime s c true).current_time_))
    ∧ (strncmp msg "(see_global " 12 = false → strncmp msg "(hear " 6 = true →
        (scanCycle msg = none → (parse env s msg).current_time_ = s.current_time_)
        ∧ (∀ c, scanCycle msg = some c →
            (parse env s msg).current_time_ = (updateCurrentTime s c false).current_time_))
    ∧ (strncmp msg "(see_global " 12 = false → strncmp msg "(hear " 6 = false →
        (parse env s msg).current_time_ = s.current_time_)
    ∧ (strncmp msg "(think)" 7 = true → (parse env s msg).current_time_ = s.current_time_)
    ∧ (action env s).current_time_ = s.current_time_
    ∧ (∀ timeout_count waited_msec : Int,
        (handleTimeout env s timeout_count waited_msec).current_time_ = s.current_time_)
    ∧ (doCheckBall env s).2.current_time_ = s.current_time_
    ∧ (doLook env s).2.current_time_ = s.current_time_
    ∧ (doTeamNames env s).2.current_time_ = s.current_time_
    ∧ (∀ switch : Bool, (doEye env s switch).2.current_time_ = s.current_time_)
    ∧ (∀ unum type : Int, (doChangePlayerType env s unum type).2.current_time_ = s.current_time_)
    ∧ (∀ types : List (Int × Int),
        (doChangePlayerTypes env s types).2.current_time_ = s.current_time_)
    ∧ (∀ text : String, (doSayFreeform env s text).2.current_time_ = s.current_time_)
    ∧ (∀ (x y : Int) (team_graphic : TeamGraphic),
        (doTeamGraphic env s x y team_graphic).2.current_time_ = s.current_time_) := by
  refine ⟨?_, ?_, ?_, ?_, (action_frame env s).1, handleTimeout_time env s, ?_, ?_, ?_, ?_,
    doChangePlayerType_time env s, doChangePlayerTypes_time env s, doSayFreeform_time env s,
    fun x y tg => (doTeamGraphic_statics env s x y tg).2.2⟩
  · intro h1
    rw [parse_see env s msg h1]
    exact ⟨(analyzeSeeGlobal_clock env s msg).2,
      fun c hc => (analyzeSeeGlobal_time env s msg c hc).1⟩
  · intro h1 h2
    rw [parse_hear env s msg h1 h2]
    exact ⟨fun hc => ((analyzeHear_clock env s msg).1 hc).1,
      fun c hc => ((analyzeHear_clock env s msg).2 c hc).1⟩
  · intro h1 h2
    exact (parse_other_clock env s msg h1 h2).2
  · intro h3
    have hmem : ∀ h ∈ recognisedHeads, strncmp msg h.1 h.2 = true → h = ("(think)", 7) :=
      fun h hm e => recognisedHeads_unique msg h hm ("(think)", 7) (by decide) e h3
    have h1 : strncmp msg "(see_global " 12 = false := by
      cases e : strncmp msg "(see_global " 12 with
      | false => rfl
      | true => exact absurd (hmem ("(see_global ", 12) (by decide) e) (by decide)
    have h2 : strncmp msg "(hear " 6 = false := by
      cases e : strncmp msg "(hear " 6 with
      | false => rfl
      | true => exact absurd (hmem ("(hear ", 6) (by decide) e) (by decide)
    exact (parse_other_clock env s msg h1 h2).2
  · unfold doCheckBall; rw [sendCommand_state]
  · unfold doLook; rw [sendCommand_state]
  · unfold doTeamNames; rw [sendCommand_state]
  · intro switch; unfold doEye; rw [sendCommand_state]

end rcsc
